import Mathlib

/-!
# The Vulkan application `HelloTriangleApplication` and its model and camera

A shallow embedding of `src/src/vulkan.cpp`, `src/src/model.cpp` and `src/src/camera.cpp`:
* the swapchain parameter selection (`chooseSwapChainSurfaceFormat`,
  `chooseSwapChainPresentMode`, `chooseSwapExtent`, the image count of `createSwapChain`), the
  swapchain teardown and rebuild (`cleanupSwapchain`, `recreateSwapchain` and the `create*`
  members it calls) and the per-frame protocol (`drawFrame`);
* the texture with its mip chain (`createTextureImage`, `transitionImageLayout`,
  `generateMipmaps`), the memory type and format searches (`findMemoryType`,
  `findSupportedFormat`) and the vertex deduplication of `Model::loadModel`;
* the rotation state of `Model` (key events, accumulated durations, `getModelMatrix`) and the
  drag state of `Camera` (`setMouseButtonPressed`, `getViewMatrix`, `onMouseClick`);
* the start-up sequence `initVulkan`, the loop `mainLoop`, `cleanup` and `run`.

Conventions.
* Vulkan enumerations (`VkResult`, `VkFormat`, `VkPresentModeKHR`, ...) are carried by their
  numeric codes from the Vulkan headers, so that a statement over all codes also covers the
  enumerators the program never names.
* `uint32_t` quantities are natural numbers; where the program computes with them the
  wrap-around at `2^32` is written out.
* Handles are natural numbers, `VK_NULL_HANDLE` is `0`.
* `float` and `double` values are IEEE 754 values, and every operation on them rounds to the
  format of its type; positions in space and matrices are carried in exact arithmetic.
* The device and the window system are inputs: a `Driver` fixes what every call made during one
  `drawFrame` or `recreateSwapchain` answers.
* Member functions are state transformers on `State`, the member variables together with the
  log of device calls made so far.  A member function ends in an `Outcome`: it returns, it
  throws, or it runs into undefined behaviour (a read of element 0 of an empty vector).
-/

namespace Vulkan

set_option autoImplicit false

/-! ## Enumerations and plain structures of the Vulkan headers -/

abbrev Handle := Nat

def VK_NULL_HANDLE : Handle := 0

abbrev VkResult := Int

def VK_SUCCESS : VkResult := 0

def VK_SUBOPTIMAL_KHR : VkResult := 1000001003

def VK_ERROR_OUT_OF_DATE_KHR : VkResult := -1000001004

abbrev VkFormat := Nat

def VK_FORMAT_UNDEFINED : VkFormat := 0

def VK_FORMAT_R8G8B8A8_UNORM : VkFormat := 37

def VK_FORMAT_B8G8R8A8_UNORM : VkFormat := 44

def VK_FORMAT_D32_SFLOAT : VkFormat := 126

def VK_FORMAT_D24_UNORM_S8_UINT : VkFormat := 129

def VK_FORMAT_D32_SFLOAT_S8_UINT : VkFormat := 130

abbrev VkColorSpaceKHR := Nat

def VK_COLORSPACE_SRGB_NONLINEAR_KHR : VkColorSpaceKHR := 0

abbrev VkPresentModeKHR := Nat

def VK_PRESENT_MODE_IMMEDIATE_KHR : VkPresentModeKHR := 0

def VK_PRESENT_MODE_MAILBOX_KHR : VkPresentModeKHR := 1

def VK_PRESENT_MODE_FIFO_KHR : VkPresentModeKHR := 2

/-- The value of `std::numeric_limits<uint32_t>::max()`. -/
def UINT32_MAX : Nat := 4294967295

structure VkSurfaceFormatKHR where
  format : VkFormat
  colorSpace : VkColorSpaceKHR
  deriving DecidableEq, Repr

structure VkExtent2D where
  width : Nat
  height : Nat
  deriving DecidableEq, Repr

structure VkSurfaceCapabilitiesKHR where
  minImageCount : Nat
  maxImageCount : Nat
  currentExtent : VkExtent2D
  minImageExtent : VkExtent2D
  maxImageExtent : VkExtent2D
  currentTransform : Nat
  deriving DecidableEq, Repr

/-- The constant `WIDTH` of `vulkan.h`. -/
def WIDTH : Nat := 800

/-- The constant `HEIGHT` of `vulkan.h`. -/
def HEIGHT : Nat := 600

/-! ## Swapchain parameter selection -/

/-- The surface format the program prefers: the literal returned at `vulkan.cpp:1693`. -/
def preferredSurfaceFormat : VkSurfaceFormatKHR :=
  ⟨VK_FORMAT_B8G8R8A8_UNORM, VK_COLORSPACE_SRGB_NONLINEAR_KHR⟩

/-- The range-for of `chooseSwapChainSurfaceFormat` (`vulkan.cpp:1696-1703`): the first entry
that is B8G8R8A8_UNORM with the sRGB non-linear colour space, if there is one. -/
def chooseSwapChainSurfaceFormat.search : List VkSurfaceFormatKHR → Option VkSurfaceFormatKHR
  | [] => none
  | availableFormat :: rest =>
    if VK_FORMAT_B8G8R8A8_UNORM = availableFormat.format
        ∧ VK_COLORSPACE_SRGB_NONLINEAR_KHR = availableFormat.colorSpace then
      some availableFormat
    else
      chooseSwapChainSurfaceFormat.search rest

/-- Method `HelloTriangleApplication::chooseSwapChainSurfaceFormat` (`vulkan.cpp:1687-1706`).
`none` stands for the read of `availableFormats[0]` on an empty vector. -/
def chooseSwapChainSurfaceFormat (availableFormats : List VkSurfaceFormatKHR) :
    Option VkSurfaceFormatKHR :=
  if 1 = availableFormats.length
      ∧ (availableFormats.head?.map fun f => f.format) = some VK_FORMAT_UNDEFINED then
    some preferredSurfaceFormat
  else
    match chooseSwapChainSurfaceFormat.search availableFormats with
    | some availableFormat => some availableFormat
    | none => availableFormats.head?

/-- The range-for of `chooseSwapChainPresentMode` (`vulkan.cpp:1722-1732`), started with the
running value of `bestPresentationMode`. -/
def chooseSwapChainPresentMode.scan (bestPresentationMode : VkPresentModeKHR) :
    List VkPresentModeKHR → VkPresentModeKHR
  | [] => bestPresentationMode
  | presentationMode :: rest =>
    if VK_PRESENT_MODE_MAILBOX_KHR = presentationMode then
      presentationMode
    else if VK_PRESENT_MODE_IMMEDIATE_KHR = presentationMode then
      chooseSwapChainPresentMode.scan presentationMode rest
    else
      chooseSwapChainPresentMode.scan bestPresentationMode rest

/-- Method `HelloTriangleApplication::chooseSwapChainPresentMode` (`vulkan.cpp:1719-1734`). -/
def chooseSwapChainPresentMode (availablePresentModes : List VkPresentModeKHR) :
    VkPresentModeKHR :=
  chooseSwapChainPresentMode.scan VK_PRESENT_MODE_FIFO_KHR availablePresentModes

/-- Method `HelloTriangleApplication::chooseSwapExtent` (`vulkan.cpp:1744-1767`). -/
def chooseSwapExtent (surfaceCapabilities : VkSurfaceCapabilitiesKHR) : VkExtent2D :=
  let actualExtent : VkExtent2D := ⟨WIDTH, HEIGHT⟩
  if surfaceCapabilities.currentExtent.width ≠ UINT32_MAX then
    surfaceCapabilities.currentExtent
  else
    { width := max surfaceCapabilities.minImageExtent.width
        (min surfaceCapabilities.maxImageExtent.width actualExtent.width)
      height := max surfaceCapabilities.minImageExtent.height
        (min surfaceCapabilities.maxImageExtent.height actualExtent.height) }

/-- The image count `createSwapChain` puts into `swapChainCreateInfo.minImageCount`
(`vulkan.cpp:1789-1796`), in `uint32_t` arithmetic. -/
def createSwapChain.imageCount (capabilities : VkSurfaceCapabilitiesKHR) : Nat :=
  let imageCount := (capabilities.minImageCount + 1) % 2 ^ 32
  if capabilities.maxImageCount > 0 ∧ imageCount > capabilities.maxImageCount then
    capabilities.maxImageCount
  else
    imageCount

/-! ## Further constants of the Vulkan headers used by the swapchain rebuild -/

def VK_IMAGE_TILING_OPTIMAL : Nat := 0

def VK_IMAGE_TILING_LINEAR : Nat := 1

def VK_IMAGE_ASPECT_COLOR_BIT : Nat := 1

def VK_IMAGE_ASPECT_DEPTH_BIT : Nat := 2

def VK_IMAGE_ASPECT_STENCIL_BIT : Nat := 4

def VK_IMAGE_LAYOUT_UNDEFINED : Nat := 0

def VK_IMAGE_LAYOUT_DEPTH_STENCIL_ATTACHMENT_OPTIMAL : Nat := 3

def VK_IMAGE_LAYOUT_SHADER_READ_ONLY_OPTIMAL : Nat := 5

def VK_IMAGE_LAYOUT_TRANSFER_SRC_OPTIMAL : Nat := 6

def VK_IMAGE_LAYOUT_TRANSFER_DST_OPTIMAL : Nat := 7

def VK_IMAGE_USAGE_COLOR_ATTACHMENT_BIT : Nat := 16

def VK_IMAGE_USAGE_DEPTH_STENCIL_ATTACHMENT_BIT : Nat := 32

def VK_MEMORY_PROPERTY_DEVICE_LOCAL_BIT : Nat := 1

def VK_FORMAT_FEATURE_DEPTH_STENCIL_ATTACHMENT_BIT : Nat := 512

def VK_PIPELINE_STAGE_TOP_OF_PIPE_BIT : Nat := 1

def VK_PIPELINE_STAGE_FRAGMENT_SHADER_BIT : Nat := 128

def VK_PIPELINE_STAGE_EARLY_FRAGMENT_TESTS_BIT : Nat := 256

def VK_PIPELINE_STAGE_COLOR_ATTACHMENT_OUTPUT_BIT : Nat := 1024

def VK_PIPELINE_STAGE_TRANSFER_BIT : Nat := 4096

def VK_ACCESS_SHADER_READ_BIT : Nat := 32

def VK_ACCESS_DEPTH_STENCIL_ATTACHMENT_READ_BIT : Nat := 512

def VK_ACCESS_DEPTH_STENCIL_ATTACHMENT_WRITE_BIT : Nat := 1024

def VK_ACCESS_TRANSFER_READ_BIT : Nat := 2048

def VK_ACCESS_TRANSFER_WRITE_BIT : Nat := 4096

def VK_FILTER_LINEAR : Nat := 1

def VK_MEMORY_PROPERTY_HOST_VISIBLE_BIT : Nat := 2

def VK_MEMORY_PROPERTY_HOST_COHERENT_BIT : Nat := 4

def VK_BUFFER_USAGE_TRANSFER_SRC_BIT : Nat := 1

def VK_SHARING_MODE_EXCLUSIVE : Nat := 0

def VK_SHARING_MODE_CONCURRENT : Nat := 1

structure VkFormatProperties where
  linearTilingFeatures : Nat
  optimalTilingFeatures : Nat
  deriving DecidableEq, Repr

structure VkMemoryType where
  propertyFlags : Nat
  heapIndex : Nat
  deriving DecidableEq, Repr

structure VkMemoryRequirements where
  size : Nat
  memoryTypeBits : Nat
  deriving DecidableEq, Repr

/-- The fields of `VkQueueFamilyProperties` that `findQueueFamilies` reads, together with the
answer of `vkGetPhysicalDeviceSurfaceSupportKHR` for that family. -/
structure VkQueueFamilyProperties where
  queueCount : Nat
  graphics : Bool
  presentSupport : Bool
  deriving DecidableEq, Repr

/-- The struct `QueueFamilyIndices` of `vulkan.h`. -/
structure QueueFamilyIndices where
  graphicsFamily : Int := -1
  presentFamily : Int := -1
  deriving DecidableEq, Repr

/-- Method `QueueFamilyIndices::isComplete` (`vulkan.h:35-38`). -/
def QueueFamilyIndices.isComplete (indices : QueueFamilyIndices) : Bool :=
  decide (indices.graphicsFamily ≥ 0) && decide (indices.presentFamily ≥ 0)

/-- The struct `SwapChainSupportDetails` of `vulkan.h`. -/
structure SwapChainSupportDetails where
  m_capabilities : VkSurfaceCapabilitiesKHR
  m_surfaceFormats : List VkSurfaceFormatKHR
  m_presentModes : List VkPresentModeKHR
  deriving DecidableEq, Repr

/-- The fields of `VkSwapchainCreateInfoKHR` that `createSwapChain` computes. -/
structure VkSwapchainCreateInfoKHR where
  surface : Handle
  imageExtent : VkExtent2D
  imageFormat : VkFormat
  minImageCount : Nat
  imageArrayLayers : Nat
  imageUsage : Nat
  imageSharingMode : Nat
  queueFamilyIndices : List Nat
  preTransform : Nat
  presentMode : VkPresentModeKHR
  oldSwapchain : Handle
  deriving DecidableEq, Repr

/-- The image memory barrier recorded by `transitionImageLayout`. -/
structure VkImageMemoryBarrier where
  image : Handle
  oldLayout : Nat
  newLayout : Nat
  aspectMask : Nat
  baseMipLevel : Nat
  levelCount : Nat
  srcAccessMask : Nat
  dstAccessMask : Nat
  deriving DecidableEq, Repr

/-- The fields of `VkImageBlit` that `generateMipmaps` fills in: both regions start at
offset (0, 0, 0), so each is given by its mip level and its far corner `offsets[1]`. -/
structure VkImageBlit where
  srcMipLevel : Nat
  srcWidth : Int
  srcHeight : Int
  srcDepth : Int
  dstMipLevel : Nat
  dstWidth : Int
  dstHeight : Int
  dstDepth : Int
  deriving DecidableEq, Repr

/-! ## The log of device calls

The log holds the calls that change what exists on the device or order work on it: creation,
destruction, allocation, memory binding, submission, presentation, waits and barriers, and the
window-size query with which `recreateSwapchain` starts.  Read-only queries of the physical
device and the recording of draw commands contribute their results only. -/

inductive Call where
  | vkAcquireNextImageKHR (swapchain semaphore : Handle)
  | vkQueueSubmit (queue : Handle) (waitSemaphores : List Handle)
      (commandBuffers : List (Option Handle)) (signalSemaphores : List Handle)
  | vkQueuePresentKHR (queue : Handle) (waitSemaphores swapchains : List Handle)
      (imageIndex : Nat)
  | vkQueueWaitIdle (queue : Handle)
  | vkDeviceWaitIdle
  | glfwGetWindowSize
  | vkDestroyImageView (imageView : Handle)
  | vkDestroyImage (image : Handle)
  | vkFreeMemory (memory : Handle)
  | vkDestroyFramebuffer (framebuffer : Handle)
  | vkFreeCommandBuffers (commandPool : Handle) (commandBuffers : List Handle)
  | vkDestroyPipeline (pipeline : Handle)
  | vkDestroyPipelineLayout (pipelineLayout : Handle)
  | vkDestroyRenderPass (renderPass : Handle)
  | vkDestroySwapchainKHR (swapchain : Handle)
  | vkDestroyShaderModule (shaderModule : Handle)
  | vkCreateSwapchainKHR (createInfo : VkSwapchainCreateInfoKHR)
  | vkCreateImageView (image : Handle) (format : VkFormat) (aspectFlags mipLevels : Nat)
  | vkCreateRenderPass (colorFormat depthFormat : VkFormat)
  | vkCreateShaderModule
  | vkCreatePipelineLayout (setLayout : Handle)
  | vkCreateGraphicsPipelines (layout renderPass : Handle) (viewport : VkExtent2D)
  | vkCreateImage (width height mipLevels : Nat) (format : VkFormat) (tiling usage : Nat)
  | vkAllocateMemory (allocationSize memoryTypeIndex : Nat)
  | vkBindImageMemory (image memory : Handle)
  | vkCreateFramebuffer (renderPass : Handle) (attachments : List Handle)
      (extent : VkExtent2D)
  | vkAllocateCommandBuffers (commandPool : Handle) (commandBufferCount : Nat)
  | vkCmdPipelineBarrier (commandBuffer : Handle) (srcStage dstStage : Nat)
      (barrier : VkImageMemoryBarrier)
  | vkCmdBlitImage (commandBuffer srcImage : Handle) (srcImageLayout : Nat)
      (dstImage : Handle) (dstImageLayout : Nat) (blit : VkImageBlit) (filter : Nat)
  | vkCreateBuffer (size usage : Nat)
  | vkBindBufferMemory (buffer memory : Handle)
  | vkDestroyBuffer (buffer : Handle)
  | vkCmdCopyBuffer (commandBuffer srcBuffer dstBuffer : Handle) (size : Nat)
  | vkCmdCopyBufferToImage (commandBuffer buffer image : Handle) (dstImageLayout : Nat)
      (mipLevel width height : Nat)
  | glfwInit
  | glfwCreateWindow (width height : Nat)
  | glfwSetWindowShouldClose (window : Handle)
  | glfwDestroyWindow (window : Handle)
  | glfwTerminate
  | vkCreateInstance (enabledExtensionCount enabledLayerCount : Nat)
  | vkDestroyInstance (vkInstance : Handle)
  | vkCreateDebugReportCallbackEXT (vkInstance : Handle)
  | vkDestroyDebugReportCallbackEXT (vkInstance callback : Handle)
  | glfwCreateWindowSurface (vkInstance window : Handle)
  | vkDestroySurfaceKHR (vkInstance surface : Handle)
  | vkCreateDevice (physicalDevice : Handle) (queueFamilyIndices : List Int)
      (enabledLayerCount : Nat)
  | vkDestroyDevice (device : Handle)
  | vkCreateDescriptorSetLayout
  | vkDestroyDescriptorSetLayout (descriptorSetLayout : Handle)
  | vkCreateCommandPool (queueFamilyIndex : Int)
  | vkDestroyCommandPool (commandPool : Handle)
  | vkCreateSampler (maxLod : Nat)
  | vkDestroySampler (sampler : Handle)
  | vkCreateDescriptorPool (maxSets : Nat)
  | vkDestroyDescriptorPool (descriptorPool : Handle)
  | vkAllocateDescriptorSets (descriptorPool : Handle) (descriptorSetCount : Nat)
  | vkUpdateDescriptorSets (dstSet buffer imageView sampler : Handle)
  | vkCreateSemaphore
  | vkDestroySemaphore (semaphore : Handle)
  deriving Repr

/-! ### Equality of calls

Two calls are equal when they have the same constructor and the same arguments; the equality
is decided on the tag and the list of arguments. -/

/-- An argument of a logged call. -/
inductive Call.Argument where
  | nat (value : Nat)
  | int (value : Int)
  | nats (value : List Nat)
  | optionalNats (value : List (Option Nat))
  | ints (value : List Int)
  | swapchainCreateInfo (value : VkSwapchainCreateInfoKHR)
  | extent (value : VkExtent2D)
  | barrier (value : VkImageMemoryBarrier)
  | blit (value : VkImageBlit)
  deriving DecidableEq, Repr

def Call.Argument.nat? : Call.Argument → Option Nat
  | .nat value => some value
  | _ => none

def Call.Argument.int? : Call.Argument → Option Int
  | .int value => some value
  | _ => none

def Call.Argument.nats? : Call.Argument → Option (List Nat)
  | .nats value => some value
  | _ => none

def Call.Argument.optionalNats? : Call.Argument → Option (List (Option Nat))
  | .optionalNats value => some value
  | _ => none

def Call.Argument.ints? : Call.Argument → Option (List Int)
  | .ints value => some value
  | _ => none

def Call.Argument.swapchainCreateInfo? : Call.Argument → Option VkSwapchainCreateInfoKHR
  | .swapchainCreateInfo value => some value
  | _ => none

def Call.Argument.extent? : Call.Argument → Option VkExtent2D
  | .extent value => some value
  | _ => none

def Call.Argument.barrier? : Call.Argument → Option VkImageMemoryBarrier
  | .barrier value => some value
  | _ => none

def Call.Argument.blit? : Call.Argument → Option VkImageBlit
  | .blit value => some value
  | _ => none

/-- The position of the constructor of a call in the declaration of `Call`. -/
def Call.tag : Call → Nat
  | .vkAcquireNextImageKHR _ _ => 0
  | .vkQueueSubmit _ _ _ _ => 1
  | .vkQueuePresentKHR _ _ _ _ => 2
  | .vkQueueWaitIdle _ => 3
  | .vkDeviceWaitIdle => 4
  | .glfwGetWindowSize => 5
  | .vkDestroyImageView _ => 6
  | .vkDestroyImage _ => 7
  | .vkFreeMemory _ => 8
  | .vkDestroyFramebuffer _ => 9
  | .vkFreeCommandBuffers _ _ => 10
  | .vkDestroyPipeline _ => 11
  | .vkDestroyPipelineLayout _ => 12
  | .vkDestroyRenderPass _ => 13
  | .vkDestroySwapchainKHR _ => 14
  | .vkDestroyShaderModule _ => 15
  | .vkCreateSwapchainKHR _ => 16
  | .vkCreateImageView _ _ _ _ => 17
  | .vkCreateRenderPass _ _ => 18
  | .vkCreateShaderModule => 19
  | .vkCreatePipelineLayout _ => 20
  | .vkCreateGraphicsPipelines _ _ _ => 21
  | .vkCreateImage _ _ _ _ _ _ => 22
  | .vkAllocateMemory _ _ => 23
  | .vkBindImageMemory _ _ => 24
  | .vkCreateFramebuffer _ _ _ => 25
  | .vkAllocateCommandBuffers _ _ => 26
  | .vkCmdPipelineBarrier _ _ _ _ => 27
  | .vkCmdBlitImage _ _ _ _ _ _ _ => 28
  | .vkCreateBuffer _ _ => 29
  | .vkBindBufferMemory _ _ => 30
  | .vkDestroyBuffer _ => 31
  | .vkCmdCopyBuffer _ _ _ _ => 32
  | .vkCmdCopyBufferToImage _ _ _ _ _ _ _ => 33
  | .glfwInit => 34
  | .glfwCreateWindow _ _ => 35
  | .glfwSetWindowShouldClose _ => 36
  | .glfwDestroyWindow _ => 37
  | .glfwTerminate => 38
  | .vkCreateInstance _ _ => 39
  | .vkDestroyInstance _ => 40
  | .vkCreateDebugReportCallbackEXT _ => 41
  | .vkDestroyDebugReportCallbackEXT _ _ => 42
  | .glfwCreateWindowSurface _ _ => 43
  | .vkDestroySurfaceKHR _ _ => 44
  | .vkCreateDevice _ _ _ => 45
  | .vkDestroyDevice _ => 46
  | .vkCreateDescriptorSetLayout => 47
  | .vkDestroyDescriptorSetLayout _ => 48
  | .vkCreateCommandPool _ => 49
  | .vkDestroyCommandPool _ => 50
  | .vkCreateSampler _ => 51
  | .vkDestroySampler _ => 52
  | .vkCreateDescriptorPool _ => 53
  | .vkDestroyDescriptorPool _ => 54
  | .vkAllocateDescriptorSets _ _ => 55
  | .vkUpdateDescriptorSets _ _ _ _ => 56
  | .vkCreateSemaphore => 57
  | .vkDestroySemaphore _ => 58

/-- The arguments of a call, in order. -/
def Call.arguments : Call → List Call.Argument
  | .vkAcquireNextImageKHR a0 a1 => [.nat a0, .nat a1]
  | .vkQueueSubmit a0 a1 a2 a3 => [.nat a0, .nats a1, .optionalNats a2, .nats a3]
  | .vkQueuePresentKHR a0 a1 a2 a3 => [.nat a0, .nats a1, .nats a2, .nat a3]
  | .vkQueueWaitIdle a0 => [.nat a0]
  | .vkDeviceWaitIdle => []
  | .glfwGetWindowSize => []
  | .vkDestroyImageView a0 => [.nat a0]
  | .vkDestroyImage a0 => [.nat a0]
  | .vkFreeMemory a0 => [.nat a0]
  | .vkDestroyFramebuffer a0 => [.nat a0]
  | .vkFreeCommandBuffers a0 a1 => [.nat a0, .nats a1]
  | .vkDestroyPipeline a0 => [.nat a0]
  | .vkDestroyPipelineLayout a0 => [.nat a0]
  | .vkDestroyRenderPass a0 => [.nat a0]
  | .vkDestroySwapchainKHR a0 => [.nat a0]
  | .vkDestroyShaderModule a0 => [.nat a0]
  | .vkCreateSwapchainKHR a0 => [.swapchainCreateInfo a0]
  | .vkCreateImageView a0 a1 a2 a3 => [.nat a0, .nat a1, .nat a2, .nat a3]
  | .vkCreateRenderPass a0 a1 => [.nat a0, .nat a1]
  | .vkCreateShaderModule => []
  | .vkCreatePipelineLayout a0 => [.nat a0]
  | .vkCreateGraphicsPipelines a0 a1 a2 => [.nat a0, .nat a1, .extent a2]
  | .vkCreateImage a0 a1 a2 a3 a4 a5 => [.nat a0, .nat a1, .nat a2, .nat a3, .nat a4, .nat a5]
  | .vkAllocateMemory a0 a1 => [.nat a0, .nat a1]
  | .vkBindImageMemory a0 a1 => [.nat a0, .nat a1]
  | .vkCreateFramebuffer a0 a1 a2 => [.nat a0, .nats a1, .extent a2]
  | .vkAllocateCommandBuffers a0 a1 => [.nat a0, .nat a1]
  | .vkCmdPipelineBarrier a0 a1 a2 a3 => [.nat a0, .nat a1, .nat a2, .barrier a3]
  | .vkCmdBlitImage a0 a1 a2 a3 a4 a5 a6 =>
      [.nat a0, .nat a1, .nat a2, .nat a3, .nat a4, .blit a5, .nat a6]
  | .vkCreateBuffer a0 a1 => [.nat a0, .nat a1]
  | .vkBindBufferMemory a0 a1 => [.nat a0, .nat a1]
  | .vkDestroyBuffer a0 => [.nat a0]
  | .vkCmdCopyBuffer a0 a1 a2 a3 => [.nat a0, .nat a1, .nat a2, .nat a3]
  | .vkCmdCopyBufferToImage a0 a1 a2 a3 a4 a5 a6 =>
      [.nat a0, .nat a1, .nat a2, .nat a3, .nat a4, .nat a5, .nat a6]
  | .glfwInit => []
  | .glfwCreateWindow a0 a1 => [.nat a0, .nat a1]
  | .glfwSetWindowShouldClose a0 => [.nat a0]
  | .glfwDestroyWindow a0 => [.nat a0]
  | .glfwTerminate => []
  | .vkCreateInstance a0 a1 => [.nat a0, .nat a1]
  | .vkDestroyInstance a0 => [.nat a0]
  | .vkCreateDebugReportCallbackEXT a0 => [.nat a0]
  | .vkDestroyDebugReportCallbackEXT a0 a1 => [.nat a0, .nat a1]
  | .glfwCreateWindowSurface a0 a1 => [.nat a0, .nat a1]
  | .vkDestroySurfaceKHR a0 a1 => [.nat a0, .nat a1]
  | .vkCreateDevice a0 a1 a2 => [.nat a0, .ints a1, .nat a2]
  | .vkDestroyDevice a0 => [.nat a0]
  | .vkCreateDescriptorSetLayout => []
  | .vkDestroyDescriptorSetLayout a0 => [.nat a0]
  | .vkCreateCommandPool a0 => [.int a0]
  | .vkDestroyCommandPool a0 => [.nat a0]
  | .vkCreateSampler a0 => [.nat a0]
  | .vkDestroySampler a0 => [.nat a0]
  | .vkCreateDescriptorPool a0 => [.nat a0]
  | .vkDestroyDescriptorPool a0 => [.nat a0]
  | .vkAllocateDescriptorSets a0 a1 => [.nat a0, .nat a1]
  | .vkUpdateDescriptorSets a0 a1 a2 a3 => [.nat a0, .nat a1, .nat a2, .nat a3]
  | .vkCreateSemaphore => []
  | .vkDestroySemaphore a0 => [.nat a0]

/-- The call with a given tag and arguments: the inverse of `Call.tag` and `Call.arguments`. -/
def Call.ofTag (tag : Nat) (arguments : List Call.Argument) : Option Call :=
  match tag with
  | 0 => do
    let a0 ← arguments[0]? >>= Call.Argument.nat?
    let a1 ← arguments[1]? >>= Call.Argument.nat?
    some (.vkAcquireNextImageKHR a0 a1)
  | 1 => do
    let a0 ← arguments[0]? >>= Call.Argument.nat?
    let a1 ← arguments[1]? >>= Call.Argument.nats?
    let a2 ← arguments[2]? >>= Call.Argument.optionalNats?
    let a3 ← arguments[3]? >>= Call.Argument.nats?
    some (.vkQueueSubmit a0 a1 a2 a3)
  | 2 => do
    let a0 ← arguments[0]? >>= Call.Argument.nat?
    let a1 ← arguments[1]? >>= Call.Argument.nats?
    let a2 ← arguments[2]? >>= Call.Argument.nats?
    let a3 ← arguments[3]? >>= Call.Argument.nat?
    some (.vkQueuePresentKHR a0 a1 a2 a3)
  | 3 => do
    let a0 ← arguments[0]? >>= Call.Argument.nat?
    some (.vkQueueWaitIdle a0)
  | 4 => some .vkDeviceWaitIdle
  | 5 => some .glfwGetWindowSize
  | 6 => do
    let a0 ← arguments[0]? >>= Call.Argument.nat?
    some (.vkDestroyImageView a0)
  | 7 => do
    let a0 ← arguments[0]? >>= Call.Argument.nat?
    some (.vkDestroyImage a0)
  | 8 => do
    let a0 ← arguments[0]? >>= Call.Argument.nat?
    some (.vkFreeMemory a0)
  | 9 => do
    let a0 ← arguments[0]? >>= Call.Argument.nat?
    some (.vkDestroyFramebuffer a0)
  | 10 => do
    let a0 ← arguments[0]? >>= Call.Argument.nat?
    let a1 ← arguments[1]? >>= Call.Argument.nats?
    some (.vkFreeCommandBuffers a0 a1)
  | 11 => do
    let a0 ← arguments[0]? >>= Call.Argument.nat?
    some (.vkDestroyPipeline a0)
  | 12 => do
    let a0 ← arguments[0]? >>= Call.Argument.nat?
    some (.vkDestroyPipelineLayout a0)
  | 13 => do
    let a0 ← arguments[0]? >>= Call.Argument.nat?
    some (.vkDestroyRenderPass a0)
  | 14 => do
    let a0 ← arguments[0]? >>= Call.Argument.nat?
    some (.vkDestroySwapchainKHR a0)
  | 15 => do
    let a0 ← arguments[0]? >>= Call.Argument.nat?
    some (.vkDestroyShaderModule a0)
  | 16 => do
    let a0 ← arguments[0]? >>= Call.Argument.swapchainCreateInfo?
    some (.vkCreateSwapchainKHR a0)
  | 17 => do
    let a0 ← arguments[0]? >>= Call.Argument.nat?
    let a1 ← arguments[1]? >>= Call.Argument.nat?
    let a2 ← arguments[2]? >>= Call.Argument.nat?
    let a3 ← arguments[3]? >>= Call.Argument.nat?
    some (.vkCreateImageView a0 a1 a2 a3)
  | 18 => do
    let a0 ← arguments[0]? >>= Call.Argument.nat?
    let a1 ← arguments[1]? >>= Call.Argument.nat?
    some (.vkCreateRenderPass a0 a1)
  | 19 => some .vkCreateShaderModule
  | 20 => do
    let a0 ← arguments[0]? >>= Call.Argument.nat?
    some (.vkCreatePipelineLayout a0)
  | 21 => do
    let a0 ← arguments[0]? >>= Call.Argument.nat?
    let a1 ← arguments[1]? >>= Call.Argument.nat?
    let a2 ← arguments[2]? >>= Call.Argument.extent?
    some (.vkCreateGraphicsPipelines a0 a1 a2)
  | 22 => do
    let a0 ← arguments[0]? >>= Call.Argument.nat?
    let a1 ← arguments[1]? >>= Call.Argument.nat?
    let a2 ← arguments[2]? >>= Call.Argument.nat?
    let a3 ← arguments[3]? >>= Call.Argument.nat?
    let a4 ← arguments[4]? >>= Call.Argument.nat?
    let a5 ← arguments[5]? >>= Call.Argument.nat?
    some (.vkCreateImage a0 a1 a2 a3 a4 a5)
  | 23 => do
    let a0 ← arguments[0]? >>= Call.Argument.nat?
    let a1 ← arguments[1]? >>= Call.Argument.nat?
    some (.vkAllocateMemory a0 a1)
  | 24 => do
    let a0 ← arguments[0]? >>= Call.Argument.nat?
    let a1 ← arguments[1]? >>= Call.Argument.nat?
    some (.vkBindImageMemory a0 a1)
  | 25 => do
    let a0 ← arguments[0]? >>= Call.Argument.nat?
    let a1 ← arguments[1]? >>= Call.Argument.nats?
    let a2 ← arguments[2]? >>= Call.Argument.extent?
    some (.vkCreateFramebuffer a0 a1 a2)
  | 26 => do
    let a0 ← arguments[0]? >>= Call.Argument.nat?
    let a1 ← arguments[1]? >>= Call.Argument.nat?
    some (.vkAllocateCommandBuffers a0 a1)
  | 27 => do
    let a0 ← arguments[0]? >>= Call.Argument.nat?
    let a1 ← arguments[1]? >>= Call.Argument.nat?
    let a2 ← arguments[2]? >>= Call.Argument.nat?
    let a3 ← arguments[3]? >>= Call.Argument.barrier?
    some (.vkCmdPipelineBarrier a0 a1 a2 a3)
  | 28 => do
    let a0 ← arguments[0]? >>= Call.Argument.nat?
    let a1 ← arguments[1]? >>= Call.Argument.nat?
    let a2 ← arguments[2]? >>= Call.Argument.nat?
    let a3 ← arguments[3]? >>= Call.Argument.nat?
    let a4 ← arguments[4]? >>= Call.Argument.nat?
    let a5 ← arguments[5]? >>= Call.Argument.blit?
    let a6 ← arguments[6]? >>= Call.Argument.nat?
    some (.vkCmdBlitImage a0 a1 a2 a3 a4 a5 a6)
  | 29 => do
    let a0 ← arguments[0]? >>= Call.Argument.nat?
    let a1 ← arguments[1]? >>= Call.Argument.nat?
    some (.vkCreateBuffer a0 a1)
  | 30 => do
    let a0 ← arguments[0]? >>= Call.Argument.nat?
    let a1 ← arguments[1]? >>= Call.Argument.nat?
    some (.vkBindBufferMemory a0 a1)
  | 31 => do
    let a0 ← arguments[0]? >>= Call.Argument.nat?
    some (.vkDestroyBuffer a0)
  | 32 => do
    let a0 ← arguments[0]? >>= Call.Argument.nat?
    let a1 ← arguments[1]? >>= Call.Argument.nat?
    let a2 ← arguments[2]? >>= Call.Argument.nat?
    let a3 ← arguments[3]? >>= Call.Argument.nat?
    some (.vkCmdCopyBuffer a0 a1 a2 a3)
  | 33 => do
    let a0 ← arguments[0]? >>= Call.Argument.nat?
    let a1 ← arguments[1]? >>= Call.Argument.nat?
    let a2 ← arguments[2]? >>= Call.Argument.nat?
    let a3 ← arguments[3]? >>= Call.Argument.nat?
    let a4 ← arguments[4]? >>= Call.Argument.nat?
    let a5 ← arguments[5]? >>= Call.Argument.nat?
    let a6 ← arguments[6]? >>= Call.Argument.nat?
    some (.vkCmdCopyBufferToImage a0 a1 a2 a3 a4 a5 a6)
  | 34 => some .glfwInit
  | 35 => do
    let a0 ← arguments[0]? >>= Call.Argument.nat?
    let a1 ← arguments[1]? >>= Call.Argument.nat?
    some (.glfwCreateWindow a0 a1)
  | 36 => do
    let a0 ← arguments[0]? >>= Call.Argument.nat?
    some (.glfwSetWindowShouldClose a0)
  | 37 => do
    let a0 ← arguments[0]? >>= Call.Argument.nat?
    some (.glfwDestroyWindow a0)
  | 38 => some .glfwTerminate
  | 39 => do
    let a0 ← arguments[0]? >>= Call.Argument.nat?
    let a1 ← arguments[1]? >>= Call.Argument.nat?
    some (.vkCreateInstance a0 a1)
  | 40 => do
    let a0 ← arguments[0]? >>= Call.Argument.nat?
    some (.vkDestroyInstance a0)
  | 41 => do
    let a0 ← arguments[0]? >>= Call.Argument.nat?
    some (.vkCreateDebugReportCallbackEXT a0)
  | 42 => do
    let a0 ← arguments[0]? >>= Call.Argument.nat?
    let a1 ← arguments[1]? >>= Call.Argument.nat?
    some (.vkDestroyDebugReportCallbackEXT a0 a1)
  | 43 => do
    let a0 ← arguments[0]? >>= Call.Argument.nat?
    let a1 ← arguments[1]? >>= Call.Argument.nat?
    some (.glfwCreateWindowSurface a0 a1)
  | 44 => do
    let a0 ← arguments[0]? >>= Call.Argument.nat?
    let a1 ← arguments[1]? >>= Call.Argument.nat?
    some (.vkDestroySurfaceKHR a0 a1)
  | 45 => do
    let a0 ← arguments[0]? >>= Call.Argument.nat?
    let a1 ← arguments[1]? >>= Call.Argument.ints?
    let a2 ← arguments[2]? >>= Call.Argument.nat?
    some (.vkCreateDevice a0 a1 a2)
  | 46 => do
    let a0 ← arguments[0]? >>= Call.Argument.nat?
    some (.vkDestroyDevice a0)
  | 47 => some .vkCreateDescriptorSetLayout
  | 48 => do
    let a0 ← arguments[0]? >>= Call.Argument.nat?
    some (.vkDestroyDescriptorSetLayout a0)
  | 49 => do
    let a0 ← arguments[0]? >>= Call.Argument.int?
    some (.vkCreateCommandPool a0)
  | 50 => do
    let a0 ← arguments[0]? >>= Call.Argument.nat?
    some (.vkDestroyCommandPool a0)
  | 51 => do
    let a0 ← arguments[0]? >>= Call.Argument.nat?
    some (.vkCreateSampler a0)
  | 52 => do
    let a0 ← arguments[0]? >>= Call.Argument.nat?
    some (.vkDestroySampler a0)
  | 53 => do
    let a0 ← arguments[0]? >>= Call.Argument.nat?
    some (.vkCreateDescriptorPool a0)
  | 54 => do
    let a0 ← arguments[0]? >>= Call.Argument.nat?
    some (.vkDestroyDescriptorPool a0)
  | 55 => do
    let a0 ← arguments[0]? >>= Call.Argument.nat?
    let a1 ← arguments[1]? >>= Call.Argument.nat?
    some (.vkAllocateDescriptorSets a0 a1)
  | 56 => do
    let a0 ← arguments[0]? >>= Call.Argument.nat?
    let a1 ← arguments[1]? >>= Call.Argument.nat?
    let a2 ← arguments[2]? >>= Call.Argument.nat?
    let a3 ← arguments[3]? >>= Call.Argument.nat?
    some (.vkUpdateDescriptorSets a0 a1 a2 a3)
  | 57 => some .vkCreateSemaphore
  | 58 => do
    let a0 ← arguments[0]? >>= Call.Argument.nat?
    some (.vkDestroySemaphore a0)
  | _ => none

instance Call.instDecidableEq : DecidableEq Call := fun a b =>
  decidable_of_iff (a.tag = b.tag ∧ a.arguments = b.arguments)
    ⟨fun h =>
      have inverse : ∀ c : Call, Call.ofTag c.tag c.arguments = some c := by
        intro c
        cases c <;> rfl
      Option.some.inj (by rw [← inverse a, ← inverse b, h.1, h.2]),
     fun h => h ▸ ⟨rfl, rfl⟩⟩

/-! ## The types `float` and `double`

The C++ types `float` and `double` are the IEEE 754 formats binary32 and binary64.  A value
is carried exactly, as the number `mantissa * 2^exponent`, as an infinity or as a NaN, and
every operation rounds its exact result to the format of its type: to nearest, ties to even,
with gradual underflow and with overflow to an infinity.  The sign of a zero and the payload
of a NaN are not carried: the program divides by the constant `10.0f` and by the number of
ticks in a second only, and never looks at the bits of a value. -/

/-- A value of the C++ types `float` and `double`: the finite number
`mantissa * 2^exponent`, an infinity, or a NaN.  The operations below deliver a finite number
with an odd mantissa, and zero as `0 * 2^0`. -/
inductive FloatingPoint where
  | finite (mantissa exponent : Int)
  | infinity (negative : Bool)
  | nan
  deriving DecidableEq, Repr

/-- A binary floating-point format. -/
structure FloatingPoint.Format where
  /-- The number of binary digits of a mantissa -/
  precision : Nat
  /-- The exponent of the least positive value -/
  leastExponent : Int
  /-- Every finite value is smaller in magnitude than two to this power -/
  overflowExponent : Int

/-- The format of `float`: 24 digits, least positive value `2^-149`, every finite value
below `2^128`. -/
def FloatingPoint.binary32 : FloatingPoint.Format := ⟨24, -149, 128⟩

/-- The format of `double`: 53 digits, least positive value `2^-1074`, every finite value
below `2^1024`. -/
def FloatingPoint.binary64 : FloatingPoint.Format := ⟨53, -1074, 1024⟩

/-- The loop of `FloatingPoint.bitLength`: one digit per halving. -/
def FloatingPoint.bitLength.loop : Nat → Nat → Nat
  | 0, _ => 0
  | fuel + 1, n => if n = 0 then 0 else FloatingPoint.bitLength.loop fuel (n / 2) + 1

/-- The number of binary digits of a natural number: 0 for 0, and `k + 1` for the numbers
from `2^k` to `2^(k+1) - 1`. -/
def FloatingPoint.bitLength (n : Nat) : Nat := FloatingPoint.bitLength.loop n n

/-- Two to the power `s`, and 1 for a negative `s`. -/
def FloatingPoint.pow2 (s : Int) : Nat := 2 ^ s.toNat

/-- The whole number nearest to `num / den`, and the even one of the two nearest when
`num / den` lies half way between them. -/
def FloatingPoint.roundHalfEven (num den : Nat) : Nat :=
  let q := num / den
  let r := num % den
  if 2 * r < den then q else if den < 2 * r then q + 1 else q + q % 2

/-- The loop of `FloatingPoint.normalize`: factors of two move from the mantissa to the
exponent. -/
def FloatingPoint.normalize.loop : Nat → Nat → Int → Nat × Int
  | 0, n, e => (n, e)
  | fuel + 1, n, e =>
    if n % 2 = 0 then FloatingPoint.normalize.loop fuel (n / 2) (e + 1) else (n, e)

/-- The number `n * 2^e`, negated if `negative`, written with an odd mantissa; zero is
written `0 * 2^0`. -/
def FloatingPoint.normalize (negative : Bool) (n : Nat) (e : Int) : FloatingPoint :=
  if n = 0 then .finite 0 0
  else
    let r := FloatingPoint.normalize.loop n n e
    .finite (if negative = true then -(r.1 : Int) else (r.1 : Int)) r.2

/-- The value of the format nearest to the number `(num / den) * 2^e`, negated if `negative`.
With `floorLog2` the exponent of the leading digit of the number, the result is a multiple of
the quantum `2^(floorLog2 + 1 - precision)`, which leaves `precision` digits, and of the least
positive value of the format where that is larger (gradual underflow); a result of
`2^overflowExponent` or more is an infinity. -/
def FloatingPoint.Format.round (f : FloatingPoint.Format) (negative : Bool) (num den : Nat)
    (e : Int) : FloatingPoint :=
  if num = 0 then .finite 0 0
  else
    let d : Int := (FloatingPoint.bitLength num : Int) - (FloatingPoint.bitLength den : Int)
    let floorLog2 : Int :=
      if den * FloatingPoint.pow2 d ≤ num * FloatingPoint.pow2 (-d) then d else d - 1
    let quantum : Int := max (floorLog2 + e + 1 - f.precision) f.leastExponent
    let n := FloatingPoint.roundHalfEven (num * FloatingPoint.pow2 (e - quantum))
      (den * FloatingPoint.pow2 (quantum - e))
    if f.overflowExponent < (FloatingPoint.bitLength n : Int) + quantum then
      .infinity negative
    else FloatingPoint.normalize negative n quantum

/-- The negation of a value: exact in every format. -/
def FloatingPoint.neg : FloatingPoint → FloatingPoint
  | .finite m e => .finite (-m) e
  | .infinity negative => .infinity (!negative)
  | .nan => .nan

/-- The sum of two values, rounded to the format.  Infinities of opposite sign, and any sum
with a NaN, give a NaN. -/
def FloatingPoint.Format.add (f : FloatingPoint.Format) :
    FloatingPoint → FloatingPoint → FloatingPoint
  | .finite m1 e1, .finite m2 e2 =>
    let e := min e1 e2
    let sum : Int := m1 * FloatingPoint.pow2 (e1 - e) + m2 * FloatingPoint.pow2 (e2 - e)
    f.round (decide (sum < 0)) sum.natAbs 1 e
  | .finite _ _, .infinity negative => .infinity negative
  | .infinity negative, .finite _ _ => .infinity negative
  | .infinity negative, .infinity other =>
    if negative = other then .infinity negative else .nan
  | _, _ => .nan

/-- The quotient of two values, rounded to the format.  A finite number other than zero
divided by zero is an infinity with the sign of the dividend (the zero counts as positive);
zero by zero, infinity by infinity and any quotient with a NaN give a NaN. -/
def FloatingPoint.Format.div (f : FloatingPoint.Format) :
    FloatingPoint → FloatingPoint → FloatingPoint
  | .finite m1 e1, .finite m2 e2 =>
    if m2 = 0 then (if m1 = 0 then .nan else .infinity (decide (m1 < 0)))
    else f.round (decide (m1 < 0) != decide (m2 < 0)) m1.natAbs m2.natAbs (e1 - e2)
  | .finite _ _, .infinity _ => .finite 0 0
  | .infinity negative, .finite m _ => .infinity (negative != decide (m < 0))
  | _, _ => .nan

/-- The conversion of an integer to the format (`static_cast` from an integer type). -/
def FloatingPoint.Format.ofInt (f : FloatingPoint.Format) (n : Int) : FloatingPoint :=
  f.round (decide (n < 0)) n.natAbs 1 0

/-- The conversion of a value to the format (`static_cast` from the other floating-point
type). -/
def FloatingPoint.Format.convert (f : FloatingPoint.Format) : FloatingPoint → FloatingPoint
  | .finite m e => f.round (decide (m < 0)) m.natAbs 1 e
  | v => v

/-- The number that a finite value stands for; an infinity and a NaN stand for none. -/
def FloatingPoint.toRat : FloatingPoint → Option ℚ
  | .finite mantissa exponent => some (mantissa * 2 ^ exponent)
  | _ => none

/-- A value with a finite number written with an odd mantissa. -/
def FloatingPoint.canonical : FloatingPoint → FloatingPoint
  | .finite m e => FloatingPoint.normalize (decide (m < 0)) m.natAbs e
  | v => v

/-- The comparison `==`: false when either side is a NaN, otherwise whether the two sides are
the same number. -/
def FloatingPoint.operatorEq (a b : FloatingPoint) : Bool :=
  decide (a ≠ .nan) && decide (b ≠ .nan) && decide (a.canonical = b.canonical)

/-- The C++ type `float`. -/
structure float where
  value : FloatingPoint
  deriving DecidableEq, Repr

/-- The C++ type `double`. -/
structure double where
  value : FloatingPoint
  deriving DecidableEq, Repr

/-- The conversion of an integer to `float`. -/
def float.ofInt (n : Int) : float := ⟨FloatingPoint.binary32.ofInt n⟩

/-- The operator `+` on two `float`. -/
def float.add (a b : float) : float := ⟨FloatingPoint.binary32.add a.value b.value⟩

/-- The operator `-` on two `float`. -/
def float.sub (a b : float) : float := ⟨FloatingPoint.binary32.add a.value b.value.neg⟩

/-- The operator `/` on two `float`. -/
def float.div (a b : float) : float := ⟨FloatingPoint.binary32.div a.value b.value⟩

/-- The unary `-` on a `float`. -/
def float.neg (a : float) : float := ⟨a.value.neg⟩

/-- The operator `==` on two `float`. -/
def float.operatorEq (a b : float) : Bool := a.value.operatorEq b.value

/-- The conversion from `float` to `double`, which is exact: every `float` is a `double`. -/
def float.toDouble (a : float) : double := ⟨a.value⟩

instance float.instOfNat (n : Nat) : OfNat float n := ⟨float.ofInt n⟩

instance float.instAdd : Add float := ⟨float.add⟩

instance float.instSub : Sub float := ⟨float.sub⟩

instance float.instDiv : Div float := ⟨float.div⟩

instance float.instNeg : Neg float := ⟨float.neg⟩

/-- The conversion of an integer to `double`. -/
def double.ofInt (n : Int) : double := ⟨FloatingPoint.binary64.ofInt n⟩

/-- The operator `+` on two `double`. -/
def double.add (a b : double) : double := ⟨FloatingPoint.binary64.add a.value b.value⟩

/-- The operator `-` on two `double`. -/
def double.sub (a b : double) : double := ⟨FloatingPoint.binary64.add a.value b.value.neg⟩

/-- The operator `/` on two `double`. -/
def double.div (a b : double) : double := ⟨FloatingPoint.binary64.div a.value b.value⟩

/-- The conversion from `double` to `float`, which rounds. -/
def double.toFloat (a : double) : float := ⟨FloatingPoint.binary32.convert a.value⟩

instance double.instOfNat (n : Nat) : OfNat double n := ⟨double.ofInt n⟩

instance double.instAdd : Add double := ⟨double.add⟩

instance double.instSub : Sub double := ⟨double.sub⟩

instance double.instDiv : Div double := ⟨double.div⟩

/-! ## Data of the model and of the camera

The classes `Model` (`model.h`) and `Camera` (`camera.h`) are members of the application
object, so their data is declared here; their member functions follow further down, where the
convention for the clock is stated. -/

/-- The type `StdTime` (`model.h:13`), a reading of `std::chrono::steady_clock`, as the number
of ticks of the clock since its epoch; a tick is a nanosecond.  The readings and their
differences are taken to fit the `long long` of the clock, and are not bounded here. -/
abbrev StdTime := Int

/-- The type `glm::vec2` of a vertex attribute, with `float` components. -/
structure Vec2 where
  x : float
  y : float
  deriving DecidableEq, Repr

/-- The type `glm::vec3` of a vertex attribute, with `float` components. -/
structure Vec3 where
  x : float
  y : float
  z : float
  deriving DecidableEq, Repr

/-- The struct `Vertex`: the three members declared in `model.h:30-34`, and the member
`m_normal` that `loadModel` assigns (`model.cpp:272-278`), which takes no part in
`operator==`. -/
structure Vertex where
  m_position : Vec3 := ⟨0, 0, 0⟩
  m_color : Vec3 := ⟨0, 0, 0⟩
  m_texCoord : Vec2 := ⟨0, 0⟩
  m_normal : Vec3 := ⟨0, 0, 0⟩
  deriving DecidableEq, Repr

/-- The struct `tinyobj::index_t`. -/
structure index_t where
  vertex_index : Int
  normal_index : Int
  texcoord_index : Int
  deriving DecidableEq, Repr

/-- The struct `tinyobj::attrib_t`: three flat arrays of components. -/
structure attrib_t where
  vertices : List float
  normals : List float
  texcoords : List float
  deriving DecidableEq, Repr

/-- The struct `tinyobj::shape_t`, reduced to `mesh.indices`, its list of face corners. -/
structure shape_t where
  indices : List index_t
  deriving DecidableEq, Repr

/-- The type `glm::vec3` of a position in space.  Positions and matrices are carried in exact
arithmetic, with rational components: they stand for the transformation that the `float`
matrix of the program approximates. -/
structure glm.vec3 where
  x : ℚ
  y : ℚ
  z : ℚ
  deriving DecidableEq

/-- The type `glm::vec4`. -/
structure glm.vec4 where
  x : ℚ
  y : ℚ
  z : ℚ
  w : ℚ
  deriving DecidableEq

/-- The type `glm::mat4`, as the four rows of the matrix that acts on column vectors. -/
structure glm.mat4 where
  row0 : glm.vec4
  row1 : glm.vec4
  row2 : glm.vec4
  row3 : glm.vec4
  deriving DecidableEq

/-- The three rotation axes: the indices 0, 1, 2 of `m_lastUpdateTime`, `m_fKeyPressed` and
`m_fDirectionPositive`, and the members `m_xDuration`, `m_yDuration`, `m_zDuration` of
`m_durations`. -/
inductive Axis where
  | x
  | y
  | z
  deriving DecidableEq, Repr, Fintype

/-- The members of the class `Model` (`model.h:124-136`), together with `m_position` and
`m_center`, which `model.cpp` reads and writes (`model.cpp:26-27`, `129-134`, `420-443`). -/
structure Model where
  m_durations : Axis → float
  m_lastUpdateTime : Axis → StdTime
  m_fKeyPressed : Axis → Bool
  m_fDirectionPositive : Axis → Bool
  m_vertices : List Vertex
  m_indices : List Nat
  m_position : glm.vec3 := ⟨0, 0, 0⟩
  m_center : glm.vec3 := ⟨0, 0, 0⟩
  m_vkVertexBuffer : Handle := 0
  m_vkVertexBufferMemory : Handle := 0
  m_vkIndexBuffer : Handle := 0
  m_vkIndexBufferMemory : Handle := 0
  m_vkUniformBuffer : Handle := 0
  m_vkUniformBufferMemory : Handle := 0
  deriving DecidableEq

/-- The model as its constructor leaves it (`model.cpp:16-28`): no duration, no key held,
position and centre at the origin, null vertex buffer; the members that the constructor does
not initialise are set to zero and `false`. -/
def Model.initial : Model :=
  { m_durations := fun _ => 0
    m_lastUpdateTime := fun _ => 0
    m_fKeyPressed := fun _ => false
    m_fDirectionPositive := fun _ => false
    m_vertices := []
    m_indices := [] }

/-- The member variables of the class `Camera` (`camera.h:24-29`). -/
structure Camera where
  m_lastMousePosition : double × double
  m_currentMousePosition : double × double
  m_fMousePressed : Bool
  m_radius : float
  m_theta : float
  m_phi : float
  deriving DecidableEq

/-- The camera as its constructor leaves it (`camera.cpp:29-34`); the two pointer positions,
which the constructor does not initialise, are set to zero. -/
def Camera.initial : Camera :=
  { m_lastMousePosition := (0, 0)
    m_currentMousePosition := (0, 0)
    m_fMousePressed := false
    m_radius := 5
    m_theta := 0
    m_phi := 90 }

/-! ## Outcomes, member variables and the driver -/

/-- The `std::runtime_error` exceptions thrown on the paths of `drawFrame`; each constructor stands
for
one `throw` statement, named after its message. -/
inductive Error where
  /-- Thrown with the message `Failed to acquire swapchain image.` (`vulkan.cpp:164`). -/
  | failedToAcquireSwapchainImage
  /-- Thrown with the message `Failed to submit draw command buffer.` (`vulkan.cpp:184`). -/
  | failedToSubmitDrawCommandBuffer
  /-- Thrown with the message `Failed to present swapchain image.` (`vulkan.cpp:205`). -/
  | failedToPresentSwapchainImage
  /-- Thrown with the message `Could not obtain swap chain surface capabilites.`
  (`vulkan.cpp:1645`). -/
  | couldNotObtainSurfaceCapabilities
  /-- Thrown with the message `Could not query swap chain surface format details.`
  (`vulkan.cpp:1652`). -/
  | couldNotQuerySurfaceFormats
  /-- Thrown with the message `Could not query swap chain surface present modes.`
  (`vulkan.cpp:1666`). -/
  | couldNotQueryPresentModes
  /-- Thrown with the message `No queue family found.` (`vulkan.cpp:1599`). -/
  | noQueueFamilyFound
  /-- Thrown with the message `Swapchain creation failed.` (`vulkan.cpp:1833`). -/
  | swapchainCreationFailed
  /-- Thrown with the message `Could not query swap chain images.` (`vulkan.cpp:1839`). -/
  | couldNotQuerySwapChainImages
  /-- Thrown with the message `Could not create image view.` (`vulkan.cpp:1187`). -/
  | couldNotCreateImageView
  /-- Thrown with the message `Could not find the right format.` (`vulkan.cpp:1285`). -/
  | couldNotFindTheRightFormat
  /-- Thrown with the message `Could not create render pass.` (`vulkan.cpp:2233`). -/
  | couldNotCreateRenderPass
  /-- Thrown with the message `Failed to open file` (`vulkan.cpp:24`). -/
  | failedToOpenFile
  /-- Thrown with the message `Could not create shader module.` (`vulkan.cpp:2144`). -/
  | couldNotCreateShaderModule
  /-- Thrown with the message `Could not create pipeline layout.` (`vulkan.cpp:2039`). -/
  | couldNotCreatePipelineLayout
  /-- Thrown with the message `Could not create graphics pipeline` (`vulkan.cpp:2063`). -/
  | couldNotCreateGraphicsPipeline
  /-- Thrown with the message `Could not create texture image.` (`vulkan.cpp:578`). -/
  | couldNotCreateTextureImage
  /-- Thrown with the message `Could not allocate memory for texture image.` (`vulkan.cpp:590`). -/
  | couldNotAllocateImageMemory
  /-- Thrown with the message `Could not create command buffer for memory transfer.`
  (`utilities.cpp:111`). -/
  | couldNotCreateTransferCommandBuffer
  /-- Thrown with the message `Unsupported transition layout.` (`vulkan.cpp:663`). -/
  | unsupportedTransitionLayout
  /-- Thrown with the message `Could not create framebuffer` (`vulkan.cpp:2263`). -/
  | couldNotCreateFramebuffer
  /-- Thrown with the message `Could not create command buffers` (`vulkan.cpp:2316`). -/
  | couldNotCreateCommandBuffers
  /-- Thrown with the message `Failed to record comand buffer.` (`vulkan.cpp:2364`). -/
  | failedToRecordCommandBuffer
  /-- Thrown with the message `Could not create vertex buffer.` (`utilities.cpp:27`). -/
  | couldNotCreateVertexBuffer
  /-- Thrown with the message `Could not allocate vertex buffer memory on device.`
  (`utilities.cpp:41`). -/
  | couldNotAllocateVertexBufferMemory
  /-- Thrown with the message `GLFW library could not be initialized.` (`vulkan.cpp:952`). -/
  | glfwCouldNotBeInitialized
  /-- Thrown with the message `Validation layers requested, but not available!`
  (`vulkan.cpp:744`). -/
  | validationLayersNotAvailable
  /-- Thrown with the message `Failed to create vulkan instance!!` (`vulkan.cpp:776`). -/
  | failedToCreateInstance
  /-- Thrown with the message `failed to setup debug callback!` (`vulkan.cpp:1455`). -/
  | failedToSetupDebugCallback
  /-- Thrown with the message `Could not create a window surface.` (`vulkan.cpp:1472`). -/
  | couldNotCreateWindowSurface
  /-- Thrown with the message `failed to enumerate physical devices.` (`vulkan.cpp:1491`). -/
  | failedToEnumeratePhysicalDevices
  /-- Thrown with the message `No GPU found with Vulkan support! :(` (`vulkan.cpp:1496`). -/
  | noGpuFound
  /-- Thrown with the message `Failed to find a suitable GPU!` (`vulkan.cpp:1513`). -/
  | failedToFindSuitableGpu
  /-- Thrown with the message `Could not enumerate device extensions` (`vulkan.cpp:1563`). -/
  | couldNotEnumerateDeviceExtensions
  /-- Thrown with the message `Failed to create logical device!` (`vulkan.cpp:2119`). -/
  | failedToCreateLogicalDevice
  /-- Thrown with the message `Could not create descriptor set layout.` (`vulkan.cpp:291`). -/
  | couldNotCreateDescriptorSetLayout
  /-- Thrown with the message `Could not create command pool.` (`vulkan.cpp:2286`). -/
  | couldNotCreateCommandPool
  /-- Thrown with the message `Could not load texture image.` (`vulkan.cpp:496`). -/
  | couldNotLoadTextureImage
  /-- Thrown with the message `Could not create texture sampler.` (`vulkan.cpp:1220`). -/
  | couldNotCreateTextureSampler
  /-- Thrown with the error text of `tinyobj::LoadObj` (`model.cpp:251`). -/
  | couldNotLoadObj
  /-- Thrown with the message `Could not create descriptor pool` (`vulkan.cpp:413`). -/
  | couldNotCreateDescriptorPool
  /-- Thrown with the message `Could not create descriptor set` (`vulkan.cpp:437`). -/
  | couldNotCreateDescriptorSet
  /-- Thrown with the message `Semaphores could not be created.` (`vulkan.cpp:229`). -/
  | semaphoresCouldNotBeCreated
  deriving DecidableEq, Repr

/-- How a call of a member function ends: it returns (with a value), an exception leaves it, or
it runs into undefined behaviour (a read of element 0 of an empty vector, or control that
flows off the end of a value-returning function). -/
inductive Outcome (α : Type) where
  | returned (value : α)
  | threw (error : Error)
  | undefined
  deriving DecidableEq, Repr

/-- The places where the rebuild of the swapchain asks the device for a result or a new
handle. -/
inductive Site where
  /-- Call of `vkGetPhysicalDeviceSurfaceCapabilitiesKHR` in `querySwapChainSupportDetails` -/
  | surfaceCapabilities
  /-- The counting `vkGetPhysicalDeviceSurfaceFormatsKHR` in `querySwapChainSupportDetails` -/
  | surfaceFormats
  /-- The counting `vkGetPhysicalDeviceSurfacePresentModesKHR` -/
  | surfacePresentModes
  /-- Call of `vkCreateSwapchainKHR` in `createSwapChain` -/
  | swapchain
  /-- The counting `vkGetSwapchainImagesKHR` in `createSwapChain` -/
  | swapchainImages
  /-- Call of `vkCreateImageView` for swapchain image `i` in `createSwapchainImageViews` -/
  | swapchainImageView (i : Nat)
  /-- Call of `vkCreateRenderPass` in `createRenderPass` -/
  | renderPass
  /-- Call of `vkCreateShaderModule` for `shaders/vert.spv` -/
  | vertShaderModule
  /-- Call of `vkCreateShaderModule` for `shaders/frag.spv` -/
  | fragShaderModule
  /-- Call of `vkCreatePipelineLayout` in `createGraphicsPipeline` -/
  | pipelineLayout
  /-- Call of `vkCreateGraphicsPipelines` in `createGraphicsPipeline` -/
  | graphicsPipeline
  /-- Call of `vkCreateImage` for the depth image -/
  | depthImage
  /-- Call of `vkAllocateMemory` for the depth image -/
  | depthImageMemory
  /-- Call of `vkCreateImageView` for the depth image -/
  | depthImageView
  /-- Call of `vkAllocateCommandBuffers` in `beginSingleTimeCommands` -/
  | singleTimeCommandBuffer
  /-- Call of `vkCreateFramebuffer` for image view `i` in `createFrameBuffers` -/
  | framebuffer (i : Nat)
  /-- Call of `vkAllocateCommandBuffers` in `createAndFillCommandBuffers` -/
  | commandBuffers
  /-- Command buffer `i` of `createAndFillCommandBuffers`: its handle, and the result of the
  `vkEndCommandBuffer` that closes its recording -/
  | commandBuffer (i : Nat)
  /-- Call of `vkCreateBuffer` for the staging buffer of the texture -/
  | stagingBuffer
  /-- Call of `vkAllocateMemory` for the staging buffer of the texture -/
  | stagingBufferMemory
  /-- Call of `vkCreateImage` for the texture image -/
  | textureImage
  /-- Call of `vkAllocateMemory` for the texture image -/
  | textureImageMemory
  /-- Call of `vkCreateInstance` in `createInstance` -/
  | vkInstance
  /-- Call of `vkCreateDebugReportCallbackEXT` through its looked-up address -/
  | debugCallback
  /-- Call of `glfwCreateWindowSurface` in `createSurface` -/
  | surface
  /-- The counting `vkEnumeratePhysicalDevices` in `pickPhysicalDevice` -/
  | enumeratePhysicalDevices
  /-- The counting `vkEnumerateDeviceExtensionProperties` -/
  | enumerateDeviceExtensions
  /-- Call of `vkCreateDevice` in `createLogicalDevice` -/
  | device
  /-- Call of `vkCreateDescriptorSetLayout` -/
  | descriptorSetLayout
  /-- Call of `vkCreateCommandPool` -/
  | commandPool
  /-- Call of `vkCreateImageView` for the texture image -/
  | textureImageView
  /-- Call of `vkCreateSampler` -/
  | textureSampler
  /-- Call of `vkCreateBuffer` for the staging buffer of the vertices of model `i` -/
  | vertexStagingBuffer (i : Nat)
  /-- Call of `vkAllocateMemory` for the staging buffer of the vertices of model `i` -/
  | vertexStagingMemory (i : Nat)
  /-- Call of `vkCreateBuffer` for the vertex buffer of model `i` -/
  | vertexBuffer (i : Nat)
  /-- Call of `vkAllocateMemory` for the vertex buffer of model `i` -/
  | vertexBufferMemory (i : Nat)
  /-- Call of `vkCreateBuffer` for the staging buffer of the indices of model `i` -/
  | indexStagingBuffer (i : Nat)
  /-- Call of `vkAllocateMemory` for the staging buffer of the indices of model `i` -/
  | indexStagingMemory (i : Nat)
  /-- Call of `vkCreateBuffer` for the index buffer of model `i` -/
  | indexBuffer (i : Nat)
  /-- Call of `vkAllocateMemory` for the index buffer of model `i` -/
  | indexBufferMemory (i : Nat)
  /-- Call of `vkCreateBuffer` for the uniform buffer of model `i` -/
  | uniformBuffer (i : Nat)
  /-- Call of `vkAllocateMemory` for the uniform buffer of model `i` -/
  | uniformBufferMemory (i : Nat)
  /-- Call of `vkCreateDescriptorPool` -/
  | descriptorPool
  /-- Call of `vkAllocateDescriptorSets`; as a handle, see `descriptorSet` -/
  | descriptorSets
  /-- Descriptor set `i` written by `vkAllocateDescriptorSets` -/
  | descriptorSet (i : Nat)
  /-- The first `vkCreateSemaphore` of `createSemaphores` -/
  | imageAvailableSemaphore
  /-- The second `vkCreateSemaphore` of `createSemaphores` -/
  | renderFinishedSemaphore
  deriving Repr

/-- The position of the constructor of a site in the declaration of `Site`. -/
def Site.tag : Site → Nat
  | .surfaceCapabilities => 0
  | .surfaceFormats => 1
  | .surfacePresentModes => 2
  | .swapchain => 3
  | .swapchainImages => 4
  | .swapchainImageView _ => 5
  | .renderPass => 6
  | .vertShaderModule => 7
  | .fragShaderModule => 8
  | .pipelineLayout => 9
  | .graphicsPipeline => 10
  | .depthImage => 11
  | .depthImageMemory => 12
  | .depthImageView => 13
  | .singleTimeCommandBuffer => 14
  | .framebuffer _ => 15
  | .commandBuffers => 16
  | .commandBuffer _ => 17
  | .stagingBuffer => 18
  | .stagingBufferMemory => 19
  | .textureImage => 20
  | .textureImageMemory => 21
  | .vkInstance => 22
  | .debugCallback => 23
  | .surface => 24
  | .enumeratePhysicalDevices => 25
  | .enumerateDeviceExtensions => 26
  | .device => 27
  | .descriptorSetLayout => 28
  | .commandPool => 29
  | .textureImageView => 30
  | .textureSampler => 31
  | .vertexStagingBuffer _ => 32
  | .vertexStagingMemory _ => 33
  | .vertexBuffer _ => 34
  | .vertexBufferMemory _ => 35
  | .indexStagingBuffer _ => 36
  | .indexStagingMemory _ => 37
  | .indexBuffer _ => 38
  | .indexBufferMemory _ => 39
  | .uniformBuffer _ => 40
  | .uniformBufferMemory _ => 41
  | .descriptorPool => 42
  | .descriptorSets => 43
  | .descriptorSet _ => 44
  | .imageAvailableSemaphore => 45
  | .renderFinishedSemaphore => 46

/-- The index of a site that has one, and 0 for the others. -/
def Site.index : Site → Nat
  | .swapchainImageView i => i
  | .framebuffer i => i
  | .commandBuffer i => i
  | .vertexStagingBuffer i => i
  | .vertexStagingMemory i => i
  | .vertexBuffer i => i
  | .vertexBufferMemory i => i
  | .indexStagingBuffer i => i
  | .indexStagingMemory i => i
  | .indexBuffer i => i
  | .indexBufferMemory i => i
  | .uniformBuffer i => i
  | .uniformBufferMemory i => i
  | .descriptorSet i => i
  | _ => 0

/-- The site with a given tag and index: the inverse of `Site.tag` and `Site.index`. -/
def Site.ofTag (tag index : Nat) : Option Site :=
  match tag with
  | 0 => some .surfaceCapabilities
  | 1 => some .surfaceFormats
  | 2 => some .surfacePresentModes
  | 3 => some .swapchain
  | 4 => some .swapchainImages
  | 5 => some (.swapchainImageView index)
  | 6 => some .renderPass
  | 7 => some .vertShaderModule
  | 8 => some .fragShaderModule
  | 9 => some .pipelineLayout
  | 10 => some .graphicsPipeline
  | 11 => some .depthImage
  | 12 => some .depthImageMemory
  | 13 => some .depthImageView
  | 14 => some .singleTimeCommandBuffer
  | 15 => some (.framebuffer index)
  | 16 => some .commandBuffers
  | 17 => some (.commandBuffer index)
  | 18 => some .stagingBuffer
  | 19 => some .stagingBufferMemory
  | 20 => some .textureImage
  | 21 => some .textureImageMemory
  | 22 => some .vkInstance
  | 23 => some .debugCallback
  | 24 => some .surface
  | 25 => some .enumeratePhysicalDevices
  | 26 => some .enumerateDeviceExtensions
  | 27 => some .device
  | 28 => some .descriptorSetLayout
  | 29 => some .commandPool
  | 30 => some .textureImageView
  | 31 => some .textureSampler
  | 32 => some (.vertexStagingBuffer index)
  | 33 => some (.vertexStagingMemory index)
  | 34 => some (.vertexBuffer index)
  | 35 => some (.vertexBufferMemory index)
  | 36 => some (.indexStagingBuffer index)
  | 37 => some (.indexStagingMemory index)
  | 38 => some (.indexBuffer index)
  | 39 => some (.indexBufferMemory index)
  | 40 => some (.uniformBuffer index)
  | 41 => some (.uniformBufferMemory index)
  | 42 => some .descriptorPool
  | 43 => some .descriptorSets
  | 44 => some (.descriptorSet index)
  | 45 => some .imageAvailableSemaphore
  | 46 => some .renderFinishedSemaphore
  | _ => none

instance Site.instDecidableEq : DecidableEq Site := fun a b =>
  decidable_of_iff (a.tag = b.tag ∧ a.index = b.index)
    ⟨fun h =>
      have inverse : ∀ site : Site, Site.ofTag site.tag site.index = some site := by
        intro site
        cases site <;> rfl
      Option.some.inj (by rw [← inverse a, ← inverse b, h.1, h.2]),
     fun h => h ▸ ⟨rfl, rfl⟩⟩

/-- What the device and the window system answer during one `drawFrame` (or one
`recreateSwapchain`). -/
structure Driver where
  /-- Result of `vkAcquireNextImageKHR` -/
  acquireResult : VkResult
  /-- Image index written by `vkAcquireNextImageKHR` -/
  imageIndex : Nat
  /-- Result of the `vkQueueSubmit` of `drawFrame` -/
  submitResult : VkResult
  /-- Result of `vkQueuePresentKHR` -/
  presentResult : VkResult
  /-- Width written by `glfwGetWindowSize` -/
  windowWidth : Int
  /-- Height written by `glfwGetWindowSize` -/
  windowHeight : Int
  /-- Result of the call at a site -/
  result : Site → VkResult
  /-- Handle written by a successful call at a site -/
  handle : Site → Handle
  /-- Surface capabilities reported for the surface -/
  capabilities : VkSurfaceCapabilitiesKHR
  /-- Surface formats reported for the surface -/
  surfaceFormats : List VkSurfaceFormatKHR
  /-- Present modes reported for the surface -/
  presentModes : List VkPresentModeKHR
  /-- Queue families of the physical device -/
  queueFamilies : List VkQueueFamilyProperties
  /-- Images owned by a newly created swapchain -/
  swapchainImages : List Handle
  /-- Answer of `vkGetPhysicalDeviceFormatProperties` -/
  formatProperties : VkFormat → VkFormatProperties
  /-- Whether `shaders/vert.spv` can be opened -/
  vertShaderFileOpens : Bool
  /-- Whether `shaders/frag.spv` can be opened -/
  fragShaderFileOpens : Bool
  /-- Answer of `vkGetImageMemoryRequirements` for an image -/
  imageMemoryRequirements : Handle → VkMemoryRequirements
  /-- Memory types of the physical device -/
  memoryTypes : List VkMemoryType
  /-- Answer of `vkGetBufferMemoryRequirements` for a buffer -/
  bufferMemoryRequirements : Handle → VkMemoryRequirements
  /-- The build constant `g_enableValidationLayers` (`vulkan.h:25-29`) -/
  enableValidationLayers : Bool
  /-- Names of the layers listed by `vkEnumerateInstanceLayerProperties` -/
  availableLayers : List String
  /-- Whether `glfwInit` succeeds -/
  glfwInitSucceeds : Bool
  /-- Window returned by `glfwCreateWindow` -/
  glfwWindow : Handle
  /-- Number of extensions listed by `glfwGetRequiredInstanceExtensions` -/
  glfwExtensionCount : Nat
  /-- Whether `vkGetInstanceProcAddr` finds the two debug report functions -/
  debugReportFunctions : Bool
  /-- Devices listed by `vkEnumeratePhysicalDevices` -/
  physicalDevices : List Handle
  /-- Names of the extensions listed by `vkEnumerateDeviceExtensionProperties` -/
  availableExtensions : List String
  /-- The feature `samplerAnisotropy` reported by `vkGetPhysicalDeviceFeatures` -/
  samplerAnisotropy : Bool
  /-- Queue written by `vkGetDeviceQueue` for the graphics family -/
  graphicsQueue : Handle
  /-- Queue written by `vkGetDeviceQueue` for the present family -/
  presentQueue : Handle
  /-- Width and height written by `stbi_load` for the texture file; `none` when it writes
  neither (the file cannot be opened or is of no known format) -/
  stbi_load : Option (Int × Int)
  /-- Whether `stbi_load` returns pixels, not a null pointer -/
  stbi_pixels : Bool
  /-- Attributes and shapes written by `tinyobj::LoadObj`; `none` when it returns false -/
  LoadObj : Option (attrib_t × List shape_t)
  /-- The value of `sizeof(Vertex)` -/
  sizeofVertex : Nat

/-- The member variables of `HelloTriangleApplication` (`vulkan.h:175-210`), and the log of
device calls made so far. -/
structure State where
  m_vkGraphicsQueue : Handle := 0
  m_vkPresentQueue : Handle := 0
  m_vkSurface : Handle := 0
  m_vkSwapchain : Handle := 0
  m_vkSwapchainImages : List Handle := []
  m_vkSwapchainImageFormat : VkFormat := 0
  m_vkSwapchainExtent : VkExtent2D := ⟨0, 0⟩
  m_vkSwapchainImageViews : List Handle := []
  m_vkRenderPass : Handle := 0
  m_vkPipelineLayout : Handle := 0
  m_vkGraphicsPipeline : Handle := 0
  m_vkSwapchainFrameBuffers : List Handle := []
  m_vkCommandPool : Handle := 0
  m_vkCommandBuffers : List Handle := []
  m_vkImageAvailableSemaphore : Handle := 0
  m_vkRenderFinishedSemaphore : Handle := 0
  m_vkDescriptorSetLayout : Handle := 0
  m_vkDepthImage : Handle := 0
  m_vkDepthImageMemory : Handle := 0
  m_vkDepthImageView : Handle := 0
  m_vkTextureImage : Handle := 0
  m_vkTextureMemory : Handle := 0
  m_mipLevels : Nat := 0
  m_glfwWindow : Handle := 0
  m_vkInstance : Handle := 0
  m_vkDevice : Handle := 0
  m_vkPhysicalDevice : Handle := 0
  m_vkCallback : Handle := 0
  m_vkDescriptorPool : Handle := 0
  m_vkDescriptorSets : List Handle := []
  m_vkTextureImageView : Handle := 0
  m_vkTextureSampler : Handle := 0
  m_camera : Camera := Camera.initial
  m_models : List Model := []
  calls : List Call := []
  deriving DecidableEq

/-- Append one device call to the log. -/
def State.call (s : State) (c : Call) : State :=
  { s with calls := s.calls ++ [c] }

/-- Sequencing of member-function calls: the continuation runs on a normal return only; an
exception or undefined behaviour ends the caller as well. -/
def andThen {α β : Type} (r : Outcome α × State) (k : α → State → Outcome β × State) :
    Outcome β × State :=
  match r with
  | (.returned value, s) => k value s
  | (.threw error, s) => (.threw error, s)
  | (.undefined, s) => (.undefined, s)

/-- The effect of `std::vector::resize` on a vector of handles: surplus elements are dropped,
new elements are null handles. -/
def resize (v : List Handle) (n : Nat) : List Handle :=
  v.take n ++ List.replicate (n - v.length) VK_NULL_HANDLE

/-- Append several device calls to the log, in order. -/
def State.callAll (s : State) (cs : List Call) : State :=
  { s with calls := s.calls ++ cs }

/-- A counted `for (size_t i = 0; i < n; ++i)` loop whose body may throw: the indices are
visited in order and the first failure ends the loop. -/
def forEachIndex (body : Nat → State → Outcome Unit × State) :
    List Nat → State → Outcome Unit × State
  | [], s => (.returned (), s)
  | i :: rest, s => andThen (body i s) fun _ s => forEachIndex body rest s

/-! ## Teardown and rebuild of the swapchain -/

/-- Method `HelloTriangleApplication::cleanupSwapchain`
(`vulkan.cpp:914-937`).  The member variables
keep their (now dangling) handles. -/
def cleanupSwapchain (s : State) : State :=
  let s := s.call (.vkDestroyImageView s.m_vkDepthImageView)
  let s := s.call (.vkDestroyImage s.m_vkDepthImage)
  let s := s.call (.vkFreeMemory s.m_vkDepthImageMemory)
  let s := s.callAll (s.m_vkSwapchainFrameBuffers.map .vkDestroyFramebuffer)
  let s := s.call (.vkFreeCommandBuffers s.m_vkCommandPool s.m_vkCommandBuffers)
  let s := s.call (.vkDestroyPipeline s.m_vkGraphicsPipeline)
  let s := s.call (.vkDestroyPipelineLayout s.m_vkPipelineLayout)
  let s := s.call (.vkDestroyRenderPass s.m_vkRenderPass)
  let s := s.callAll (s.m_vkSwapchainImageViews.map .vkDestroyImageView)
  s.call (.vkDestroySwapchainKHR s.m_vkSwapchain)

/-- Method `HelloTriangleApplication::querySwapChainSupportDetails` (`vulkan.cpp:1639-1677`). -/
def querySwapChainSupportDetails (env : Driver) (s : State) :
    Outcome SwapChainSupportDetails × State :=
  if VK_SUCCESS ≠ env.result .surfaceCapabilities then
    (.threw .couldNotObtainSurfaceCapabilities, s)
  else if VK_SUCCESS ≠ env.result .surfaceFormats then
    (.threw .couldNotQuerySurfaceFormats, s)
  else if VK_SUCCESS ≠ env.result .surfacePresentModes then
    (.threw .couldNotQueryPresentModes, s)
  else
    (.returned
      { m_capabilities := env.capabilities
        m_surfaceFormats := env.surfaceFormats
        m_presentModes := env.presentModes }, s)

/-- The range-for of `findQueueFamilies` (`vulkan.cpp:1605-1625`) from family index `i` on. -/
def findQueueFamilies.scan (indices : QueueFamilyIndices) (i : Int) :
    List VkQueueFamilyProperties → QueueFamilyIndices
  | [] => indices
  | queueFamily :: rest =>
    let indices :=
      if queueFamily.queueCount > 0 ∧ queueFamily.graphics = true then
        { indices with graphicsFamily := i }
      else indices
    let indices :=
      if queueFamily.queueCount > 0 ∧ queueFamily.presentSupport = true then
        { indices with presentFamily := i }
      else indices
    if indices.isComplete = true then indices
    else findQueueFamilies.scan indices (i + 1) rest

/-- Method `HelloTriangleApplication::findQueueFamilies` (`vulkan.cpp:1591-1628`). -/
def findQueueFamilies (env : Driver) (s : State) : Outcome QueueFamilyIndices × State :=
  if env.queueFamilies.length = 0 then
    (.threw .noQueueFamilyFound, s)
  else
    (.returned (findQueueFamilies.scan {} 0 env.queueFamilies), s)

/-- The create info `createSwapChain` fills in (`vulkan.cpp:1801-1829`). -/
def createSwapChain.createInfo (s : State) (details : SwapChainSupportDetails)
    (surfaceFormat : VkSurfaceFormatKHR) (indices : QueueFamilyIndices) :
    VkSwapchainCreateInfoKHR :=
  { surface := s.m_vkSurface
    imageExtent := chooseSwapExtent details.m_capabilities
    imageFormat := surfaceFormat.format
    minImageCount := createSwapChain.imageCount details.m_capabilities
    imageArrayLayers := 1
    imageUsage := VK_IMAGE_USAGE_COLOR_ATTACHMENT_BIT
    imageSharingMode :=
      if indices.graphicsFamily ≠ indices.presentFamily then VK_SHARING_MODE_CONCURRENT
      else VK_SHARING_MODE_EXCLUSIVE
    queueFamilyIndices :=
      if indices.graphicsFamily ≠ indices.presentFamily then
        [(indices.graphicsFamily % 2 ^ 32).toNat, (indices.presentFamily % 2 ^ 32).toNat]
      else []
    preTransform := details.m_capabilities.currentTransform
    presentMode := chooseSwapChainPresentMode details.m_presentModes
    oldSwapchain := VK_NULL_HANDLE }

/-- Method `HelloTriangleApplication::createSwapChain`
(`vulkan.cpp:1779-1844`).  The assertion on the
physical device is not part of the control flow modelled here. -/
def createSwapChain (env : Driver) (s : State) : Outcome Unit × State :=
  andThen (querySwapChainSupportDetails env s) fun swapChainSupportDetails s =>
  match chooseSwapChainSurfaceFormat swapChainSupportDetails.m_surfaceFormats with
  | none => (.undefined, s)
  | some surfaceFormat =>
    let extent := chooseSwapExtent swapChainSupportDetails.m_capabilities
    let s := { s with m_vkSwapchainExtent := extent,
                      m_vkSwapchainImageFormat := surfaceFormat.format }
    andThen (findQueueFamilies env s) fun indices s =>
    let s := s.call (.vkCreateSwapchainKHR
      (createSwapChain.createInfo s swapChainSupportDetails surfaceFormat indices))
    if VK_SUCCESS ≠ env.result .swapchain then
      (.threw .swapchainCreationFailed, s)
    else
      let s := { s with m_vkSwapchain := env.handle .swapchain }
      if VK_SUCCESS ≠ env.result .swapchainImages then
        (.threw .couldNotQuerySwapChainImages, s)
      else
        (.returned (), { s with m_vkSwapchainImages := env.swapchainImages })

/-- Method `HelloTriangleApplication::createImageView`
(`vulkan.cpp:1167-1190`), called at `site`. -/
def createImageView (env : Driver) (site : Site) (image : Handle) (format : VkFormat)
    (aspectFlags mipLevels : Nat) (s : State) : Outcome Handle × State :=
  let s := s.call (.vkCreateImageView image format aspectFlags mipLevels)
  if VK_SUCCESS ≠ env.result site then
    (.threw .couldNotCreateImageView, s)
  else
    (.returned (env.handle site), s)

/-- The body of the loop of `createSwapchainImageViews` (`vulkan.cpp:1888-1892`) at index
`i`. -/
def createSwapchainImageViews.body (env : Driver) (i : Nat) (s : State) :
    Outcome Unit × State :=
  andThen (createImageView env (.swapchainImageView i) (s.m_vkSwapchainImages.getD i 0)
    s.m_vkSwapchainImageFormat VK_IMAGE_ASPECT_COLOR_BIT 1 s) fun imageView s =>
  let imageViews := s.m_vkSwapchainImageViews.set i imageView
  (.returned (), { s with m_vkSwapchainImageViews := imageViews })

/-- Method `HelloTriangleApplication::createSwapchainImageViews` (`vulkan.cpp:1883-1894`). -/
def createSwapchainImageViews (env : Driver) (s : State) : Outcome Unit × State :=
  let n := s.m_vkSwapchainImages.length
  let s := { s with m_vkSwapchainImageViews := resize s.m_vkSwapchainImageViews n }
  forEachIndex (createSwapchainImageViews.body env) (List.range n) s

/-- Method `HelloTriangleApplication::findSupportedFormat` (`vulkan.cpp:1268-1287`).  The `throw`
stands inside the loop body, so the first candidate decides; with no candidate control flows
off the end of the function. -/
def findSupportedFormat (env : Driver) (candidates : List VkFormat) (tiling features : Nat)
    (s : State) : Outcome VkFormat × State :=
  match candidates with
  | [] => (.undefined, s)
  | format :: _ =>
    let props := env.formatProperties format
    if VK_IMAGE_TILING_LINEAR = tiling ∧ props.linearTilingFeatures &&& features = features then
      (.returned format, s)
    else if VK_IMAGE_TILING_OPTIMAL = tiling
        ∧ props.optimalTilingFeatures &&& features = features then
      (.returned format, s)
    else
      (.threw .couldNotFindTheRightFormat, s)

/-- Method `HelloTriangleApplication::findDepthFormat` (`vulkan.cpp:1297-1304`). -/
def findDepthFormat (env : Driver) (s : State) : Outcome VkFormat × State :=
  findSupportedFormat env
    [VK_FORMAT_D32_SFLOAT, VK_FORMAT_D32_SFLOAT_S8_UINT, VK_FORMAT_D24_UNORM_S8_UINT]
    VK_IMAGE_TILING_OPTIMAL VK_FORMAT_FEATURE_DEPTH_STENCIL_ATTACHMENT_BIT s

/-- Method `HelloTriangleApplication::hasStencilComponent` (`vulkan.cpp:1314-1317`). -/
def hasStencilComponent (format : VkFormat) : Bool :=
  decide (VK_FORMAT_D32_SFLOAT_S8_UINT = format) || decide (VK_FORMAT_D24_UNORM_S8_UINT = format)

/-- Method `HelloTriangleApplication::createRenderPass` (`vulkan.cpp:2160-2235`). -/
def createRenderPass (env : Driver) (s : State) : Outcome Unit × State :=
  andThen (findDepthFormat env s) fun depthFormat s =>
  let s := s.call (.vkCreateRenderPass s.m_vkSwapchainImageFormat depthFormat)
  if VK_SUCCESS ≠ env.result .renderPass then
    (.threw .couldNotCreateRenderPass, s)
  else
    (.returned (), { s with m_vkRenderPass := env.handle .renderPass })

/-- The function `readFile` (`vulkan.cpp:18-33`), reduced to whether the file opens. -/
def readFile (opens : Bool) (s : State) : Outcome Unit × State :=
  if opens = false then (.threw .failedToOpenFile, s) else (.returned (), s)

/-- Method `HelloTriangleApplication::createShaderModule` (`vulkan.cpp:2135-2147`), called at
`site`. -/
def createShaderModule (env : Driver) (site : Site) (s : State) : Outcome Handle × State :=
  let s := s.call .vkCreateShaderModule
  if VK_SUCCESS ≠ env.result site then
    (.threw .couldNotCreateShaderModule, s)
  else
    (.returned (env.handle site), s)

/-- Method `HelloTriangleApplication::createGraphicsPipeline` (`vulkan.cpp:1914-2068`). -/
def createGraphicsPipeline (env : Driver) (s : State) : Outcome Unit × State :=
  andThen (readFile env.vertShaderFileOpens s) fun _ s =>
  andThen (readFile env.fragShaderFileOpens s) fun _ s =>
  andThen (createShaderModule env .vertShaderModule s) fun vertShaderModule s =>
  andThen (createShaderModule env .fragShaderModule s) fun fragShaderModule s =>
  let s := s.call (.vkCreatePipelineLayout s.m_vkDescriptorSetLayout)
  if VK_SUCCESS ≠ env.result .pipelineLayout then
    (.threw .couldNotCreatePipelineLayout, s)
  else
    let s := { s with m_vkPipelineLayout := env.handle .pipelineLayout }
    let s := s.call (.vkCreateGraphicsPipelines s.m_vkPipelineLayout s.m_vkRenderPass
      s.m_vkSwapchainExtent)
    if VK_SUCCESS ≠ env.result .graphicsPipeline then
      (.threw .couldNotCreateGraphicsPipeline, s)
    else
      let s := { s with m_vkGraphicsPipeline := env.handle .graphicsPipeline }
      let s := s.call (.vkDestroyShaderModule vertShaderModule)
      let s := s.call (.vkDestroyShaderModule fragShaderModule)
      (.returned (), s)

/-- The loop of `HelloTriangleApplication::findMemoryType` (`vulkan.cpp:720-728`) from index
`i` on; `0` is the `uint32_t()` returned when no type matches. -/
def findMemoryType.search (typeFilter properties : Nat) : Nat → List VkMemoryType → Nat
  | _, [] => 0
  | i, memoryType :: rest =>
    if typeFilter &&& (1 <<< i) ≠ 0 ∧ memoryType.propertyFlags &&& properties = properties then
      i
    else
      findMemoryType.search typeFilter properties (i + 1) rest

/-- Method `HelloTriangleApplication::findMemoryType` (`vulkan.cpp:716-729`). -/
def findMemoryType (env : Driver) (typeFilter properties : Nat) : Nat :=
  findMemoryType.search typeFilter properties 0 env.memoryTypes

/-- Method `HelloTriangleApplication::createImage` (`vulkan.cpp:550-593`).  The reference parameters
`vkImage` and `imageMemory` are the setters `setImage` and `setMemory`; the memory type is
looked up with `VK_MEMORY_PROPERTY_DEVICE_LOCAL_BIT` (`vulkan.cpp:586`), whatever `properties`
is. -/
def createImage (env : Driver) (imageSite memorySite : Site) (width height mipLevels : Nat)
    (imageFormat : VkFormat) (tiling usageFlags _properties : Nat)
    (setImage setMemory : Handle → State → State) (s : State) : Outcome Unit × State :=
  let s := s.call (.vkCreateImage width height mipLevels imageFormat tiling usageFlags)
  if VK_SUCCESS ≠ env.result imageSite then
    (.threw .couldNotCreateTextureImage, s)
  else
    let vkImage := env.handle imageSite
    let s := setImage vkImage s
    let memRequirements := env.imageMemoryRequirements vkImage
    let memoryTypeIndex :=
      findMemoryType env memRequirements.memoryTypeBits VK_MEMORY_PROPERTY_DEVICE_LOCAL_BIT
    let s := s.call (.vkAllocateMemory memRequirements.size memoryTypeIndex)
    if VK_SUCCESS ≠ env.result memorySite then
      (.threw .couldNotAllocateImageMemory, s)
    else
      let imageMemory := env.handle memorySite
      let s := setMemory imageMemory s
      (.returned (), s.call (.vkBindImageMemory vkImage imageMemory))

/-- The function `beginSingleTimeCommands` (`utilities.cpp:98-118`). -/
def beginSingleTimeCommands (env : Driver) (vkCommandPool : Handle) (s : State) :
    Outcome Handle × State :=
  let s := s.call (.vkAllocateCommandBuffers vkCommandPool 1)
  if VK_SUCCESS ≠ env.result .singleTimeCommandBuffer then
    (.threw .couldNotCreateTransferCommandBuffer, s)
  else
    (.returned (env.handle .singleTimeCommandBuffer), s)

/-- The function `endSingleTimeCommands` (`utilities.cpp:128-145`); no result is checked. -/
def endSingleTimeCommands (vkCommandPool vkQueue commandBuffer : Handle) (s : State) : State :=
  let s := s.call (.vkQueueSubmit vkQueue [] [some commandBuffer] [])
  let s := s.call (.vkQueueWaitIdle vkQueue)
  s.call (.vkFreeCommandBuffers vkCommandPool [commandBuffer])

/-- The aspect mask chosen at `vulkan.cpp:627-638`. -/
def transitionImageLayout.aspectMask (format : VkFormat) (newLayout : Nat) : Nat :=
  if VK_IMAGE_LAYOUT_DEPTH_STENCIL_ATTACHMENT_OPTIMAL = newLayout then
    if hasStencilComponent format = true then
      VK_IMAGE_ASPECT_DEPTH_BIT ||| VK_IMAGE_ASPECT_STENCIL_BIT
    else VK_IMAGE_ASPECT_DEPTH_BIT
  else VK_IMAGE_ASPECT_COLOR_BIT

/-- The access masks and pipeline stages chosen at `vulkan.cpp:640-664`, in the order
source access, destination access, source stage, destination stage; `none` is the branch that
throws. -/
def transitionImageLayout.masks (oldLayout newLayout : Nat) : Option (Nat × Nat × Nat × Nat) :=
  if VK_IMAGE_LAYOUT_UNDEFINED = oldLayout
      ∧ VK_IMAGE_LAYOUT_TRANSFER_DST_OPTIMAL = newLayout then
    some (0, VK_ACCESS_TRANSFER_WRITE_BIT,
      VK_PIPELINE_STAGE_TOP_OF_PIPE_BIT, VK_PIPELINE_STAGE_TRANSFER_BIT)
  else if VK_IMAGE_LAYOUT_TRANSFER_DST_OPTIMAL = oldLayout
      ∧ VK_IMAGE_LAYOUT_SHADER_READ_ONLY_OPTIMAL = newLayout then
    some (VK_ACCESS_TRANSFER_WRITE_BIT, VK_ACCESS_SHADER_READ_BIT,
      VK_PIPELINE_STAGE_TRANSFER_BIT, VK_PIPELINE_STAGE_FRAGMENT_SHADER_BIT)
  else if VK_IMAGE_LAYOUT_UNDEFINED = oldLayout
      ∧ VK_IMAGE_LAYOUT_DEPTH_STENCIL_ATTACHMENT_OPTIMAL = newLayout then
    some (0,
      VK_ACCESS_DEPTH_STENCIL_ATTACHMENT_READ_BIT ||| VK_ACCESS_DEPTH_STENCIL_ATTACHMENT_WRITE_BIT,
      VK_PIPELINE_STAGE_TOP_OF_PIPE_BIT, VK_PIPELINE_STAGE_EARLY_FRAGMENT_TESTS_BIT)
  else
    none

/-- Method `HelloTriangleApplication::transitionImageLayout` (`vulkan.cpp:603-679`).  The barrier
always covers one level from level 0 (`vulkan.cpp:619-622`), whatever `mipLevels` is. -/
def transitionImageLayout (env : Driver) (image : Handle) (format : VkFormat)
    (oldLayout newLayout _mipLevels : Nat) (s : State) : Outcome Unit × State :=
  andThen (beginSingleTimeCommands env s.m_vkCommandPool s) fun commandBuffer s =>
  match transitionImageLayout.masks oldLayout newLayout with
  | none => (.threw .unsupportedTransitionLayout, s)
  | some (srcAccessMask, dstAccessMask, sourceStage, dstStage) =>
    let memoryBarrier : VkImageMemoryBarrier :=
      { image := image
        oldLayout := oldLayout
        newLayout := newLayout
        aspectMask := transitionImageLayout.aspectMask format newLayout
        baseMipLevel := 0
        levelCount := 1
        srcAccessMask := srcAccessMask
        dstAccessMask := dstAccessMask }
    let s := s.call (.vkCmdPipelineBarrier commandBuffer sourceStage dstStage memoryBarrier)
    (.returned (), endSingleTimeCommands s.m_vkCommandPool s.m_vkGraphicsQueue commandBuffer s)

/-- Method `HelloTriangleApplication::createDepthResources` (`vulkan.cpp:1235-1258`). -/
def createDepthResources (env : Driver) (s : State) : Outcome Unit × State :=
  andThen (findDepthFormat env s) fun depthFormat s =>
  andThen (createImage env .depthImage .depthImageMemory
    s.m_vkSwapchainExtent.width s.m_vkSwapchainExtent.height 1 depthFormat
    VK_IMAGE_TILING_OPTIMAL VK_IMAGE_USAGE_DEPTH_STENCIL_ATTACHMENT_BIT
    VK_MEMORY_PROPERTY_DEVICE_LOCAL_BIT
    (fun image s => { s with m_vkDepthImage := image })
    (fun memory s => { s with m_vkDepthImageMemory := memory }) s) fun _ s =>
  andThen (createImageView env .depthImageView s.m_vkDepthImage depthFormat
    VK_IMAGE_ASPECT_DEPTH_BIT 1 s) fun imageView s =>
  let s := { s with m_vkDepthImageView := imageView }
  transitionImageLayout env s.m_vkDepthImage depthFormat VK_IMAGE_LAYOUT_UNDEFINED
    VK_IMAGE_LAYOUT_DEPTH_STENCIL_ATTACHMENT_OPTIMAL 1 s

/-- The body of the loop of `createFrameBuffers` (`vulkan.cpp:2251-2264`) at index `i`. -/
def createFrameBuffers.body (env : Driver) (i : Nat) (s : State) : Outcome Unit × State :=
  let attachments := [s.m_vkSwapchainImageViews.getD i 0, s.m_vkDepthImageView]
  let s := s.call (.vkCreateFramebuffer s.m_vkRenderPass attachments s.m_vkSwapchainExtent)
  if VK_SUCCESS ≠ env.result (.framebuffer i) then
    (.threw .couldNotCreateFramebuffer, s)
  else
    let framebuffers := s.m_vkSwapchainFrameBuffers.set i (env.handle (.framebuffer i))
    (.returned (), { s with m_vkSwapchainFrameBuffers := framebuffers })

/-- Method `HelloTriangleApplication::createFrameBuffers` (`vulkan.cpp:2246-2266`). -/
def createFrameBuffers (env : Driver) (s : State) : Outcome Unit × State :=
  let n := s.m_vkSwapchainImageViews.length
  let s := { s with m_vkSwapchainFrameBuffers := resize s.m_vkSwapchainFrameBuffers n }
  forEachIndex (createFrameBuffers.body env) (List.range n) s

/-- The body of the recording loop of `createAndFillCommandBuffers`
(`vulkan.cpp:2321-2365`) at index `i`: of the recording only the checked result of
`vkEndCommandBuffer` is kept. -/
def createAndFillCommandBuffers.body (env : Driver) (i : Nat) (s : State) :
    Outcome Unit × State :=
  if VK_SUCCESS ≠ env.result (.commandBuffer i) then
    (.threw .failedToRecordCommandBuffer, s)
  else
    (.returned (), s)

/-- Method `HelloTriangleApplication::createAndFillCommandBuffers` (`vulkan.cpp:2306-2367`). -/
def createAndFillCommandBuffers (env : Driver) (s : State) : Outcome Unit × State :=
  let n := s.m_vkSwapchainFrameBuffers.length
  let s := { s with m_vkCommandBuffers := resize s.m_vkCommandBuffers n }
  let s := s.call (.vkAllocateCommandBuffers s.m_vkCommandPool n)
  if VK_SUCCESS ≠ env.result .commandBuffers then
    (.threw .couldNotCreateCommandBuffers, s)
  else
    let commandBuffers := (List.range n).map fun i => env.handle (.commandBuffer i)
    let s := { s with m_vkCommandBuffers := commandBuffers }
    forEachIndex (createAndFillCommandBuffers.body env) (List.range n) s

/-- Method `HelloTriangleApplication::recreateSwapchain` (`vulkan.cpp:1854-1872`). -/
def recreateSwapchain (env : Driver) (s : State) : Outcome Unit × State :=
  let s := s.call .glfwGetWindowSize
  if 0 = env.windowWidth ∨ 0 = env.windowHeight then
    (.returned (), s)
  else
    let s := s.call .vkDeviceWaitIdle
    let s := cleanupSwapchain s
    andThen (createSwapChain env s) fun _ s =>
    andThen (createSwapchainImageViews env s) fun _ s =>
    andThen (createRenderPass env s) fun _ s =>
    andThen (createGraphicsPipeline env s) fun _ s =>
    andThen (createDepthResources env s) fun _ s =>
    andThen (createFrameBuffers env s) fun _ s =>
    createAndFillCommandBuffers env s

/-! ## The per-frame protocol -/

/-- The call `vkAcquireNextImageKHR` of `drawFrame` (`vulkan.cpp:149-155`). -/
def drawFrame.acquire (s : State) : Call :=
  .vkAcquireNextImageKHR s.m_vkSwapchain s.m_vkImageAvailableSemaphore

/-- The call `vkQueueSubmit` of `drawFrame` (`vulkan.cpp:167-182`): it waits on the
image-available semaphore, signals the render-finished semaphore and submits the element of
`m_vkCommandBuffers` at the acquired index, if there is one. -/
def drawFrame.submit (env : Driver) (s : State) : Call :=
  .vkQueueSubmit s.m_vkGraphicsQueue [s.m_vkImageAvailableSemaphore]
    [s.m_vkCommandBuffers.get? env.imageIndex] [s.m_vkRenderFinishedSemaphore]

/-- The call `vkQueuePresentKHR` of `drawFrame` (`vulkan.cpp:187-197`). -/
def drawFrame.present (env : Driver) (s : State) : Call :=
  .vkQueuePresentKHR s.m_vkPresentQueue [s.m_vkRenderFinishedSemaphore] [s.m_vkSwapchain]
    env.imageIndex

/-- Method `HelloTriangleApplication::drawFrame` (`vulkan.cpp:146-208`). -/
def drawFrame (env : Driver) (s : State) : Outcome Unit × State :=
  let s := s.call (drawFrame.acquire s)
  let result := env.acquireResult
  if VK_ERROR_OUT_OF_DATE_KHR = result then
    recreateSwapchain env s
  else if VK_SUCCESS ≠ result ∧ VK_SUBOPTIMAL_KHR ≠ result then
    (.threw .failedToAcquireSwapchainImage, s)
  else
    let s := s.call (drawFrame.submit env s)
    if VK_SUCCESS ≠ env.submitResult then
      (.threw .failedToSubmitDrawCommandBuffer, s)
    else
      let s := s.call (drawFrame.present env s)
      let result := env.presentResult
      if VK_ERROR_OUT_OF_DATE_KHR = result ∨ VK_SUBOPTIMAL_KHR = result then
        recreateSwapchain env s
      else if VK_SUCCESS ≠ result then
        (.threw .failedToPresentSwapchainImage, s)
      else
        (.returned (), s.call (.vkQueueWaitIdle s.m_vkPresentQueue))

/-! ## Classification of calls and errors -/

/-- A queue submission that waits on or signals a semaphore.  The submission of `drawFrame`
waits on the image-available semaphore and signals the render-finished semaphore; the one-shot
submission of `endSingleTimeCommands` names no semaphore. -/
def Call.isDrawSubmission : Call → Bool
  | .vkQueueSubmit _ waitSemaphores _ signalSemaphores =>
    !(waitSemaphores.isEmpty && signalSemaphores.isEmpty)
  | _ => false

/-- The three calls with which `drawFrame` itself drives a frame (acquire, a submission with
semaphores, present), and the window-size query with which `recreateSwapchain` starts. -/
def Call.isFrameStep : Call → Bool
  | .vkAcquireNextImageKHR _ _ => true
  | .vkQueuePresentKHR _ _ _ _ => true
  | .glfwGetWindowSize => true
  | c => c.isDrawSubmission

/-- A wait that covers the queue `queue`: `vkQueueWaitIdle` on it, or `vkDeviceWaitIdle`. -/
def Call.waitsFor (queue : Handle) : Call → Bool
  | .vkQueueWaitIdle q => decide (q = queue)
  | .vkDeviceWaitIdle => true
  | _ => false

/-- The errors thrown by the three `throw` statements of `drawFrame` itself. -/
def Error.isFrameError : Error → Bool
  | .failedToAcquireSwapchainImage => true
  | .failedToSubmitDrawCommandBuffer => true
  | .failedToPresentSwapchainImage => true
  | _ => false

/-- A result `r` of running a member function from state `s` stays within `P` and `Q`: the
log of `s` is extended by calls that all satisfy `P`, and an error thrown satisfies `Q`. -/
def Within {α : Type} (P : Call → Prop) (Q : Error → Prop) (s : State)
    (r : Outcome α × State) : Prop :=
  (∃ l, r.2.calls = s.calls ++ l ∧ ∀ c ∈ l, P c) ∧ ∀ e, r.1 = .threw e → Q e

/-- The calls and errors of the swapchain rebuild: no frame step, no frame error. -/
def Rebuilds {α : Type} (s : State) (r : Outcome α × State) : Prop :=
  Within (fun c => c.isFrameStep = false) (fun e => e.isFrameError = false) s r

/-- The combinations of results on which one of the three `throw` statements of `drawFrame`
is reached: the acquire result is none of success, suboptimal, out-of-date; or the frame is
submitted and the submission does not return success; or the frame is presented and the present
result is none of success, out-of-date, suboptimal. -/
def Driver.fatal (env : Driver) : Prop :=
  (env.acquireResult ≠ VK_SUCCESS ∧ env.acquireResult ≠ VK_SUBOPTIMAL_KHR
      ∧ env.acquireResult ≠ VK_ERROR_OUT_OF_DATE_KHR)
  ∨ ((env.acquireResult = VK_SUCCESS ∨ env.acquireResult = VK_SUBOPTIMAL_KHR)
      ∧ env.submitResult ≠ VK_SUCCESS)
  ∨ ((env.acquireResult = VK_SUCCESS ∨ env.acquireResult = VK_SUBOPTIMAL_KHR)
      ∧ env.submitResult = VK_SUCCESS
      ∧ env.presentResult ≠ VK_SUCCESS ∧ env.presentResult ≠ VK_ERROR_OUT_OF_DATE_KHR
      ∧ env.presentResult ≠ VK_SUBOPTIMAL_KHR)

instance Driver.fatal.decidable (env : Driver) : Decidable env.fatal := by
  unfold Driver.fatal
  infer_instance

/-- Every call the driver answers during the rebuild succeeds: all results are `VK_SUCCESS`,
the surface reports at least one format and the device at least one queue family, the first
depth candidate supports depth-stencil attachment with optimal tiling, and both shader files
open. -/
structure Driver.Cooperates (env : Driver) : Prop where
  result : ∀ site, env.result site = VK_SUCCESS
  surfaceFormats : env.surfaceFormats ≠ []
  queueFamilies : env.queueFamilies ≠ []
  depthFormat : (env.formatProperties VK_FORMAT_D32_SFLOAT).optimalTilingFeatures
    &&& VK_FORMAT_FEATURE_DEPTH_STENCIL_ATTACHMENT_BIT
    = VK_FORMAT_FEATURE_DEPTH_STENCIL_ATTACHMENT_BIT
  vertShaderFile : env.vertShaderFileOpens = true
  fragShaderFile : env.fragShaderFileOpens = true

/-! ## Concrete drivers and states -/

def VK_ERROR_DEVICE_LOST : VkResult := -4

/-- A driver on which every call succeeds: an 800 x 600 window, a surface of fixed extent with
two to three images, one queue family for graphics and present, two swapchain images; a
release build without validation layers, one physical device with the swapchain extension, a
2 x 2 texture and a mesh of one triangle. -/
def cooperative : Driver :=
  { acquireResult := VK_SUCCESS
    imageIndex := 0
    submitResult := VK_SUCCESS
    presentResult := VK_SUCCESS
    windowWidth := 800
    windowHeight := 600
    result := fun _ => VK_SUCCESS
    handle := fun
      | .swapchain => 100
      | .swapchainImageView i => 110 + i
      | .renderPass => 120
      | .vertShaderModule => 121
      | .fragShaderModule => 122
      | .pipelineLayout => 123
      | .graphicsPipeline => 124
      | .depthImage => 125
      | .depthImageMemory => 126
      | .depthImageView => 127
      | .singleTimeCommandBuffer => 128
      | .framebuffer i => 130 + i
      | .commandBuffer i => 140 + i
      | _ => 0
    capabilities :=
      { minImageCount := 2
        maxImageCount := 3
        currentExtent := ⟨800, 600⟩
        minImageExtent := ⟨1, 1⟩
        maxImageExtent := ⟨4096, 4096⟩
        currentTransform := 1 }
    surfaceFormats := [⟨VK_FORMAT_B8G8R8A8_UNORM, VK_COLORSPACE_SRGB_NONLINEAR_KHR⟩]
    presentModes := [VK_PRESENT_MODE_FIFO_KHR]
    queueFamilies := [⟨1, true, true⟩]
    swapchainImages := [101, 102]
    formatProperties := fun _ => ⟨0, VK_FORMAT_FEATURE_DEPTH_STENCIL_ATTACHMENT_BIT⟩
    vertShaderFileOpens := true
    fragShaderFileOpens := true
    imageMemoryRequirements := fun _ => ⟨1024, 1⟩
    memoryTypes := [⟨VK_MEMORY_PROPERTY_DEVICE_LOCAL_BIT, 0⟩]
    bufferMemoryRequirements := fun _ => ⟨256, 1⟩
    enableValidationLayers := false
    availableLayers := []
    glfwInitSucceeds := true
    glfwWindow := 90
    glfwExtensionCount := 2
    debugReportFunctions := false
    physicalDevices := [91]
    availableExtensions := ["VK_KHR_swapchain"]
    samplerAnisotropy := true
    graphicsQueue := 1
    presentQueue := 2
    stbi_load := some (2, 2)
    stbi_pixels := true
    LoadObj := some (⟨[0, 0, 0, 1, 0, 0, 0, 1, 0], [], [0, 0, 1, 0, 0, 1]⟩,
      [⟨[⟨0, -1, 0⟩, ⟨1, -1, 1⟩, ⟨2, -1, 2⟩]⟩])
    sizeofVertex := 32 }

/-- An application state as `initVulkan` leaves it: a 640 x 480 swapchain of two images with
their views, framebuffers and command buffers, all handles distinct, the log empty. -/
def running : State :=
  { m_vkGraphicsQueue := 1
    m_vkPresentQueue := 2
    m_vkSurface := 3
    m_vkSwapchain := 4
    m_vkSwapchainImages := [5, 6]
    m_vkSwapchainImageFormat := VK_FORMAT_B8G8R8A8_UNORM
    m_vkSwapchainExtent := ⟨640, 480⟩
    m_vkSwapchainImageViews := [7, 8]
    m_vkRenderPass := 9
    m_vkPipelineLayout := 10
    m_vkGraphicsPipeline := 11
    m_vkSwapchainFrameBuffers := [12, 13]
    m_vkCommandPool := 14
    m_vkCommandBuffers := [15, 16]
    m_vkImageAvailableSemaphore := 17
    m_vkRenderFinishedSemaphore := 18
    m_vkDescriptorSetLayout := 19
    m_vkDepthImage := 20
    m_vkDepthImageMemory := 21
    m_vkDepthImageView := 22 }

/-- The acquire reports suboptimal; everything else succeeds. -/
def suboptimalAcquire : Driver :=
  { cooperative with acquireResult := VK_SUBOPTIMAL_KHR }

/-- The acquire reports out-of-date; everything else succeeds. -/
def outOfDateAcquire : Driver :=
  { cooperative with acquireResult := VK_ERROR_OUT_OF_DATE_KHR }

/-- The acquire reports out-of-date and `vkCreateSwapchainKHR` then fails with a lost
device. -/
def outOfDateAcquireLostDevice : Driver :=
  { cooperative with
    acquireResult := VK_ERROR_OUT_OF_DATE_KHR
    result := fun site => if site = .swapchain then VK_ERROR_DEVICE_LOST else VK_SUCCESS }

/-- The present reports suboptimal and `vkCreateRenderPass` then fails with a lost device. -/
def suboptimalPresentLostDevice : Driver :=
  { cooperative with
    presentResult := VK_SUBOPTIMAL_KHR
    result := fun site => if site = .renderPass then VK_ERROR_DEVICE_LOST else VK_SUCCESS }

/-- The present reports out-of-date while the window is minimised (0 x 0). -/
def outOfDatePresentMinimised : Driver :=
  { cooperative with
    presentResult := VK_ERROR_OUT_OF_DATE_KHR
    windowWidth := 0
    windowHeight := 0 }

/-- The window is minimised (0 x 0). -/
def minimised : Driver :=
  { cooperative with windowWidth := 0, windowHeight := 0 }

/-- The fragment shader file cannot be opened; everything else succeeds. -/
def missingFragmentShader : Driver :=
  { cooperative with fragShaderFileOpens := false }

/-! ## Memory types, buffers and the mip chain of the texture -/

/-- The function `findMemoryType` of `utilities.cpp:71-87`.  Its loop is, statement by
statement, the loop of the member function of the same name. -/
def Utilities.findMemoryType (env : Driver) (typeFilter properties : Nat) : Nat :=
  findMemoryType.search typeFilter properties 0 env.memoryTypes

/-- The function `createBuffer` (`utilities.cpp:11-44`).  The reference parameters `buffer`
and `bufferMemory` are the setters `setBuffer` and `setMemory`. -/
def Utilities.createBuffer (env : Driver) (bufferSite memorySite : Site)
    (size usageFlags properties : Nat) (setBuffer setMemory : Handle → State → State)
    (s : State) : Outcome Unit × State :=
  let s := s.call (.vkCreateBuffer size usageFlags)
  if VK_SUCCESS ≠ env.result bufferSite then
    (.threw .couldNotCreateVertexBuffer, s)
  else
    let buffer := env.handle bufferSite
    let s := setBuffer buffer s
    let memoryRequirements := env.bufferMemoryRequirements buffer
    let memoryTypeIndex :=
      Utilities.findMemoryType env memoryRequirements.memoryTypeBits properties
    let s := s.call (.vkAllocateMemory memoryRequirements.size memoryTypeIndex)
    if VK_SUCCESS ≠ env.result memorySite then
      (.threw .couldNotAllocateVertexBufferMemory, s)
    else
      let bufferMemory := env.handle memorySite
      let s := setMemory bufferMemory s
      (.returned (), s.call (.vkBindBufferMemory buffer bufferMemory))

/-- The mip level count computed at `vulkan.cpp:492`:
`static_cast<uint32_t>(std::floor(std::log2(std::max(texWidth, texHeight)))) + 1`.  For a
maximum of at least 1 the floor of the binary logarithm is the integer logarithm `Nat.log2`
(the `double` logarithm is exact enough for that on every `int`: the logarithm of a power of two
is exact, and below a power of two it stays away from the next integer by more than `2^-31`);
for a maximum below 1 the logarithm is not a number that can be cast, which is `none`. -/
def createTextureImage.mipLevels (texWidth texHeight : Int) : Option Nat :=
  if max texWidth texHeight < 1 then none
  else some (Nat.log2 (max texWidth texHeight).toNat + 1)

/-- The updates `if (mipWidth > 1) mipWidth /= 2;` and `if (mipHeight > 1) mipHeight /= 2;`
at the end of the loop body of `generateMipmaps` (`vulkan.cpp:1401-1408`), on `int32_t`. -/
def generateMipmaps.halve (mipSize : Int) : Int :=
  if mipSize > 1 then mipSize.tdiv 2 else mipSize

/-- The barrier of `generateMipmaps` on one level of `image`: the fields set once at
`vulkan.cpp:1335-1342` and the fields set before each `vkCmdPipelineBarrier`. -/
def generateMipmaps.barrier (image : Handle) (baseMipLevel oldLayout newLayout
    srcAccessMask dstAccessMask : Nat) : VkImageMemoryBarrier :=
  { image := image
    oldLayout := oldLayout
    newLayout := newLayout
    aspectMask := VK_IMAGE_ASPECT_COLOR_BIT
    baseMipLevel := baseMipLevel
    levelCount := 1
    srcAccessMask := srcAccessMask
    dstAccessMask := dstAccessMask }

/-- The three commands recorded by one pass of the loop of `generateMipmaps`
(`vulkan.cpp:1347-1399`) for level `i`, with the running `mipWidth` and `mipHeight`: the
barrier that makes level `i - 1` a transfer source, the blit from level `i - 1` into level
`i`, and the barrier that makes level `i - 1` shader-read-only. -/
def generateMipmaps.commands (image commandBuffer : Handle) (i : Nat)
    (mipWidth mipHeight : Int) : List Call :=
  [.vkCmdPipelineBarrier commandBuffer VK_PIPELINE_STAGE_TRANSFER_BIT
      VK_PIPELINE_STAGE_TRANSFER_BIT
      (generateMipmaps.barrier image (i - 1) VK_IMAGE_LAYOUT_TRANSFER_DST_OPTIMAL
        VK_IMAGE_LAYOUT_TRANSFER_SRC_OPTIMAL VK_ACCESS_TRANSFER_WRITE_BIT
        VK_ACCESS_TRANSFER_READ_BIT),
   .vkCmdBlitImage commandBuffer image VK_IMAGE_LAYOUT_TRANSFER_SRC_OPTIMAL image
      VK_IMAGE_LAYOUT_TRANSFER_DST_OPTIMAL
      { srcMipLevel := i - 1
        srcWidth := mipWidth
        srcHeight := mipHeight
        srcDepth := 1
        dstMipLevel := i
        dstWidth := mipWidth.tdiv 2
        dstHeight := mipHeight.tdiv 2
        dstDepth := 1 }
      VK_FILTER_LINEAR,
   .vkCmdPipelineBarrier commandBuffer VK_PIPELINE_STAGE_TRANSFER_BIT
      VK_PIPELINE_STAGE_FRAGMENT_SHADER_BIT
      (generateMipmaps.barrier image (i - 1) VK_IMAGE_LAYOUT_TRANSFER_SRC_OPTIMAL
        VK_IMAGE_LAYOUT_SHADER_READ_ONLY_OPTIMAL VK_ACCESS_TRANSFER_READ_BIT
        VK_ACCESS_SHADER_READ_BIT)]

/-- The loop `for (uint32_t i = 1; i < m_mipLevels; ++i)` of `generateMipmaps`
(`vulkan.cpp:1345-1409`) over the remaining values of `i`, with the running `mipWidth` and
`mipHeight`. -/
def generateMipmaps.loop (image commandBuffer : Handle) :
    List Nat → Int → Int → State → State
  | [], _, _, s => s
  | i :: rest, mipWidth, mipHeight, s =>
    generateMipmaps.loop image commandBuffer rest
      (generateMipmaps.halve mipWidth) (generateMipmaps.halve mipHeight)
      (s.callAll (generateMipmaps.commands image commandBuffer i mipWidth mipHeight))

/-- The last barrier of `generateMipmaps` (`vulkan.cpp:1411-1427`), on level
`mipLevels - 1` of the parameter, in `uint32_t` arithmetic. -/
def generateMipmaps.lastBarrier (image commandBuffer : Handle) (mipLevels : Nat) : Call :=
  .vkCmdPipelineBarrier commandBuffer VK_PIPELINE_STAGE_TRANSFER_BIT
    VK_PIPELINE_STAGE_FRAGMENT_SHADER_BIT
    (generateMipmaps.barrier image ((mipLevels + 2 ^ 32 - 1) % 2 ^ 32)
      VK_IMAGE_LAYOUT_TRANSFER_DST_OPTIMAL VK_IMAGE_LAYOUT_SHADER_READ_ONLY_OPTIMAL
      VK_ACCESS_TRANSFER_WRITE_BIT VK_ACCESS_SHADER_READ_BIT)

/-- Method `HelloTriangleApplication::generateMipmaps` (`vulkan.cpp:1327-1430`).  The loop
runs up to the member `m_mipLevels` (`vulkan.cpp:1345`); the last barrier names level
`mipLevels - 1` of the parameter (`vulkan.cpp:1411`). -/
def generateMipmaps (env : Driver) (image : Handle) (texWidth texHeight : Int)
    (mipLevels : Nat) (s : State) : Outcome Unit × State :=
  andThen (beginSingleTimeCommands env s.m_vkCommandPool s) fun commandBuffer s =>
  let s := generateMipmaps.loop image commandBuffer (List.range' 1 (s.m_mipLevels - 1))
    texWidth texHeight s
  let s := s.call (generateMipmaps.lastBarrier image commandBuffer mipLevels)
  (.returned (), endSingleTimeCommands s.m_vkCommandPool s.m_vkGraphicsQueue commandBuffer s)

/-! ## The model: mesh and rotation state (`model.h`, `model.cpp`)

The clock is an explicit input: every function that reads
`std::chrono::high_resolution_clock::now()` takes the reading as the argument `now`. -/

/-- The operator `==` of `glm::vec2`: the comparison `==` of `float`, component by
component. -/
def Vec2.operatorEq (v other : Vec2) : Bool :=
  v.x.operatorEq other.x && v.y.operatorEq other.y

/-- The operator `==` of `glm::vec3`: the comparison `==` of `float`, component by
component. -/
def Vec3.operatorEq (v other : Vec3) : Bool :=
  v.x.operatorEq other.x && v.y.operatorEq other.y && v.z.operatorEq other.z

/-- Method `Vertex::operator==` (`model.h:63-68`). -/
def Vertex.operatorEq (v other : Vertex) : Bool :=
  v.m_position.operatorEq other.m_position && v.m_texCoord.operatorEq other.m_texCoord
    && v.m_color.operatorEq other.m_color

/-- The `std::unordered_map<Vertex, uint32_t>` of `loadModel`, as the list of its entries in
insertion order.  Keys are compared with `Vertex::operator==`, with which `std::hash<Vertex>`
(`model.h:80-88`) agrees: a key is found when an entry compares equal to it, so a vertex with
a NaN in a compared component is never found. -/
abbrev VertexMap := List (Vertex × Nat)

/-- The member `count` of the map: 1 if a key equal to `vertex` is present, else 0. -/
def VertexMap.count (uniqueVertices : VertexMap) (vertex : Vertex) : Nat :=
  if uniqueVertices.any (fun entry => entry.1.operatorEq vertex) = true then 1 else 0

/-- The assignment `uniqueVertices[vertex] = value`: the value of the entry with an equal key
is replaced, and without such an entry a new one is added. -/
def VertexMap.assign (uniqueVertices : VertexMap) (vertex : Vertex) (value : Nat) :
    VertexMap :=
  if uniqueVertices.any (fun entry => entry.1.operatorEq vertex) = true then
    uniqueVertices.map fun entry =>
      if entry.1.operatorEq vertex = true then (entry.1, value) else entry
  else
    uniqueVertices ++ [(vertex, value)]

/-- The read `uniqueVertices[vertex]`: the value of the entry with an equal key; without such
an entry `operator[]` adds one with a value-initialised 0 and yields that 0.  The result is
the value read and the map after the read. -/
def VertexMap.read (uniqueVertices : VertexMap) (vertex : Vertex) : Nat × VertexMap :=
  match uniqueVertices.find? (fun entry => entry.1.operatorEq vertex) with
  | some entry => (entry.2, uniqueVertices)
  | none => (0, uniqueVertices ++ [(vertex, 0)])

/-- The vertex that `loadModel` builds for one face corner (`model.cpp:259-280`).  A read
outside an attribute array, which the loader never asks for, yields 0 here. -/
def Model.loadModel.vertex (attrib : attrib_t) (index : index_t) : Vertex :=
  let vertex : Vertex := {}
  let vertex := { vertex with m_position :=
    ⟨attrib.vertices.getD (3 * index.vertex_index + 0).toNat 0,
     attrib.vertices.getD (3 * index.vertex_index + 1).toNat 0,
     attrib.vertices.getD (3 * index.vertex_index + 2).toNat 0⟩ }
  let vertex :=
    if index.texcoord_index ≠ -1 then
      { vertex with m_texCoord :=
        ⟨attrib.texcoords.getD (2 * index.texcoord_index + 0).toNat 0,
         1 - attrib.texcoords.getD (2 * index.texcoord_index + 1).toNat 0⟩ }
    else vertex
  let vertex :=
    if index.normal_index ≠ -1 then
      { vertex with m_normal :=
        ⟨attrib.normals.getD (3 * index.normal_index + 0).toNat 0,
         attrib.normals.getD (3 * index.normal_index + 1).toNat 0,
         attrib.normals.getD (3 * index.normal_index + 2).toNat 0⟩ }
    else vertex
  { vertex with m_color := ⟨1, 0, 0⟩ }

/-- The body of the inner loop of `loadModel` (`model.cpp:257-288`) for one face corner. -/
def Model.loadModel.corner (attrib : attrib_t) (acc : VertexMap × Model) (index : index_t) :
    VertexMap × Model :=
  let vertex := Model.loadModel.vertex attrib index
  let acc : VertexMap × Model :=
    if acc.1.count vertex = 0 then
      (acc.1.assign vertex (acc.2.m_vertices.length % 2 ^ 32),
        { acc.2 with m_vertices := acc.2.m_vertices ++ [vertex] })
    else acc
  let read := acc.1.read vertex
  (read.2, { acc.2 with m_indices := acc.2.m_indices ++ [read.1] })

/-- Method `Model::loadModel` (`model.cpp:242-289`).  The argument `loaded` is what
`tinyobj::LoadObj` delivers: `none` when it fails, in which case `loadModel` throws (`none`). -/
def Model.loadModel (loaded : Option (attrib_t × List shape_t)) (m : Model) : Option Model :=
  match loaded with
  | none => none
  | some (attrib, shapes) =>
    some (shapes.foldl (fun acc shape =>
      shape.indices.foldl (Model.loadModel.corner attrib) acc) ([], m)).2

/-- The value of `std::chrono::duration<float, std::chrono::seconds::period>(d).count()` for
a difference `d` of two clock readings (`model.cpp:148`): the duration is converted as
`duration_cast` prescribes, the tick count is converted to `float` and divided, in `float`, by
the number of ticks in a second. -/
def Model.getDuration.seconds (ticks : Int) : float :=
  float.ofInt ticks / 1000000000

/-- Method `Model::getDuration` (`model.cpp:145-151`) on the element of `m_lastUpdateTime`
for `axis`. -/
def Model.getDuration (axis : Axis) (now : StdTime) (m : Model) : float × Model :=
  let currentTime := now
  let duration := Model.getDuration.seconds (currentTime - m.m_lastUpdateTime axis)
  (duration, { m with m_lastUpdateTime := Function.update m.m_lastUpdateTime axis currentTime })

/-- The common body of `Model::rotateX`, `Model::rotateY` and `Model::rotateZ`
(`model.cpp:51-108`), which differ in the axis only. -/
def Model.rotate (axis : Axis) (now : StdTime) (m : Model) : Model :=
  if m.m_fKeyPressed axis = true then
    if m.m_fDirectionPositive axis = true then
      let r := m.getDuration axis now
      { r.2 with m_durations :=
        Function.update r.2.m_durations axis (r.2.m_durations axis + r.1) }
    else
      let r := m.getDuration axis now
      { r.2 with m_durations :=
        Function.update r.2.m_durations axis (r.2.m_durations axis - r.1) }
  else m

/-- Method `Model::rotateX` (`model.cpp:51-64`). -/
def Model.rotateX (now : StdTime) (m : Model) : Model := m.rotate .x now

/-- Method `Model::rotateY` (`model.cpp:73-86`). -/
def Model.rotateY (now : StdTime) (m : Model) : Model := m.rotate .y now

/-- Method `Model::rotateZ` (`model.cpp:95-108`). -/
def Model.rotateZ (now : StdTime) (m : Model) : Model := m.rotate .z now

/-- The effect of `Model::getModelMatrix` (`model.cpp:121-135`) on the rotation state: the
three calls `rotateX(); rotateY(); rotateZ();` of one query, made at the clock reading
`now`. -/
def Model.getModelMatrix.rotations (now : StdTime) (m : Model) : Model :=
  (((m.rotateX now).rotateY now).rotateZ now)

/-- The common body of `Model::setXKeyPressed`, `Model::setYKeyPressed` and
`Model::setZKeyPressed` (`model.cpp:161-193`). -/
def Model.setKeyPressed (axis : Axis) (fKeyPressed : Bool) (now : StdTime) (m : Model) :
    Model :=
  { m with
    m_fKeyPressed := Function.update m.m_fKeyPressed axis fKeyPressed
    m_lastUpdateTime := Function.update m.m_lastUpdateTime axis now }

/-- The common body of `Model::fXDirectionPositive`, `Model::fYDirectionPositive` and
`Model::fZDirectionPositive` (`model.cpp:203-232`). -/
def Model.fDirectionPositive (axis : Axis) (fPositive : Bool) (m : Model) : Model :=
  { m with m_fDirectionPositive := Function.update m.m_fDirectionPositive axis fPositive }

def GLFW_RELEASE : Int := 0

def GLFW_PRESS : Int := 1

def GLFW_REPEAT : Int := 2

def GLFW_KEY_M : Int := 77

def GLFW_KEY_N : Int := 78

def GLFW_KEY_ESCAPE : Int := 256

def GLFW_KEY_RIGHT : Int := 262

def GLFW_KEY_LEFT : Int := 263

def GLFW_KEY_DOWN : Int := 264

def GLFW_KEY_UP : Int := 265

/-- The handling of one pair of keys in `onKeyPress` (`vulkan.cpp:1016-1031` and its two
repetitions): on press and on repeat the axis is set to pressed and the direction is set by
which key it was, on any other action the axis is set to not pressed. -/
def onKeyPress.axisKeys (axis : Axis) (positive : Bool) (action : Int) (now : StdTime)
    (m : Model) : Model :=
  if GLFW_PRESS = action ∨ GLFW_REPEAT = action then
    (m.setKeyPressed axis true now).fDirectionPositive axis positive
  else
    m.setKeyPressed axis false now

/-- Method `HelloTriangleApplication::onKeyPress` (`vulkan.cpp:1001-1073`), as its effect on
`m_models[0]`; the request to close the window on escape is not part of this state. -/
def onKeyPress (key action : Int) (now : StdTime) (m : Model) : Model :=
  if key = GLFW_KEY_ESCAPE then m
  else if key = GLFW_KEY_UP ∨ key = GLFW_KEY_DOWN then
    onKeyPress.axisKeys .x (decide (key ≠ GLFW_KEY_UP)) action now m
  else if key = GLFW_KEY_RIGHT ∨ key = GLFW_KEY_LEFT then
    onKeyPress.axisKeys .y (decide (key ≠ GLFW_KEY_LEFT)) action now m
  else if key = GLFW_KEY_M ∨ key = GLFW_KEY_N then
    onKeyPress.axisKeys .z (decide (key = GLFW_KEY_N)) action now m
  else m

/-- The key that turns an axis in the given direction (`vulkan.cpp:1019-1026`, `1040-1047`,
`1059-1066`): down, right and N are positive; up, left and M are negative. -/
def Axis.key : Axis → Bool → Int
  | .x, true => GLFW_KEY_DOWN
  | .x, false => GLFW_KEY_UP
  | .y, true => GLFW_KEY_RIGHT
  | .y, false => GLFW_KEY_LEFT
  | .z, true => GLFW_KEY_N
  | .z, false => GLFW_KEY_M

/-- The accumulated duration after one duration update of a held axis: the `+=` or `-=` of
`rotateX`, `rotateY` and `rotateZ`, by the direction, with the `float` seconds from the clock
reading `last` to the clock reading `now`. -/
def Model.rotate.accumulate (positive : Bool) (duration : float) (last now : StdTime) :
    float :=
  if positive = true then duration + Model.getDuration.seconds (now - last)
  else duration - Model.getDuration.seconds (now - last)

/-- The accumulated duration after the duration updates of a held axis at the clock readings
`times`, in order, the first of them counted from the clock reading `last`. -/
def Model.rotate.accumulateAll (positive : Bool) : float → StdTime → List StdTime → float
  | duration, _, [] => duration
  | duration, last, now :: rest =>
    Model.rotate.accumulateAll positive
      (Model.rotate.accumulate positive duration last now) now rest

/-- A sequence of model-matrix queries at the given clock readings, in order. -/
def Model.queries (times : List StdTime) (m : Model) : Model :=
  times.foldl (fun m now => Model.getModelMatrix.rotations now m) m

/-! ## Predicates and concrete inputs for memory types, mip chains, meshes and rotation -/

/-- Memory type `i` can serve a request: it exists, bit `i` of the requirement mask
`typeFilter` is set, and every flag of `properties` is among its property flags. -/
def findMemoryType.Suitable (memoryTypes : List VkMemoryType) (typeFilter properties i : Nat) :
    Prop :=
  ∃ memoryType, memoryTypes[i]? = some memoryType ∧ typeFilter.testBit i = true ∧
    ∀ bit, properties.testBit bit = true → memoryType.propertyFlags.testBit bit = true

/-- A running application whose member `m_mipLevels` is 1. -/
def runningOneMipLevel : State :=
  { running with m_vkTextureImage := 50, m_mipLevels := 1 }

/-- A running application whose member `m_mipLevels` is 3, the count that
`createTextureImage` computes for a 4 x 1 texture. -/
def runningThreeMipLevels : State :=
  { running with m_vkTextureImage := 50, m_mipLevels := 3 }

/-- A device with device-local memory type 0 and host-visible, host-coherent type 1, whose
images may only be placed in type 1 and whose buffers only in type 0.  No type is then
suitable for a device-local image, nor for a host-visible, host-coherent buffer. -/
def noSuitableMemoryType : Driver :=
  { cooperative with
    memoryTypes :=
      [⟨VK_MEMORY_PROPERTY_DEVICE_LOCAL_BIT, 0⟩,
       ⟨VK_MEMORY_PROPERTY_HOST_VISIBLE_BIT ||| VK_MEMORY_PROPERTY_HOST_COHERENT_BIT, 0⟩]
    imageMemoryRequirements := fun _ => ⟨1024, 2⟩
    bufferMemoryRequirements := fun _ => ⟨256, 1⟩ }

/-- A device with two memory types, device-local type 0 and host-visible, host-coherent
type 1, on which an image may be placed in either. -/
def hostVisibleSecond : Driver :=
  { cooperative with
    memoryTypes :=
      [⟨VK_MEMORY_PROPERTY_DEVICE_LOCAL_BIT, 0⟩,
       ⟨VK_MEMORY_PROPERTY_HOST_VISIBLE_BIT ||| VK_MEMORY_PROPERTY_HOST_COHERENT_BIT, 0⟩]
    imageMemoryRequirements := fun _ => ⟨1024, 3⟩ }

/-- The region of a logged `vkCmdBlitImage`, and `none` for every other call. -/
def Call.blitRegion : Call → Option VkImageBlit
  | .vkCmdBlitImage _ _ _ _ _ blit _ => some blit
  | _ => none

/-- A device on which of the three depth candidates only the last, D24_UNORM_S8_UINT, can be
a depth-stencil attachment with optimal tiling. -/
def onlyLastDepthCandidate : Driver :=
  { cooperative with
    formatProperties := fun format =>
      if format = VK_FORMAT_D24_UNORM_S8_UINT then
        ⟨0, VK_FORMAT_FEATURE_DEPTH_STENCIL_ATTACHMENT_BIT⟩
      else ⟨0, 0⟩ }

/-- A candidate format supports the requested features for the tiling: the test of the loop
of `findSupportedFormat` (`vulkan.cpp:1277-1284`). -/
def findSupportedFormat.Supports (env : Driver) (tiling features : Nat) (format : VkFormat) :
    Prop :=
  (VK_IMAGE_TILING_LINEAR = tiling ∧
    (env.formatProperties format).linearTilingFeatures &&& features = features) ∨
  (VK_IMAGE_TILING_OPTIMAL = tiling ∧
    (env.formatProperties format).optimalTilingFeatures &&& features = features)

instance findSupportedFormat.Supports.decidable (env : Driver) (tiling features : Nat)
    (format : VkFormat) : Decidable (findSupportedFormat.Supports env tiling features format) := by
  unfold findSupportedFormat.Supports
  infer_instance

/-! ## The camera (`camera.h`, `camera.cpp`) and its pointer callbacks

The pointer position that `glfwGetCursorPos` reports is an explicit input `cursor` of the
functions that ask for it.  In `angle += (current - last) / 10.0f` the difference of the two
`double` positions is a `double`, the constant `10.0f` is converted to `double`, the quotient
and the sum with the converted angle are computed in `double`, and the assignment converts the
sum back to `float`. -/

/-- Method `Camera::fMouseButtonPressed` (`camera.h:20`). -/
def Camera.fMouseButtonPressed (c : Camera) : Bool := c.m_fMousePressed

/-- Method `Camera::setInitialMousePosition` (`camera.h:21`). -/
def Camera.setInitialMousePosition (xPos yPos : double) (c : Camera) : Camera :=
  { c with m_lastMousePosition := (xPos, yPos) }

/-- Method `Camera::setCurrentMousePosition` (`camera.h:22`). -/
def Camera.setCurrentMousePosition (xPos yPos : double) (c : Camera) : Camera :=
  { c with m_currentMousePosition := (xPos, yPos) }

/-- The compound assignment `angle += (current - last) / 10.0f` of `camera.cpp:51-52` and
`camera.cpp:77-78`, for a `float` angle and two `double` positions: the value assigned. -/
def Camera.dragged (angle : float) (current last : double) : float :=
  (angle.toDouble + (current - last) / (10 : float).toDouble).toFloat

/-- Method `Camera::setMouseButtonPressed` (`camera.cpp:73-81`). -/
def Camera.setMouseButtonPressed (fMouseButtonPressed : Bool) (c : Camera) : Camera :=
  let c :=
    if (!fMouseButtonPressed) = true then
      { c with
        m_theta :=
          Camera.dragged c.m_theta c.m_currentMousePosition.2 c.m_lastMousePosition.2
        m_phi := Camera.dragged c.m_phi c.m_currentMousePosition.1 c.m_lastMousePosition.1 }
    else c
  { c with m_fMousePressed := fMouseButtonPressed }

/-- The angles `modifiedTheta` and `modifiedPhi` of `Camera::getViewMatrix`
(`camera.cpp:46-53`), in this order. -/
def Camera.getViewMatrix.modified (c : Camera) : float × float :=
  let modifiedTheta := c.m_theta
  let modifiedPhi := c.m_phi
  if c.m_fMousePressed = true then
    (Camera.dragged modifiedTheta c.m_currentMousePosition.2 c.m_lastMousePosition.2,
     Camera.dragged modifiedPhi c.m_currentMousePosition.1 c.m_lastMousePosition.1)
  else
    (modifiedTheta, modifiedPhi)

/-- Method `Camera::getViewMatrix` (`camera.cpp:44-62`).  It writes no member.  The argument
`lookAt` stands for the computation of `camera.cpp:55-61` (eye, right and up vector and
`glm::lookAt`), which reads the radius and the two modified angles only. -/
def Camera.getViewMatrix {α : Type} (lookAt : float → float → float → α) (c : Camera) : α :=
  lookAt c.m_radius (Camera.getViewMatrix.modified c).1 (Camera.getViewMatrix.modified c).2

def GLFW_MOUSE_BUTTON_LEFT : Int := 0

/-- Method `HelloTriangleApplication::onMouseClick` (`vulkan.cpp:1083-1100`), as its effect on
`m_camera`. -/
def onMouseClick (button action : Int) (cursor : double × double) (c : Camera) : Camera :=
  if GLFW_MOUSE_BUTTON_LEFT = button then
    if GLFW_PRESS = action then
      let c := c.setMouseButtonPressed true
      c.setInitialMousePosition cursor.1 cursor.2
    else
      c.setMouseButtonPressed false
  else c

/-- Method `HelloTriangleApplication::onCursorMove` (`vulkan.cpp:1110-1117`), as its effect on
`m_camera`. -/
def onCursorMove (xpos ypos : double) (c : Camera) : Camera :=
  if c.fMouseButtonPressed = true then c.setCurrentMousePosition xpos ypos else c

/-- The part of `updateUniformBuffer` that concerns the camera (`vulkan.cpp:372-378`): the
view matrix is taken first, then the current pointer position is recorded while the button
is held. -/
def updateUniformBuffer.camera {α : Type} (lookAt : float → float → float → α)
    (cursor : double × double) (c : Camera) : α × Camera :=
  let view := c.getViewMatrix lookAt
  if c.fMouseButtonPressed = true then
    (view, c.setCurrentMousePosition cursor.1 cursor.2)
  else
    (view, c)

/-- What can happen to the camera between a button-down and the next button event. -/
inductive DragStep where
  /-- The cursor callback `onCursorMove` with the pointer at this position -/
  | cursorMove (xpos ypos : double)
  /-- One `updateUniformBuffer` with the pointer at this position -/
  | frame (xPos yPos : double)
  /-- A call of `getViewMatrix` on its own -/
  | viewQuery
  deriving DecidableEq

/-- The effect of one step on the camera. -/
def DragStep.apply : DragStep → Camera → Camera
  | .cursorMove xpos ypos, c => onCursorMove xpos ypos c
  | .frame xPos yPos, c => (updateUniformBuffer.camera (fun _ _ _ => ()) (xPos, yPos) c).2
  | .viewQuery, c => c

/-- The pointer position that a step offers to `setCurrentMousePosition`, if any. -/
def DragStep.sample : DragStep → Option (double × double)
  | .cursorMove xpos ypos => some (xpos, ypos)
  | .frame xPos yPos => some (xPos, yPos)
  | .viewQuery => none

/-- The effect of a sequence of steps on the camera, in order. -/
def Camera.steps (steps : List DragStep) (c : Camera) : Camera :=
  steps.foldl (fun c step => step.apply c) c

/-- The last pointer position offered by a sequence of steps, if any. -/
def DragStep.lastSample (steps : List DragStep) : Option (double × double) :=
  (steps.filterMap DragStep.sample).getLast?

/-- The camera after one drag from (0, 0) to (10, 20): button-down at (0, 0), one frame with
the pointer at (10, 20), button-up. -/
def Camera.afterOneDrag : Camera :=
  onMouseClick GLFW_MOUSE_BUTTON_LEFT GLFW_RELEASE (10, 20)
    (Camera.steps [.frame 10 20]
      (onMouseClick GLFW_MOUSE_BUTTON_LEFT GLFW_PRESS (0, 0) Camera.initial))

/-! ## The model matrix (`model.cpp:121-135`)

A `glm::mat4` is carried as the matrix that acts on column vectors, with rational entries.
`getModelMatrix` turns by the angle `duration * glm::radians(90.0f)`, which for a duration
that is a whole number is a whole number of quarter turns, whose cosine and sine are 0, 1 or
-1: `glm::rotate` is therefore given for quarter turns about the coordinate axes, where it is
exact.  The matrix of any other angle has irrational entries and is not carried; what is
stated of the model matrix is stated for durations that are whole numbers. -/

/-- The scalar product of two `glm::vec4`. -/
def glm.dot (a b : glm.vec4) : ℚ :=
  a.x * b.x + a.y * b.y + a.z * b.z + a.w * b.w

/-- The product of a `glm::mat4` with a column vector. -/
def glm.mat4.mulVec (m : glm.mat4) (v : glm.vec4) : glm.vec4 :=
  ⟨glm.dot m.row0 v, glm.dot m.row1 v, glm.dot m.row2 v, glm.dot m.row3 v⟩

def glm.mat4.column0 (m : glm.mat4) : glm.vec4 := ⟨m.row0.x, m.row1.x, m.row2.x, m.row3.x⟩

def glm.mat4.column1 (m : glm.mat4) : glm.vec4 := ⟨m.row0.y, m.row1.y, m.row2.y, m.row3.y⟩

def glm.mat4.column2 (m : glm.mat4) : glm.vec4 := ⟨m.row0.z, m.row1.z, m.row2.z, m.row3.z⟩

def glm.mat4.column3 (m : glm.mat4) : glm.vec4 := ⟨m.row0.w, m.row1.w, m.row2.w, m.row3.w⟩

/-- One row of a matrix product: the row of the left factor against the columns of the right
factor. -/
def glm.mat4.mulRow (row : glm.vec4) (b : glm.mat4) : glm.vec4 :=
  ⟨glm.dot row b.column0, glm.dot row b.column1, glm.dot row b.column2, glm.dot row b.column3⟩

/-- The product `a * b` of two `glm::mat4`: `b` acts first. -/
def glm.mat4.mul (a b : glm.mat4) : glm.mat4 :=
  ⟨glm.mat4.mulRow a.row0 b, glm.mat4.mulRow a.row1 b, glm.mat4.mulRow a.row2 b,
    glm.mat4.mulRow a.row3 b⟩

instance glm.mat4.instMul : Mul glm.mat4 := ⟨glm.mat4.mul⟩

/-- The matrix `glm::translate(glm::mat4(1.0f), v)`. -/
def glm.translate (v : glm.vec3) : glm.mat4 :=
  ⟨⟨1, 0, 0, v.x⟩, ⟨0, 1, 0, v.y⟩, ⟨0, 0, 1, v.z⟩, ⟨0, 0, 0, 1⟩⟩

/-- The cosine of `quarters` quarter turns. -/
def glm.quarterCos (quarters : Int) : ℚ :=
  match quarters % 4 with
  | 0 => 1
  | 2 => -1
  | _ => 0

/-- The sine of `quarters` quarter turns. -/
def glm.quarterSin (quarters : Int) : ℚ :=
  match quarters % 4 with
  | 1 => 1
  | 3 => -1
  | _ => 0

/-- The matrix `glm::rotate(glm::mat4(1.0f), quarters * glm::radians(90.0f), axis)` for the
unit vector of a coordinate axis. -/
def glm.rotate (quarters : Int) : Axis → glm.mat4
  | .x =>
    ⟨⟨1, 0, 0, 0⟩, ⟨0, glm.quarterCos quarters, -glm.quarterSin quarters, 0⟩,
      ⟨0, glm.quarterSin quarters, glm.quarterCos quarters, 0⟩, ⟨0, 0, 0, 1⟩⟩
  | .y =>
    ⟨⟨glm.quarterCos quarters, 0, glm.quarterSin quarters, 0⟩, ⟨0, 1, 0, 0⟩,
      ⟨-glm.quarterSin quarters, 0, glm.quarterCos quarters, 0⟩, ⟨0, 0, 0, 1⟩⟩
  | .z =>
    ⟨⟨glm.quarterCos quarters, -glm.quarterSin quarters, 0, 0⟩,
      ⟨glm.quarterSin quarters, glm.quarterCos quarters, 0, 0⟩, ⟨0, 0, 1, 0⟩, ⟨0, 0, 0, 1⟩⟩

/-- The number of quarter turns of the angle `duration * glm::radians(90.0f)` for a duration
that is a whole number: the duration itself.  For a duration with a fraction it is the
number of whole quarter turns below it, and for an infinity or a NaN it is 0; the matrix of
`getModelMatrix` is carried exactly for whole durations only. -/
def glm.quarterTurns (duration : float) : Int :=
  match duration.value with
  | .finite mantissa exponent =>
    mantissa * FloatingPoint.pow2 exponent / FloatingPoint.pow2 (-exponent)
  | _ => 0

/-- The unary minus of `glm::vec3`. -/
def glm.vec3.neg (v : glm.vec3) : glm.vec3 := ⟨-v.x, -v.y, -v.z⟩

/-- A point of space as the column vector that a `glm::mat4` acts on. -/
def glm.vec3.point (v : glm.vec3) : glm.vec4 := ⟨v.x, v.y, v.z, 1⟩

/-- Method `Model::getModelMatrix` (`model.cpp:121-135`) at the clock reading `now`: the three
duration updates, then the product of the six matrices. -/
def Model.getModelMatrix (now : StdTime) (m : Model) : glm.mat4 × Model :=
  let m := Model.getModelMatrix.rotations now m
  (glm.translate m.m_position *
    glm.translate m.m_center.neg *
    glm.rotate (glm.quarterTurns (m.m_durations .x)) .x *
    glm.rotate (glm.quarterTurns (m.m_durations .y)) .y *
    glm.rotate (glm.quarterTurns (m.m_durations .z)) .z *
    glm.translate m.m_center, m)

/-- Method `Model::translate` (`model.cpp:420-423`), in the exact arithmetic in which
positions are carried. -/
def Model.translate (translationVector : glm.vec3) (m : Model) : Model :=
  { m with m_position :=
    ⟨m.m_position.x + translationVector.x, m.m_position.y + translationVector.y,
      m.m_position.z + translationVector.z⟩ }

/-- Method `Model::setCenter` (`model.cpp:440-443`). -/
def Model.setCenter (centerVector : glm.vec3) (m : Model) : Model :=
  { m with m_center := centerVector }

/-- The model of the application as the constructor of `HelloTriangleApplication` leaves it
(`vulkan.h:70-75`): the centre is set to (-0.5, -0.5, -0.5). -/
def Model.ofApplication : Model :=
  Model.initial.setCenter ⟨-1 / 2, -1 / 2, -1 / 2⟩

/-- The model of the application after the down key has been held for one second, with a
query at the moment of its release: a quarter turn about the x axis is accumulated. -/
def Model.quarterTurned : Model :=
  onKeyPress GLFW_KEY_DOWN GLFW_RELEASE 1000000000
    (Model.queries [1000000000] (onKeyPress GLFW_KEY_DOWN GLFW_PRESS 0 Model.ofApplication))

/-! ## Start-up: window, instance, device (`initWindow` and the first steps of `initVulkan`)

The `assert` statements and the printing of extension names are not part of the control flow
given here.  The driver describes one kind of physical device: every device that
`vkEnumeratePhysicalDevices` lists answers the queries alike. -/

def VK_ERROR_EXTENSION_NOT_PRESENT : VkResult := -7

def VK_FORMAT_R8G8B8A8_SNORM : VkFormat := 38

def VK_IMAGE_USAGE_TRANSFER_DST_BIT : Nat := 2

def VK_IMAGE_USAGE_SAMPLED_BIT : Nat := 4

def VK_BUFFER_USAGE_TRANSFER_DST_BIT : Nat := 2

def VK_BUFFER_USAGE_UNIFORM_BUFFER_BIT : Nat := 16

def VK_BUFFER_USAGE_INDEX_BUFFER_BIT : Nat := 64

def VK_BUFFER_USAGE_VERTEX_BUFFER_BIT : Nat := 128

/-- The member `validationLayers` (`vulkan.h:181`). -/
def validationLayers : List String := ["VK_LAYER_LUNARG_standard_validation"]

/-- The member `deviceExtensions` (`vulkan.h:182`), `VK_KHR_SWAPCHAIN_EXTENSION_NAME`. -/
def deviceExtensions : List String := ["VK_KHR_swapchain"]

/-- The application object as the constructor of `HelloTriangleApplication` leaves it
(`vulkan.h:54-76`): null handles, one model with its centre set, one descriptor set slot. -/
def State.constructed : State :=
  { m_models := [Model.ofApplication], m_vkDescriptorSets := resize [] 1 }

/-- Method `HelloTriangleApplication::initWindow` (`vulkan.cpp:947-977`). -/
def initWindow (env : Driver) (s : State) : Outcome Unit × State :=
  let s := s.call .glfwInit
  if env.glfwInitSucceeds = false then
    (.threw .glfwCouldNotBeInitialized, s)
  else
    let s := s.call (.glfwCreateWindow WIDTH HEIGHT)
    (.returned (), { s with m_glfwWindow := env.glfwWindow })

/-- Method `HelloTriangleApplication::checkValidationLayersSupport` (`vulkan.cpp:808-839`). -/
def checkValidationLayersSupport (env : Driver) : Bool :=
  validationLayers.all fun layerName =>
    env.availableLayers.any fun layerProperties => decide (layerName = layerProperties)

/-- The number of extensions that `getRequiredExtensions` (`vulkan.cpp:851-870`) returns. -/
def getRequiredExtensions.count (env : Driver) : Nat :=
  env.glfwExtensionCount + (if env.enableValidationLayers = true then 1 else 0)

/-- Method `HelloTriangleApplication::createInstance` (`vulkan.cpp:740-797`). -/
def createInstance (env : Driver) (s : State) : Outcome Unit × State :=
  if env.enableValidationLayers = true ∧ checkValidationLayersSupport env = false then
    (.threw .validationLayersNotAvailable, s)
  else
    let enabledLayerCount :=
      if env.enableValidationLayers = true then validationLayers.length else 0
    let s := s.call (.vkCreateInstance (getRequiredExtensions.count env) enabledLayerCount)
    if VK_SUCCESS ≠ env.result .vkInstance then
      (.threw .failedToCreateInstance, s)
    else
      (.returned (), { s with m_vkInstance := env.handle .vkInstance })

/-- The function `CreateDebugReportCallbackEXT` (`vulkan.cpp:44-59`): the result, and the
state with the callback written on success. -/
def CreateDebugReportCallbackEXT (env : Driver) (s : State) : VkResult × State :=
  if env.debugReportFunctions = true then
    let s := s.call (.vkCreateDebugReportCallbackEXT s.m_vkInstance)
    if VK_SUCCESS = env.result .debugCallback then
      (VK_SUCCESS, { s with m_vkCallback := env.handle .debugCallback })
    else
      (env.result .debugCallback, s)
  else
    (VK_ERROR_EXTENSION_NOT_PRESENT, s)

/-- The function `DestroyDebugReportCallbackEXT` (`vulkan.cpp:69-76`). -/
def DestroyDebugReportCallbackEXT (env : Driver) (vkInstance callback : Handle) (s : State) :
    State :=
  if env.debugReportFunctions = true then
    s.call (.vkDestroyDebugReportCallbackEXT vkInstance callback)
  else s

/-- Method `HelloTriangleApplication::setupDebugCallback` (`vulkan.cpp:1442-1457`). -/
def setupDebugCallback (env : Driver) (s : State) : Outcome Unit × State :=
  if env.enableValidationLayers = false then
    (.returned (), s)
  else
    let r := CreateDebugReportCallbackEXT env s
    if VK_SUCCESS ≠ r.1 then (.threw .failedToSetupDebugCallback, r.2)
    else (.returned (), r.2)

/-- Method `HelloTriangleApplication::createSurface` (`vulkan.cpp:1468-1474`). -/
def createSurface (env : Driver) (s : State) : Outcome Unit × State :=
  let s := s.call (.glfwCreateWindowSurface s.m_vkInstance s.m_glfwWindow)
  if VK_SUCCESS ≠ env.result .surface then
    (.threw .couldNotCreateWindowSurface, s)
  else
    (.returned (), { s with m_vkSurface := env.handle .surface })

/-- Method `HelloTriangleApplication::checkDeviceExtensionsSupport`
(`vulkan.cpp:1558-1580`): every required extension is erased by some available one. -/
def checkDeviceExtensionsSupport (env : Driver) (s : State) : Outcome Bool × State :=
  if VK_SUCCESS ≠ env.result .enumerateDeviceExtensions then
    (.threw .couldNotEnumerateDeviceExtensions, s)
  else
    (.returned (deviceExtensions.all fun required =>
      env.availableExtensions.any fun available => decide (required = available)), s)

/-- Method `HelloTriangleApplication::ifDeviceSuitable` (`vulkan.cpp:1525-1548`). -/
def ifDeviceSuitable (env : Driver) (s : State) : Outcome Bool × State :=
  andThen (findQueueFamilies env s) fun indices s =>
  andThen (checkDeviceExtensionsSupport env s) fun fExtensionsSupported s =>
  if fExtensionsSupported = true then
    andThen (querySwapChainSupportDetails env s) fun swapChainSupportDetails s =>
    let fSwapChainSupportEnough :=
      !swapChainSupportDetails.m_surfaceFormats.isEmpty
        && !swapChainSupportDetails.m_presentModes.isEmpty
    (.returned (indices.isComplete && fExtensionsSupported && fSwapChainSupportEnough
      && env.samplerAnisotropy), s)
  else
    (.returned (indices.isComplete && fExtensionsSupported && false
      && env.samplerAnisotropy), s)

/-- The range-for of `pickPhysicalDevice` (`vulkan.cpp:1502-1509`) over the remaining
devices. -/
def pickPhysicalDevice.scan (env : Driver) : List Handle → State → Outcome Unit × State
  | [], s => (.returned (), s)
  | device :: rest, s =>
    andThen (ifDeviceSuitable env s) fun suitable s =>
    if suitable = true then
      (.returned (), { s with m_vkPhysicalDevice := device })
    else
      pickPhysicalDevice.scan env rest s

/-- Method `HelloTriangleApplication::pickPhysicalDevice` (`vulkan.cpp:1486-1515`). -/
def pickPhysicalDevice (env : Driver) (s : State) : Outcome Unit × State :=
  if VK_SUCCESS ≠ env.result .enumeratePhysicalDevices then
    (.threw .failedToEnumeratePhysicalDevices, s)
  else if env.physicalDevices.length = 0 then
    (.threw .noGpuFound, s)
  else
    andThen (pickPhysicalDevice.scan env env.physicalDevices s) fun _ s =>
    if VK_NULL_HANDLE = s.m_vkPhysicalDevice then
      (.threw .failedToFindSuitableGpu, s)
    else
      (.returned (), s)

/-- Method `HelloTriangleApplication::createLogicalDevice` (`vulkan.cpp:2078-2125`).  The
`std::set` of the two family indices is the list of the distinct ones in ascending order. -/
def createLogicalDevice (env : Driver) (s : State) : Outcome Unit × State :=
  andThen (findQueueFamilies env s) fun indices s =>
  let queueFamilyIndices :=
    if indices.graphicsFamily = indices.presentFamily then [indices.graphicsFamily]
    else [min indices.graphicsFamily indices.presentFamily,
      max indices.graphicsFamily indices.presentFamily]
  let enabledLayerCount :=
    if env.enableValidationLayers = true then validationLayers.length else 0
  let s := s.call (.vkCreateDevice s.m_vkPhysicalDevice queueFamilyIndices enabledLayerCount)
  if VK_SUCCESS ≠ env.result .device then
    (.threw .failedToCreateLogicalDevice, s)
  else
    (.returned (), { s with
      m_vkDevice := env.handle .device
      m_vkGraphicsQueue := env.graphicsQueue
      m_vkPresentQueue := env.presentQueue })

/-- Method `HelloTriangleApplication::createDescriptorSetLayout` (`vulkan.cpp:266-293`). -/
def createDescriptorSetLayout (env : Driver) (s : State) : Outcome Unit × State :=
  let s := s.call .vkCreateDescriptorSetLayout
  if VK_SUCCESS ≠ env.result .descriptorSetLayout then
    (.threw .couldNotCreateDescriptorSetLayout, s)
  else
    (.returned (), { s with m_vkDescriptorSetLayout := env.handle .descriptorSetLayout })

/-- Method `HelloTriangleApplication::createCommandPool` (`vulkan.cpp:2277-2288`). -/
def createCommandPool (env : Driver) (s : State) : Outcome Unit × State :=
  andThen (findQueueFamilies env s) fun queueFamilyIndices s =>
  let s := s.call (.vkCreateCommandPool queueFamilyIndices.graphicsFamily)
  if VK_SUCCESS ≠ env.result .commandPool then
    (.threw .couldNotCreateCommandPool, s)
  else
    (.returned (), { s with m_vkCommandPool := env.handle .commandPool })

/-! ## Start-up: texture, model buffers, descriptors (`initVulkan`)

Mapping memory and copying bytes into it (`vkMapMemory`, `memcpy`, `vkUnmapMemory`) check no
result and are not in the log. -/

/-- Method `HelloTriangleApplication::copyBufferToImage` (`vulkan.cpp:689-706`). -/
def copyBufferToImage (env : Driver) (buffer image : Handle) (width height : Nat)
    (s : State) : Outcome Unit × State :=
  andThen (beginSingleTimeCommands env s.m_vkCommandPool s) fun commandBuffer s =>
  let s := s.call (.vkCmdCopyBufferToImage commandBuffer buffer image
    VK_IMAGE_LAYOUT_TRANSFER_DST_OPTIMAL 0 width height)
  (.returned (), endSingleTimeCommands s.m_vkCommandPool s.m_vkGraphicsQueue commandBuffer s)

/-- Method `HelloTriangleApplication::createTextureImage` (`vulkan.cpp:488-540`).  When
`stbi_load` has not written the width and height, line 492 reads them all the same, and when
their maximum is below 1 the logarithm cannot be cast: both are undefined behaviour, as is an
overflow of `texWidth * texHeight * 4` in `int`.  The null check of the pixels comes after
these computations. -/
def createTextureImage (env : Driver) (s : State) : Outcome Unit × State :=
  match env.stbi_load with
  | none => (.undefined, s)
  | some (texWidth, texHeight) =>
    match createTextureImage.mipLevels texWidth texHeight with
    | none => (.undefined, s)
    | some mipLevels =>
      let s := { s with m_mipLevels := mipLevels }
      if texWidth * texHeight * 4 < -(2 ^ 31) ∨ 2 ^ 31 ≤ texWidth * texHeight * 4 then
        (.undefined, s)
      else if env.stbi_pixels = false then
        (.threw .couldNotLoadTextureImage, s)
      else
        let imageSize := ((texWidth * texHeight * 4) % 2 ^ 64).toNat
        andThen (Utilities.createBuffer env .stagingBuffer .stagingBufferMemory imageSize
          VK_BUFFER_USAGE_TRANSFER_SRC_BIT
          (VK_MEMORY_PROPERTY_HOST_VISIBLE_BIT ||| VK_MEMORY_PROPERTY_HOST_COHERENT_BIT)
          (fun _ s => s) (fun _ s => s) s) fun _ s =>
        let stagingBuffer := env.handle .stagingBuffer
        let stagingBufferMemory := env.handle .stagingBufferMemory
        andThen (createImage env .textureImage .textureImageMemory
          (texWidth % 2 ^ 32).toNat (texHeight % 2 ^ 32).toNat s.m_mipLevels
          VK_FORMAT_R8G8B8A8_UNORM VK_IMAGE_TILING_OPTIMAL
          (VK_IMAGE_USAGE_TRANSFER_DST_BIT ||| VK_IMAGE_USAGE_SAMPLED_BIT)
          VK_MEMORY_PROPERTY_DEVICE_LOCAL_BIT
          (fun image s => { s with m_vkTextureImage := image })
          (fun memory s => { s with m_vkTextureMemory := memory }) s) fun _ s =>
        andThen (transitionImageLayout env s.m_vkTextureImage VK_FORMAT_R8G8B8A8_SNORM
          VK_IMAGE_LAYOUT_UNDEFINED VK_IMAGE_LAYOUT_TRANSFER_DST_OPTIMAL s.m_mipLevels s)
          fun _ s =>
        andThen (copyBufferToImage env stagingBuffer s.m_vkTextureImage
          (texWidth % 2 ^ 32).toNat (texHeight % 2 ^ 32).toNat s) fun _ s =>
        andThen (generateMipmaps env s.m_vkTextureImage texWidth texHeight s.m_mipLevels s)
          fun _ s =>
        let s := s.call (.vkDestroyBuffer stagingBuffer)
        (.returned (), s.call (.vkFreeMemory stagingBufferMemory))

/-- Method `HelloTriangleApplication::createTextureImageView` (`vulkan.cpp:1149-1156`). -/
def createTextureImageView (env : Driver) (s : State) : Outcome Unit × State :=
  andThen (createImageView env .textureImageView s.m_vkTextureImage VK_FORMAT_R8G8B8A8_UNORM
    VK_IMAGE_ASPECT_COLOR_BIT s.m_mipLevels s) fun imageView s =>
  (.returned (), { s with m_vkTextureImageView := imageView })

/-- Method `HelloTriangleApplication::createTextureSampler` (`vulkan.cpp:1200-1224`). -/
def createTextureSampler (env : Driver) (s : State) : Outcome Unit × State :=
  let s := s.call (.vkCreateSampler s.m_mipLevels)
  if VK_SUCCESS ≠ env.result .textureSampler then
    (.threw .couldNotCreateTextureSampler, s)
  else
    (.returned (), { s with m_vkTextureSampler := env.handle .textureSampler })

/-- Change element `i` of `m_models`, if there is one. -/
def State.updateModel (i : Nat) (f : Model → Model) (s : State) : State :=
  match s.m_models[i]? with
  | some model => { s with m_models := s.m_models.set i (f model) }
  | none => s

/-- The body of the range-for of `loadModels` (`vulkan.cpp:303-309`) for model `i`. -/
def loadModels.body (env : Driver) (i : Nat) (s : State) : Outcome Unit × State :=
  match s.m_models[i]? with
  | none => (.undefined, s)
  | some model =>
    match model.loadModel env.LoadObj with
    | none => (.threw .couldNotLoadObj, s)
    | some loaded => (.returned (), s.updateModel i fun _ => loaded)

/-- Method `HelloTriangleApplication::loadModels` (`vulkan.cpp:303-309`). -/
def loadModels (env : Driver) (s : State) : Outcome Unit × State :=
  forEachIndex (loadModels.body env) (List.range s.m_models.length) s

/-- The function `copyBuffer` (`utilities.cpp:54-69`). -/
def Utilities.copyBuffer (env : Driver) (vkCommandPool vkQueue srcBuffer dstBuffer : Handle)
    (size : Nat) (s : State) : Outcome Unit × State :=
  andThen (beginSingleTimeCommands env vkCommandPool s) fun commandBuffer s =>
  let s := s.call (.vkCmdCopyBuffer commandBuffer srcBuffer dstBuffer size)
  (.returned (), endSingleTimeCommands vkCommandPool vkQueue commandBuffer s)

/-- Method `Model::createVertexBuffer` (`model.cpp:298-327`) on model `i` of the
application. -/
def Model.createVertexBuffer (env : Driver) (i : Nat) (vkCommandPool vkQueue : Handle)
    (s : State) : Outcome Unit × State :=
  match s.m_models[i]? with
  | none => (.undefined, s)
  | some model =>
    let size := (env.sizeofVertex * model.m_vertices.length) % 2 ^ 32
    andThen (Utilities.createBuffer env (.vertexStagingBuffer i) (.vertexStagingMemory i) size
      VK_BUFFER_USAGE_TRANSFER_SRC_BIT
      (VK_MEMORY_PROPERTY_HOST_VISIBLE_BIT ||| VK_MEMORY_PROPERTY_HOST_COHERENT_BIT)
      (fun _ s => s) (fun _ s => s) s) fun _ s =>
    let stagingBuffer := env.handle (.vertexStagingBuffer i)
    let stagingMemory := env.handle (.vertexStagingMemory i)
    andThen (Utilities.createBuffer env (.vertexBuffer i) (.vertexBufferMemory i) size
      (VK_BUFFER_USAGE_TRANSFER_DST_BIT ||| VK_BUFFER_USAGE_VERTEX_BUFFER_BIT)
      VK_MEMORY_PROPERTY_DEVICE_LOCAL_BIT
      (fun buffer s => s.updateModel i fun m => { m with m_vkVertexBuffer := buffer })
      (fun memory s => s.updateModel i fun m => { m with m_vkVertexBufferMemory := memory })
      s) fun _ s =>
    andThen (Utilities.copyBuffer env vkCommandPool vkQueue stagingBuffer
      (env.handle (.vertexBuffer i)) size s) fun _ s =>
    let s := s.call (.vkDestroyBuffer stagingBuffer)
    (.returned (), s.call (.vkFreeMemory stagingMemory))

/-- Method `Model::createIndexBuffer` (`model.cpp:338-367`) on model `i` of the application;
an index is a `uint32_t` of 4 bytes. -/
def Model.createIndexBuffer (env : Driver) (i : Nat) (vkCommandPool vkQueue : Handle)
    (s : State) : Outcome Unit × State :=
  match s.m_models[i]? with
  | none => (.undefined, s)
  | some model =>
    let size := (4 * model.m_indices.length) % 2 ^ 32
    andThen (Utilities.createBuffer env (.indexStagingBuffer i) (.indexStagingMemory i) size
      VK_BUFFER_USAGE_TRANSFER_SRC_BIT
      (VK_MEMORY_PROPERTY_HOST_VISIBLE_BIT ||| VK_MEMORY_PROPERTY_HOST_COHERENT_BIT)
      (fun _ s => s) (fun _ s => s) s) fun _ s =>
    let stagingBuffer := env.handle (.indexStagingBuffer i)
    let stagingMemory := env.handle (.indexStagingMemory i)
    andThen (Utilities.createBuffer env (.indexBuffer i) (.indexBufferMemory i) size
      (VK_BUFFER_USAGE_TRANSFER_DST_BIT ||| VK_BUFFER_USAGE_INDEX_BUFFER_BIT)
      VK_MEMORY_PROPERTY_DEVICE_LOCAL_BIT
      (fun buffer s => s.updateModel i fun m => { m with m_vkIndexBuffer := buffer })
      (fun memory s => s.updateModel i fun m => { m with m_vkIndexBufferMemory := memory })
      s) fun _ s =>
    andThen (Utilities.copyBuffer env vkCommandPool vkQueue stagingBuffer
      (env.handle (.indexBuffer i)) size s) fun _ s =>
    let s := s.call (.vkDestroyBuffer stagingBuffer)
    (.returned (), s.call (.vkFreeMemory stagingMemory))

/-- Method `Model::createUniformBuffer` (`model.cpp:377-389`) on model `i` of the
application; a `UniformBufferObject` is three `glm::mat4`, 192 bytes. -/
def Model.createUniformBuffer (env : Driver) (i : Nat) (s : State) : Outcome Unit × State :=
  Utilities.createBuffer env (.uniformBuffer i) (.uniformBufferMemory i) 192
    VK_BUFFER_USAGE_UNIFORM_BUFFER_BIT
    (VK_MEMORY_PROPERTY_HOST_VISIBLE_BIT ||| VK_MEMORY_PROPERTY_HOST_COHERENT_BIT)
    (fun buffer s => s.updateModel i fun m => { m with m_vkUniformBuffer := buffer })
    (fun memory s => s.updateModel i fun m => { m with m_vkUniformBufferMemory := memory }) s

/-- Method `HelloTriangleApplication::createVertexBuffers` (`vulkan.cpp:319-330`). -/
def createVertexBuffers (env : Driver) (s : State) : Outcome Unit × State :=
  forEachIndex (fun i s => Model.createVertexBuffer env i s.m_vkCommandPool s.m_vkGraphicsQueue s)
    (List.range s.m_models.length) s

/-- Method `HelloTriangleApplication::createIndexBuffers` (`vulkan.cpp:341-352`). -/
def createIndexBuffers (env : Driver) (s : State) : Outcome Unit × State :=
  forEachIndex (fun i s => Model.createIndexBuffer env i s.m_vkCommandPool s.m_vkGraphicsQueue s)
    (List.range s.m_models.length) s

/-- Method `HelloTriangleApplication::createUniformBuffer` (`vulkan.cpp:245-251`). -/
def createUniformBuffer (env : Driver) (s : State) : Outcome Unit × State :=
  forEachIndex (Model.createUniformBuffer env) (List.range s.m_models.length) s

/-- Method `HelloTriangleApplication::createDescriptorPool` (`vulkan.cpp:398-415`). -/
def createDescriptorPool (env : Driver) (s : State) : Outcome Unit × State :=
  let s := s.call (.vkCreateDescriptorPool 2)
  if VK_SUCCESS ≠ env.result .descriptorPool then
    (.threw .couldNotCreateDescriptorPool, s)
  else
    (.returned (), { s with m_vkDescriptorPool := env.handle .descriptorPool })

/-- The body of the loop of `createDescriptorSet` (`vulkan.cpp:440-476`) at index `i`; it
reads `m_models[i]`. -/
def createDescriptorSet.body (i : Nat) (s : State) : Outcome Unit × State :=
  match s.m_models[i]? with
  | none => (.undefined, s)
  | some model =>
    (.returned (), s.call (.vkUpdateDescriptorSets (s.m_vkDescriptorSets.getD i 0)
      model.m_vkUniformBuffer s.m_vkTextureImageView s.m_vkTextureSampler))

/-- Method `HelloTriangleApplication::createDescriptorSet` (`vulkan.cpp:426-478`).
`vkAllocateDescriptorSets` writes one set per model into the storage of
`m_vkDescriptorSets`; with more models than elements it writes past the end. -/
def createDescriptorSet (env : Driver) (s : State) : Outcome Unit × State :=
  let descriptorSetCount := s.m_models.length
  let s := s.call (.vkAllocateDescriptorSets s.m_vkDescriptorPool descriptorSetCount)
  if s.m_vkDescriptorSets.length < descriptorSetCount then
    (.undefined, s)
  else if VK_SUCCESS ≠ env.result .descriptorSets then
    (.threw .couldNotCreateDescriptorSet, s)
  else
    let written := (List.range descriptorSetCount).map fun i => env.handle (.descriptorSet i)
    let s := { s with
      m_vkDescriptorSets := written ++ s.m_vkDescriptorSets.drop descriptorSetCount }
    forEachIndex createDescriptorSet.body (List.range s.m_vkDescriptorSets.length) s

/-- Method `HelloTriangleApplication::createSemaphores` (`vulkan.cpp:222-231`); the second
semaphore is created only when the first creation succeeded. -/
def createSemaphores (env : Driver) (s : State) : Outcome Unit × State :=
  let s := s.call .vkCreateSemaphore
  if VK_SUCCESS ≠ env.result .imageAvailableSemaphore then
    (.threw .semaphoresCouldNotBeCreated, s)
  else
    let s := { s with m_vkImageAvailableSemaphore := env.handle .imageAvailableSemaphore }
    let s := s.call .vkCreateSemaphore
    if VK_SUCCESS ≠ env.result .renderFinishedSemaphore then
      (.threw .semaphoresCouldNotBeCreated, s)
    else
      (.returned (),
        { s with m_vkRenderFinishedSemaphore := env.handle .renderFinishedSemaphore })

/-- Method `HelloTriangleApplication::initVulkan` (`vulkan.cpp:86-112`). -/
def initVulkan (env : Driver) (s : State) : Outcome Unit × State :=
  andThen (createInstance env s) fun _ s =>
  andThen (setupDebugCallback env s) fun _ s =>
  andThen (createSurface env s) fun _ s =>
  andThen (pickPhysicalDevice env s) fun _ s =>
  andThen (createLogicalDevice env s) fun _ s =>
  andThen (createSwapChain env s) fun _ s =>
  andThen (createSwapchainImageViews env s) fun _ s =>
  andThen (createRenderPass env s) fun _ s =>
  andThen (createDescriptorSetLayout env s) fun _ s =>
  andThen (createGraphicsPipeline env s) fun _ s =>
  andThen (createCommandPool env s) fun _ s =>
  andThen (createDepthResources env s) fun _ s =>
  andThen (createFrameBuffers env s) fun _ s =>
  andThen (createTextureImage env s) fun _ s =>
  andThen (createTextureImageView env s) fun _ s =>
  andThen (createTextureSampler env s) fun _ s =>
  andThen (loadModels env s) fun _ s =>
  andThen (createVertexBuffers env s) fun _ s =>
  andThen (createIndexBuffers env s) fun _ s =>
  andThen (createUniformBuffer env s) fun _ s =>
  andThen (createDescriptorPool env s) fun _ s =>
  andThen (createDescriptorSet env s) fun _ s =>
  andThen (createAndFillCommandBuffers env s) fun _ s =>
  createSemaphores env s

/-! ## The main loop, the teardown and `run`

What happens while the program runs is an input: a list of frames, one per pass of the loop of
`mainLoop`.  `glfwWindowShouldClose` answers false once for every frame of the list and true
after the last, so a run of the loop that never ends is not represented.  A frame fixes the
events that `glfwPollEvents` delivers, the clock reading and pointer position of the pass, and
what the device answers during it. -/

/-- An event that `glfwPollEvents` delivers to one of the three callbacks set in `initWindow`
(`vulkan.cpp:974-976`). -/
inductive Event where
  /-- The key callback `onKeyPress` -/
  | key (key action : Int)
  /-- The mouse button callback `onMouseClick` -/
  | mouseButton (button action : Int)
  /-- The window size callback `onWindowResize` -/
  | windowResize

/-- One pass of the loop of `mainLoop`. -/
structure Frame where
  events : List Event
  now : StdTime
  cursor : double × double
  env : Driver

/-- The dispatch of one event to its callback: `onKeyPress` acts on `m_models[0]` and asks to
close the window on escape (`vulkan.cpp:1011-1013`), `onMouseClick` acts on the camera,
`onWindowResize` (`vulkan.cpp:987-991`) rebuilds the swapchain. -/
def glfwPollEvents.dispatch (frame : Frame) (event : Event) (s : State) :
    Outcome Unit × State :=
  match event with
  | .key key action =>
    let s := if key = GLFW_KEY_ESCAPE then s.call (.glfwSetWindowShouldClose s.m_glfwWindow)
      else s
    if key = GLFW_KEY_UP ∨ key = GLFW_KEY_DOWN ∨ key = GLFW_KEY_RIGHT ∨ key = GLFW_KEY_LEFT
        ∨ key = GLFW_KEY_M ∨ key = GLFW_KEY_N then
      match s.m_models[0]? with
      | none => (.undefined, s)
      | some _ => (.returned (), s.updateModel 0 (onKeyPress key action frame.now))
    else (.returned (), s)
  | .mouseButton button action =>
    (.returned (), { s with m_camera := onMouseClick button action frame.cursor s.m_camera })
  | .windowResize => recreateSwapchain frame.env s

/-- The call `glfwPollEvents()` of `mainLoop`: the events of the frame, in order. -/
def glfwPollEvents (frame : Frame) : List Event → State → Outcome Unit × State
  | [], s => (.returned (), s)
  | event :: rest, s =>
    andThen (glfwPollEvents.dispatch frame event s) fun _ s => glfwPollEvents frame rest s

/-- The body of the loop of `updateUniformBuffer` (`vulkan.cpp:365-389`) for model `i`: the
model matrix is taken, which updates the durations; the view matrix is taken and the pointer
position recorded while the button is held; the matrices are copied into mapped memory. -/
def updateUniformBuffer.body (frame : Frame) (i : Nat) (s : State) : State :=
  let s := s.updateModel i fun model => (model.getModelMatrix frame.now).2
  { s with m_camera :=
    (updateUniformBuffer.camera (fun _ _ _ => ()) frame.cursor s.m_camera).2 }

/-- Method `HelloTriangleApplication::updateUniformBuffer` (`vulkan.cpp:363-390`). -/
def updateUniformBuffer (frame : Frame) (s : State) : State :=
  (List.range s.m_models.length).foldl (fun s i => updateUniformBuffer.body frame i s) s

/-- Method `HelloTriangleApplication::mainLoop` (`vulkan.cpp:114-124`). -/
def mainLoop : List Frame → State → Outcome Unit × State
  | [], s => (.returned (), s.call .vkDeviceWaitIdle)
  | frame :: rest, s =>
    andThen (glfwPollEvents frame frame.events s) fun _ s =>
    let s := updateUniformBuffer frame s
    andThen (drawFrame frame.env s) fun _ s =>
    mainLoop rest s

/-- Method `Model::cleanup` (`model.cpp:399-407`), as the calls it makes. -/
def Model.cleanup (model : Model) : List Call :=
  [.vkDestroyBuffer model.m_vkVertexBuffer, .vkFreeMemory model.m_vkVertexBufferMemory,
   .vkDestroyBuffer model.m_vkIndexBuffer, .vkFreeMemory model.m_vkIndexBufferMemory,
   .vkDestroyBuffer model.m_vkUniformBuffer, .vkFreeMemory model.m_vkUniformBufferMemory]

/-- Method `HelloTriangleApplication::cleanup` (`vulkan.cpp:880-904`). -/
def cleanup (env : Driver) (s : State) : State :=
  let s := cleanupSwapchain s
  let s := s.call (.vkDestroyDescriptorPool s.m_vkDescriptorPool)
  let s := s.call (.vkDestroyDescriptorSetLayout s.m_vkDescriptorSetLayout)
  let s := s.call (.vkDestroySampler s.m_vkTextureSampler)
  let s := s.call (.vkDestroyImageView s.m_vkTextureImageView)
  let s := s.call (.vkDestroyImage s.m_vkTextureImage)
  let s := s.call (.vkFreeMemory s.m_vkTextureMemory)
  let s := s.callAll (s.m_models.flatMap Model.cleanup)
  let s := s.call (.vkDestroySemaphore s.m_vkImageAvailableSemaphore)
  let s := s.call (.vkDestroySemaphore s.m_vkRenderFinishedSemaphore)
  let s := s.call (.vkDestroyCommandPool s.m_vkCommandPool)
  let s := s.call (.vkDestroyDevice s.m_vkDevice)
  let s := s.call (.vkDestroySurfaceKHR s.m_vkInstance s.m_vkSurface)
  let s := DestroyDebugReportCallbackEXT env s.m_vkInstance s.m_vkCallback s
  let s := s.call (.vkDestroyInstance s.m_vkInstance)
  let s := s.call (.glfwDestroyWindow s.m_glfwWindow)
  s.call .glfwTerminate

/-- Method `HelloTriangleApplication::run` (`vulkan.cpp:126-132`): the four calls in
sequence, with no handler around them. -/
def run (env : Driver) (frames : List Frame) (s : State) : Outcome Unit × State :=
  andThen (initWindow env s) fun _ s =>
  andThen (initVulkan env s) fun _ s =>
  andThen (mainLoop frames s) fun _ s =>
  (.returned (), cleanup env s)

/-- The calls by which the program gives a resource back: every `vkDestroy...` and
`vkFree...` call, `glfwDestroyWindow` and `glfwTerminate`. -/
def Call.isTeardown : Call → Bool
  | .vkDestroyImageView _ => true
  | .vkDestroyImage _ => true
  | .vkFreeMemory _ => true
  | .vkDestroyFramebuffer _ => true
  | .vkFreeCommandBuffers _ _ => true
  | .vkDestroyPipeline _ => true
  | .vkDestroyPipelineLayout _ => true
  | .vkDestroyRenderPass _ => true
  | .vkDestroySwapchainKHR _ => true
  | .vkDestroyShaderModule _ => true
  | .vkDestroyBuffer _ => true
  | .glfwDestroyWindow _ => true
  | .glfwTerminate => true
  | .vkDestroyInstance _ => true
  | .vkDestroyDebugReportCallbackEXT _ _ => true
  | .vkDestroySurfaceKHR _ _ => true
  | .vkDestroyDevice _ => true
  | .vkDestroyDescriptorSetLayout _ => true
  | .vkDestroyCommandPool _ => true
  | .vkDestroySampler _ => true
  | .vkDestroyDescriptorPool _ => true
  | .vkDestroySemaphore _ => true
  | _ => false

/-! ## Concrete inputs for start-up and run -/

/-- The driver `cooperative` with a handle of its own for every site. -/
def startup : Driver :=
  { cooperative with
    handle := fun
      | .vkInstance => 201
      | .debugCallback => 202
      | .surface => 3
      | .device => 204
      | .descriptorSetLayout => 19
      | .commandPool => 14
      | .textureImage => 210
      | .textureImageMemory => 211
      | .textureImageView => 212
      | .textureSampler => 213
      | .stagingBuffer => 214
      | .stagingBufferMemory => 215
      | .vertexStagingBuffer i => 220 + 10 * i
      | .vertexStagingMemory i => 221 + 10 * i
      | .vertexBuffer i => 222 + 10 * i
      | .vertexBufferMemory i => 223 + 10 * i
      | .indexStagingBuffer i => 224 + 10 * i
      | .indexStagingMemory i => 225 + 10 * i
      | .indexBuffer i => 226 + 10 * i
      | .indexBufferMemory i => 227 + 10 * i
      | .uniformBuffer i => 228 + 10 * i
      | .uniformBufferMemory i => 229 + 10 * i
      | .descriptorPool => 216
      | .descriptorSet i => 300 + i
      | .imageAvailableSemaphore => 17
      | .renderFinishedSemaphore => 18
      | site => cooperative.handle site }

/-- The driver `startup` on which `vkCreateSwapchainKHR` fails with a lost device. -/
def startupLostDevice : Driver :=
  { startup with
    result := fun site => if site = .swapchain then VK_ERROR_DEVICE_LOST else VK_SUCCESS }

/-- A frame without events in which every call succeeds. -/
def quietFrame : Frame :=
  { events := [], now := 0, cursor := (0, 0), env := startup }

/-- A frame without events in which `vkAcquireNextImageKHR` fails with a lost device. -/
def lostDeviceFrame : Frame :=
  { events := [], now := 1, cursor := (0, 0),
    env := { startup with acquireResult := VK_ERROR_DEVICE_LOST } }

/-! ## Tracking the layout of each mip level of an image through the log -/

/-- The layouts after one logged command: a barrier on `image` puts the levels it covers into
its new layout; no other command changes a layout. -/
def Call.layoutsAfter (image : Handle) (layouts : List Nat) : Call → List Nat
  | .vkCmdPipelineBarrier _ _ _ barrier =>
    if barrier.image = image then
      (List.range' barrier.baseMipLevel barrier.levelCount).foldl
        (fun layouts level => layouts.set level barrier.newLayout) layouts
    else layouts
  | _ => layouts

/-- A logged command finds the layouts it relies on: a barrier on `image` names as its old
layout the layout of every level it covers; a copy or a blit into `image` writes to a level
that is in transfer-destination layout.  Every other command relies on nothing. -/
def Call.respectsLayouts (image : Handle) (layouts : List Nat) : Call → Bool
  | .vkCmdPipelineBarrier _ _ _ barrier =>
    if barrier.image = image then
      (List.range' barrier.baseMipLevel barrier.levelCount).all fun level =>
        decide (layouts[level]? = some barrier.oldLayout)
    else true
  | .vkCmdCopyBufferToImage _ _ dstImage _ mipLevel _ _ =>
    if dstImage = image then
      decide (layouts[mipLevel]? = some VK_IMAGE_LAYOUT_TRANSFER_DST_OPTIMAL)
    else true
  | .vkCmdBlitImage _ _ _ dstImage _ blit _ =>
    if dstImage = image then
      decide (layouts[blit.dstMipLevel]? = some VK_IMAGE_LAYOUT_TRANSFER_DST_OPTIMAL)
    else true
  | _ => true

/-- The layouts of the levels of `image` after a list of logged commands. -/
def layoutsAfter (image : Handle) (calls : List Call) (layouts : List Nat) : List Nat :=
  calls.foldl (fun layouts c => c.layoutsAfter image layouts) layouts

/-- The first logged command that does not find the layouts it relies on, if there is one. -/
def firstLayoutViolation (image : Handle) : List Call → List Nat → Option Call
  | [], _ => none
  | c :: rest, layouts =>
    if c.respectsLayouts image layouts = true then
      firstLayoutViolation image rest (c.layoutsAfter image layouts)
    else some c

/-! ## One resource per swapchain image -/

/-- The four vectors of the application that are meant to hold one element per swapchain
image: the images, their views, the framebuffers and the command buffers. -/
def State.vectors (s : State) : List Handle × List Handle × List Handle × List Handle :=
  (s.m_vkSwapchainImages, s.m_vkSwapchainImageViews, s.m_vkSwapchainFrameBuffers,
    s.m_vkCommandBuffers)

/-- A result `r` of running a member function from state `s` leaves the four vectors as they
were, however the function ends. -/
def Keeps {α : Type} (s : State) (r : Outcome α × State) : Prop :=
  r.2.vectors = s.vectors

/-- A postcondition: `P` holds of the state in which the member function returns, if it
returns. -/
def Post {α : Type} (P : State → Prop) (r : Outcome α × State) : Prop :=
  ∀ value, r.1 = .returned value → P r.2

/-- There is one image view per swapchain image. -/
def State.ViewPerImage (s : State) : Prop :=
  s.m_vkSwapchainImageViews.length = s.m_vkSwapchainImages.length

/-- There is one image view and one framebuffer per swapchain image. -/
def State.FramebufferPerImage (s : State) : Prop :=
  s.ViewPerImage ∧ s.m_vkSwapchainFrameBuffers.length = s.m_vkSwapchainImages.length

/-- There is one image view, one framebuffer and one command buffer per swapchain image. -/
def State.OnePerImage (s : State) : Prop :=
  s.FramebufferPerImage ∧ s.m_vkCommandBuffers.length = s.m_vkSwapchainImages.length

/-! # Theorems -/

/-! ## The rebuild stays within its own calls and errors -/

theorem within_returned {α : Type} {P : Call → Prop} {Q : Error → Prop} (a : α)
    (s : State) : Within P Q s (Outcome.returned a, s) :=
  ⟨⟨[], by simp, by simp⟩, by intro e h; cases h⟩

theorem within_threw {α : Type} {P : Call → Prop} {Q : Error → Prop} {e : Error} (h : Q e)
    (s : State) :
    Within P Q s ((Outcome.threw e : Outcome α), s) :=
  ⟨⟨[], by simp, by simp⟩, by intro e1 h1; cases h1; exact h⟩

theorem within_undefined {α : Type} {P : Call → Prop} {Q : Error → Prop} (s : State) :
    Within P Q s ((Outcome.undefined : Outcome α), s) :=
  ⟨⟨[], by simp, by simp⟩, by intro e h; cases h⟩

theorem within_step {α : Type} {P : Call → Prop} {Q : Error → Prop} {s s1 : State}
    {r : Outcome α × State} (l : List Call)
    (h : s1.calls = s.calls ++ l) (hl : ∀ c ∈ l, P c) (hr : Within P Q s1 r) :
    Within P Q s r := by
  obtain ⟨⟨l1, h1, hl1⟩, hq⟩ := hr
  refine ⟨⟨l ++ l1, ?_, ?_⟩, hq⟩
  · rw [h1, h, List.append_assoc]
  · intro c hc
    rcases List.mem_append.mp hc with hc | hc
    · exact hl c hc
    · exact hl1 c hc

theorem within_andThen {α β : Type} {P : Call → Prop} {Q : Error → Prop} {s : State}
    {r : Outcome α × State}
    {k : α → State → Outcome β × State} (hr : Within P Q s r)
    (hk : ∀ a s1, Within P Q s1 (k a s1)) : Within P Q s (andThen r k) := by
  obtain ⟨o, s1⟩ := r
  obtain ⟨⟨l, h, hl⟩, hq⟩ := hr
  cases o with
  | returned a => exact within_step l h hl (hk a s1)
  | threw e => exact within_step l h hl (within_threw (hq e rfl) s1)
  | undefined => exact within_step l h hl (within_undefined s1)

theorem within_forEachIndex {P : Call → Prop} {Q : Error → Prop}
    {body : Nat → State → Outcome Unit × State}
    (hbody : ∀ i s, Within P Q s (body i s)) (indices : List Nat) (s : State) :
    Within P Q s (forEachIndex body indices s) := by
  induction indices generalizing s with
  | nil => exact within_returned () s
  | cons i rest ih =>
    unfold forEachIndex
    exact within_andThen (hbody i s) (fun _ s1 => ih s1)

theorem rebuilds_andThen {α β : Type} {s : State} {r : Outcome α × State}
    {k : α → State → Outcome β × State} (hr : Rebuilds s r)
    (hk : ∀ a s1, Rebuilds s1 (k a s1)) : Rebuilds s (andThen r k) :=
  within_andThen hr hk

theorem rebuilds_forEachIndex {body : Nat → State → Outcome Unit × State}
    (hbody : ∀ i s, Rebuilds s (body i s)) (indices : List Nat) (s : State) :
    Rebuilds s (forEachIndex body indices s) :=
  within_forEachIndex hbody indices s

theorem rebuilds_trans {α : Type} {s t : State} {r : Outcome α × State}
    (h : Rebuilds s (Outcome.returned (), t)) (hr : Rebuilds t r) : Rebuilds s r := by
  obtain ⟨⟨l, h1, h2⟩, _⟩ := h
  exact within_step l h1 h2 hr

theorem cleanupSwapchain_rebuilds (s : State) :
    Rebuilds s (Outcome.returned (), cleanupSwapchain s) := by
  refine ⟨⟨[.vkDestroyImageView s.m_vkDepthImageView, .vkDestroyImage s.m_vkDepthImage,
      .vkFreeMemory s.m_vkDepthImageMemory]
    ++ s.m_vkSwapchainFrameBuffers.map .vkDestroyFramebuffer
    ++ [.vkFreeCommandBuffers s.m_vkCommandPool s.m_vkCommandBuffers,
      .vkDestroyPipeline s.m_vkGraphicsPipeline, .vkDestroyPipelineLayout s.m_vkPipelineLayout,
      .vkDestroyRenderPass s.m_vkRenderPass]
    ++ s.m_vkSwapchainImageViews.map .vkDestroyImageView
    ++ [.vkDestroySwapchainKHR s.m_vkSwapchain], ?_, ?_⟩, by intro e h; cases h⟩
  · simp [cleanupSwapchain, State.call, State.callAll]
  · intro c hc
    simp only [List.mem_append, List.mem_cons, List.mem_map, List.mem_singleton,
      List.not_mem_nil, or_false] at hc
    rcases hc with ((((h | h | h) | ⟨a, _, h⟩) | (h | h | h | h)) | ⟨a, _, h⟩) | h <;>
      subst h <;> rfl

theorem querySwapChainSupportDetails_rebuilds (env : Driver) (s : State) :
    Rebuilds s (querySwapChainSupportDetails env s) := by
  unfold querySwapChainSupportDetails Rebuilds Within
  split_ifs <;> simp [Error.isFrameError]

theorem findQueueFamilies_rebuilds (env : Driver) (s : State) :
    Rebuilds s (findQueueFamilies env s) := by
  unfold findQueueFamilies Rebuilds Within
  split_ifs <;> simp [Error.isFrameError]

theorem createSwapChain_rebuilds (env : Driver) (s : State) :
    Rebuilds s (createSwapChain env s) := by
  unfold createSwapChain
  refine rebuilds_andThen (querySwapChainSupportDetails_rebuilds env s) ?_
  intro details s1
  split
  · simp [Rebuilds, Within]
  · dsimp only
    refine rebuilds_trans (t := { s1 with
        m_vkSwapchainExtent := chooseSwapExtent details.m_capabilities,
        m_vkSwapchainImageFormat := _ }) ?_
      (rebuilds_andThen (findQueueFamilies_rebuilds env _) ?_)
    · simp [Rebuilds, Within]
    · intro indices s2
      unfold Rebuilds Within
      split_ifs <;>
        simp [State.call, Call.isFrameStep, Call.isDrawSubmission, Error.isFrameError]

theorem createImageView_rebuilds (env : Driver) (site : Site) (image : Handle)
    (format : VkFormat) (aspectFlags mipLevels : Nat) (s : State) :
    Rebuilds s (createImageView env site image format aspectFlags mipLevels s) := by
  unfold createImageView Rebuilds Within
  split_ifs <;> simp [State.call, Call.isFrameStep, Call.isDrawSubmission, Error.isFrameError]

theorem createSwapchainImageViews_rebuilds (env : Driver) (s : State) :
    Rebuilds s (createSwapchainImageViews env s) := by
  unfold createSwapchainImageViews
  dsimp only
  refine rebuilds_trans (t := { s with m_vkSwapchainImageViews := _ }) ?_
    (rebuilds_forEachIndex ?_ _ _)
  · simp [Rebuilds, Within]
  · intro i s1
    unfold createSwapchainImageViews.body
    refine rebuilds_andThen (createImageView_rebuilds ..) ?_
    intro imageView s2
    simp [Rebuilds, Within]

theorem findSupportedFormat_rebuilds (env : Driver) (candidates : List VkFormat)
    (tiling features : Nat) (s : State) :
    Rebuilds s (findSupportedFormat env candidates tiling features s) := by
  unfold findSupportedFormat Rebuilds Within
  split
  · simp
  · dsimp only
    split_ifs <;> simp [Error.isFrameError]

theorem findDepthFormat_rebuilds (env : Driver) (s : State) :
    Rebuilds s (findDepthFormat env s) :=
  findSupportedFormat_rebuilds ..

theorem createRenderPass_rebuilds (env : Driver) (s : State) :
    Rebuilds s (createRenderPass env s) := by
  unfold createRenderPass
  refine rebuilds_andThen (findDepthFormat_rebuilds env s) ?_
  intro depthFormat s1
  unfold Rebuilds Within
  dsimp only
  split_ifs <;> simp [State.call, Call.isFrameStep, Call.isDrawSubmission, Error.isFrameError]

theorem readFile_rebuilds (opens : Bool) (s : State) : Rebuilds s (readFile opens s) := by
  unfold readFile Rebuilds Within
  split_ifs <;> simp [Error.isFrameError]

theorem createShaderModule_rebuilds (env : Driver) (site : Site) (s : State) :
    Rebuilds s (createShaderModule env site s) := by
  unfold createShaderModule Rebuilds Within
  dsimp only
  split_ifs <;> simp [State.call, Call.isFrameStep, Call.isDrawSubmission, Error.isFrameError]

theorem createGraphicsPipeline_rebuilds (env : Driver) (s : State) :
    Rebuilds s (createGraphicsPipeline env s) := by
  unfold createGraphicsPipeline
  refine rebuilds_andThen (readFile_rebuilds _ s) fun _ s1 => ?_
  refine rebuilds_andThen (readFile_rebuilds _ s1) fun _ s2 => ?_
  refine rebuilds_andThen (createShaderModule_rebuilds env _ s2) fun vert s3 => ?_
  refine rebuilds_andThen (createShaderModule_rebuilds env _ s3) fun frag s4 => ?_
  unfold Rebuilds Within
  dsimp only
  split_ifs <;> simp [State.call, Call.isFrameStep, Call.isDrawSubmission, Error.isFrameError]

theorem createDepthImage_rebuilds (env : Driver) (width height mipLevels : Nat)
    (imageFormat : VkFormat) (tiling usageFlags properties : Nat) (s : State) :
    Rebuilds s (createImage env .depthImage .depthImageMemory width height mipLevels
      imageFormat tiling usageFlags properties
      (fun image s => { s with m_vkDepthImage := image })
      (fun memory s => { s with m_vkDepthImageMemory := memory }) s) := by
  unfold createImage Rebuilds Within
  dsimp only
  split_ifs <;> simp [State.call, Call.isFrameStep, Call.isDrawSubmission, Error.isFrameError]

theorem beginSingleTimeCommands_rebuilds (env : Driver) (vkCommandPool : Handle) (s : State) :
    Rebuilds s (beginSingleTimeCommands env vkCommandPool s) := by
  unfold beginSingleTimeCommands Rebuilds Within
  dsimp only
  split_ifs <;> simp [State.call, Call.isFrameStep, Call.isDrawSubmission, Error.isFrameError]

theorem transitionImageLayout_rebuilds (env : Driver) (image : Handle) (format : VkFormat)
    (oldLayout newLayout mipLevels : Nat) (s : State) :
    Rebuilds s (transitionImageLayout env image format oldLayout newLayout mipLevels s) := by
  unfold transitionImageLayout
  refine rebuilds_andThen (beginSingleTimeCommands_rebuilds env _ s) fun commandBuffer s1 => ?_
  unfold Rebuilds Within
  split
  · simp [Error.isFrameError]
  · simp [State.call, endSingleTimeCommands, Call.isFrameStep, Call.isDrawSubmission]

theorem createDepthResources_rebuilds (env : Driver) (s : State) :
    Rebuilds s (createDepthResources env s) := by
  unfold createDepthResources
  refine rebuilds_andThen (findDepthFormat_rebuilds env s) fun depthFormat s1 => ?_
  refine rebuilds_andThen (createDepthImage_rebuilds ..) fun _ s2 => ?_
  refine rebuilds_andThen (createImageView_rebuilds ..) fun imageView s3 => ?_
  dsimp only
  refine rebuilds_trans (t := { s3 with m_vkDepthImageView := imageView }) ?_
    (transitionImageLayout_rebuilds ..)
  simp [Rebuilds, Within]

theorem createFrameBuffers_rebuilds (env : Driver) (s : State) :
    Rebuilds s (createFrameBuffers env s) := by
  unfold createFrameBuffers
  dsimp only
  refine rebuilds_trans (t := { s with m_vkSwapchainFrameBuffers := _ }) ?_
    (rebuilds_forEachIndex ?_ _ _)
  · simp [Rebuilds, Within]
  · intro i s1
    unfold createFrameBuffers.body Rebuilds Within
    dsimp only
    split_ifs <;> simp [State.call, Call.isFrameStep, Call.isDrawSubmission, Error.isFrameError]

theorem createAndFillCommandBuffers_rebuilds (env : Driver) (s : State) :
    Rebuilds s (createAndFillCommandBuffers env s) := by
  unfold createAndFillCommandBuffers
  dsimp only
  split
  · simp [Rebuilds, Within, State.call, Call.isFrameStep, Call.isDrawSubmission,
      Error.isFrameError]
  · refine rebuilds_trans (t := { s with
        m_vkCommandBuffers := _,
        calls := s.calls ++ [.vkAllocateCommandBuffers s.m_vkCommandPool
          s.m_vkSwapchainFrameBuffers.length] }) ?_ (rebuilds_forEachIndex ?_ _ _)
    · simp [Rebuilds, Within, Call.isFrameStep, Call.isDrawSubmission]
    · intro i s1
      unfold createAndFillCommandBuffers.body Rebuilds Within
      split_ifs <;> simp [Error.isFrameError]

/-- After its window-size query, `recreateSwapchain` makes no frame step and throws no frame
error, whatever the driver answers. -/
theorem recreateSwapchain_rebuilds (env : Driver) (s : State) :
    Rebuilds (s.call .glfwGetWindowSize) (recreateSwapchain env s) := by
  unfold recreateSwapchain
  dsimp only
  split
  · simp [Rebuilds, Within]
  · refine rebuilds_trans
      (t := cleanupSwapchain ((s.call .glfwGetWindowSize).call .vkDeviceWaitIdle)) ?_ ?_
    · refine rebuilds_trans
        (t := (s.call .glfwGetWindowSize).call .vkDeviceWaitIdle) ?_
        (cleanupSwapchain_rebuilds _)
      simp [Rebuilds, Within, State.call, Call.isFrameStep, Call.isDrawSubmission]
    · refine rebuilds_andThen (createSwapChain_rebuilds env _) fun _ s1 => ?_
      refine rebuilds_andThen (createSwapchainImageViews_rebuilds env _) fun _ s2 => ?_
      refine rebuilds_andThen (createRenderPass_rebuilds env _) fun _ s3 => ?_
      refine rebuilds_andThen (createGraphicsPipeline_rebuilds env _) fun _ s4 => ?_
      refine rebuilds_andThen (createDepthResources_rebuilds env _) fun _ s5 => ?_
      refine rebuilds_andThen (createFrameBuffers_rebuilds env _) fun _ s6 => ?_
      exact createAndFillCommandBuffers_rebuilds env _

/-! ## The rebuild on a cooperative driver -/

theorem take_succ_set (v : List Handle) (k : Nat) (x : Handle) (hk : k < v.length) :
    (v.set k x).take (k + 1) = v.take k ++ [x] := by
  rw [List.set_eq_take_append_cons_drop, if_pos hk]
  have hlen : (List.take k v).length = k := by
    rw [List.length_take]; omega
  rw [List.take_append_eq_append_take, hlen]
  simp

theorem range_map_getD {β : Type} (l : List Handle) (f : Handle → β) :
    (List.range l.length).map (fun i => f (l.getD i 0)) = l.map f := by
  apply List.ext_getElem
  · simp
  · intro n h1 h2
    simp at h1
    simp [List.getElem?_eq_getElem h1]

theorem resize_length (v : List Handle) (n : Nat) : (resize v n).length = n := by
  unfold resize
  simp
  omega

theorem createSwapChain_cooperative (env : Driver) (h : env.Cooperates) (s : State)
    (surfaceFormat : VkSurfaceFormatKHR)
    (hf : chooseSwapChainSurfaceFormat env.surfaceFormats = some surfaceFormat) :
    createSwapChain env s = (.returned (),
      { s with
        m_vkSwapchainExtent := chooseSwapExtent env.capabilities
        m_vkSwapchainImageFormat := surfaceFormat.format
        m_vkSwapchain := env.handle .swapchain
        m_vkSwapchainImages := env.swapchainImages
        calls := s.calls ++ [.vkCreateSwapchainKHR (createSwapChain.createInfo s
          ⟨env.capabilities, env.surfaceFormats, env.presentModes⟩ surfaceFormat
          (findQueueFamilies.scan {} 0 env.queueFamilies))] }) := by
  have hq : env.queueFamilies.length ≠ 0 := by
    intro h0
    exact h.queueFamilies (List.length_eq_zero.mp h0)
  simp [createSwapChain, querySwapChainSupportDetails, andThen, h.result, hf,
    findQueueFamilies, hq, State.call, createSwapChain.createInfo]

theorem createSwapchainImageViews_loop_cooperative (env : Driver) (h : env.Cooperates)
    (m : Nat) : ∀ (k : Nat) (s : State), k + m ≤ s.m_vkSwapchainImageViews.length →
    forEachIndex (createSwapchainImageViews.body env) (List.range' k m) s
    = (.returned (),
      { s with
        m_vkSwapchainImageViews := s.m_vkSwapchainImageViews.take k
          ++ (List.range' k m).map (fun i => env.handle (.swapchainImageView i))
          ++ s.m_vkSwapchainImageViews.drop (k + m)
        calls := s.calls ++ (List.range' k m).map fun i =>
          Call.vkCreateImageView (s.m_vkSwapchainImages.getD i 0) s.m_vkSwapchainImageFormat
            VK_IMAGE_ASPECT_COLOR_BIT 1 }) := by
  induction m with
  | zero =>
    intro k s _
    simp [forEachIndex]
  | succ m ih =>
    intro k s hk
    have hlt : k < s.m_vkSwapchainImageViews.length := by omega
    rw [List.range'_succ]
    unfold forEachIndex
    simp only [createSwapchainImageViews.body, createImageView, h.result, andThen, State.call,
      ne_eq, not_true_eq_false, if_false]
    rw [ih (k + 1)]
    · simp only [take_succ_set _ _ _ hlt, List.drop_set_of_lt _ _ (show k < k + 1 + m by omega)]
      simp [Nat.add_assoc, Nat.add_comm 1 m]
    · simp only [List.length_set]
      omega

theorem createSwapchainImageViews_cooperative (env : Driver) (h : env.Cooperates) (s : State) :
    createSwapchainImageViews env s = (.returned (),
      { s with
        m_vkSwapchainImageViews := (List.range s.m_vkSwapchainImages.length).map
          fun i => env.handle (.swapchainImageView i)
        calls := s.calls ++ s.m_vkSwapchainImages.map fun image =>
          Call.vkCreateImageView image s.m_vkSwapchainImageFormat
            VK_IMAGE_ASPECT_COLOR_BIT 1 }) := by
  unfold createSwapchainImageViews
  dsimp only
  rw [List.range_eq_range', createSwapchainImageViews_loop_cooperative env h]
  · simp only [resize_length, List.take_zero, List.nil_append, Nat.zero_add]
    rw [List.drop_of_length_le (by simp [resize_length])]
    rw [← List.range_eq_range', range_map_getD s.m_vkSwapchainImages
      (fun image => Call.vkCreateImageView image s.m_vkSwapchainImageFormat
        VK_IMAGE_ASPECT_COLOR_BIT 1)]
    simp
  · simp [resize_length]

theorem findDepthFormat_cooperative (env : Driver) (h : env.Cooperates) (s : State) :
    findDepthFormat env s = (.returned VK_FORMAT_D32_SFLOAT, s) := by
  have hd := h.depthFormat
  simp [findDepthFormat, findSupportedFormat, hd, VK_IMAGE_TILING_OPTIMAL,
    VK_IMAGE_TILING_LINEAR]

theorem createRenderPass_cooperative (env : Driver) (h : env.Cooperates) (s : State) :
    createRenderPass env s = (.returned (),
      { s with
        m_vkRenderPass := env.handle .renderPass
        calls := s.calls
          ++ [.vkCreateRenderPass s.m_vkSwapchainImageFormat VK_FORMAT_D32_SFLOAT] }) := by
  simp [createRenderPass, findDepthFormat_cooperative env h, andThen, h.result, State.call]

theorem createGraphicsPipeline_cooperative (env : Driver) (h : env.Cooperates) (s : State) :
    createGraphicsPipeline env s = (.returned (),
      { s with
        m_vkPipelineLayout := env.handle .pipelineLayout
        m_vkGraphicsPipeline := env.handle .graphicsPipeline
        calls := s.calls ++
          [.vkCreateShaderModule,
           .vkCreateShaderModule,
           .vkCreatePipelineLayout s.m_vkDescriptorSetLayout,
           .vkCreateGraphicsPipelines (env.handle .pipelineLayout) s.m_vkRenderPass
             s.m_vkSwapchainExtent,
           .vkDestroyShaderModule (env.handle .vertShaderModule),
           .vkDestroyShaderModule (env.handle .fragShaderModule)] }) := by
  simp [createGraphicsPipeline, readFile, createShaderModule, andThen, h.result,
    h.vertShaderFile, h.fragShaderFile, State.call]

theorem createDepthResources_cooperative (env : Driver) (h : env.Cooperates) (s : State) :
    createDepthResources env s = (.returned (),
      { s with
        m_vkDepthImage := env.handle .depthImage
        m_vkDepthImageMemory := env.handle .depthImageMemory
        m_vkDepthImageView := env.handle .depthImageView
        calls := s.calls ++
          [.vkCreateImage s.m_vkSwapchainExtent.width s.m_vkSwapchainExtent.height 1
             VK_FORMAT_D32_SFLOAT VK_IMAGE_TILING_OPTIMAL
             VK_IMAGE_USAGE_DEPTH_STENCIL_ATTACHMENT_BIT,
           .vkAllocateMemory (env.imageMemoryRequirements (env.handle .depthImage)).size
             (findMemoryType env
               (env.imageMemoryRequirements (env.handle .depthImage)).memoryTypeBits
               VK_MEMORY_PROPERTY_DEVICE_LOCAL_BIT),
           .vkBindImageMemory (env.handle .depthImage) (env.handle .depthImageMemory),
           .vkCreateImageView (env.handle .depthImage) VK_FORMAT_D32_SFLOAT
             VK_IMAGE_ASPECT_DEPTH_BIT 1,
           .vkAllocateCommandBuffers s.m_vkCommandPool 1,
           .vkCmdPipelineBarrier (env.handle .singleTimeCommandBuffer)
             VK_PIPELINE_STAGE_TOP_OF_PIPE_BIT VK_PIPELINE_STAGE_EARLY_FRAGMENT_TESTS_BIT
             { image := env.handle .depthImage
               oldLayout := VK_IMAGE_LAYOUT_UNDEFINED
               newLayout := VK_IMAGE_LAYOUT_DEPTH_STENCIL_ATTACHMENT_OPTIMAL
               aspectMask := VK_IMAGE_ASPECT_DEPTH_BIT
               baseMipLevel := 0
               levelCount := 1
               srcAccessMask := 0
               dstAccessMask := VK_ACCESS_DEPTH_STENCIL_ATTACHMENT_READ_BIT
                 ||| VK_ACCESS_DEPTH_STENCIL_ATTACHMENT_WRITE_BIT },
           .vkQueueSubmit s.m_vkGraphicsQueue [] [some (env.handle .singleTimeCommandBuffer)] [],
           .vkQueueWaitIdle s.m_vkGraphicsQueue,
           .vkFreeCommandBuffers s.m_vkCommandPool [env.handle .singleTimeCommandBuffer]] }) := by
  have hm : transitionImageLayout.masks VK_IMAGE_LAYOUT_UNDEFINED
      VK_IMAGE_LAYOUT_DEPTH_STENCIL_ATTACHMENT_OPTIMAL
      = some (0, VK_ACCESS_DEPTH_STENCIL_ATTACHMENT_READ_BIT
          ||| VK_ACCESS_DEPTH_STENCIL_ATTACHMENT_WRITE_BIT,
        VK_PIPELINE_STAGE_TOP_OF_PIPE_BIT, VK_PIPELINE_STAGE_EARLY_FRAGMENT_TESTS_BIT) := by
    decide
  have ha : transitionImageLayout.aspectMask VK_FORMAT_D32_SFLOAT
      VK_IMAGE_LAYOUT_DEPTH_STENCIL_ATTACHMENT_OPTIMAL = VK_IMAGE_ASPECT_DEPTH_BIT := by
    decide
  simp [createDepthResources, findDepthFormat_cooperative env h, andThen, createImage,
    createImageView, transitionImageLayout, beginSingleTimeCommands, endSingleTimeCommands,
    h.result, State.call, hm, ha]

theorem createFrameBuffers_loop_cooperative (env : Driver) (h : env.Cooperates)
    (m : Nat) : ∀ (k : Nat) (s : State), k + m ≤ s.m_vkSwapchainFrameBuffers.length →
    forEachIndex (createFrameBuffers.body env) (List.range' k m) s
    = (.returned (),
      { s with
        m_vkSwapchainFrameBuffers := s.m_vkSwapchainFrameBuffers.take k
          ++ (List.range' k m).map (fun i => env.handle (.framebuffer i))
          ++ s.m_vkSwapchainFrameBuffers.drop (k + m)
        calls := s.calls ++ (List.range' k m).map fun i =>
          Call.vkCreateFramebuffer s.m_vkRenderPass
            [s.m_vkSwapchainImageViews.getD i 0, s.m_vkDepthImageView]
            s.m_vkSwapchainExtent }) := by
  induction m with
  | zero =>
    intro k s _
    simp [forEachIndex]
  | succ m ih =>
    intro k s hk
    have hlt : k < s.m_vkSwapchainFrameBuffers.length := by omega
    rw [List.range'_succ]
    unfold forEachIndex
    simp only [createFrameBuffers.body, h.result, andThen, State.call, ne_eq,
      not_true_eq_false, if_false]
    rw [ih (k + 1)]
    · simp only [take_succ_set _ _ _ hlt, List.drop_set_of_lt _ _ (show k < k + 1 + m by omega)]
      simp [Nat.add_assoc, Nat.add_comm 1 m]
    · simp only [List.length_set]
      omega

theorem createFrameBuffers_cooperative (env : Driver) (h : env.Cooperates) (s : State) :
    createFrameBuffers env s = (.returned (),
      { s with
        m_vkSwapchainFrameBuffers := (List.range s.m_vkSwapchainImageViews.length).map
          fun i => env.handle (.framebuffer i)
        calls := s.calls ++ s.m_vkSwapchainImageViews.map fun imageView =>
          Call.vkCreateFramebuffer s.m_vkRenderPass [imageView, s.m_vkDepthImageView]
            s.m_vkSwapchainExtent }) := by
  unfold createFrameBuffers
  dsimp only
  rw [List.range_eq_range', createFrameBuffers_loop_cooperative env h]
  · simp only [resize_length, List.take_zero, List.nil_append, Nat.zero_add]
    rw [List.drop_of_length_le (by simp [resize_length])]
    rw [← List.range_eq_range', range_map_getD s.m_vkSwapchainImageViews
      (fun imageView => Call.vkCreateFramebuffer s.m_vkRenderPass
        [imageView, s.m_vkDepthImageView] s.m_vkSwapchainExtent)]
    simp
  · simp [resize_length]

theorem createAndFillCommandBuffers_loop_cooperative (env : Driver) (h : env.Cooperates)
    (indices : List Nat) (s : State) :
    forEachIndex (createAndFillCommandBuffers.body env) indices s = (.returned (), s) := by
  induction indices with
  | nil => rfl
  | cons i rest ih =>
    unfold forEachIndex
    simp [createAndFillCommandBuffers.body, h.result, andThen, ih]

theorem createAndFillCommandBuffers_cooperative (env : Driver) (h : env.Cooperates)
    (s : State) :
    createAndFillCommandBuffers env s = (.returned (),
      { s with
        m_vkCommandBuffers := (List.range s.m_vkSwapchainFrameBuffers.length).map
          fun i => env.handle (.commandBuffer i)
        calls := s.calls ++ [.vkAllocateCommandBuffers s.m_vkCommandPool
          s.m_vkSwapchainFrameBuffers.length] }) := by
  unfold createAndFillCommandBuffers
  simp [h.result, createAndFillCommandBuffers_loop_cooperative env h, State.call]

/-- The state in which `recreateSwapchain` returns on a cooperative driver with a window of
non-zero area. -/
theorem recreateSwapchain_cooperative (env : Driver) (h : env.Cooperates) (s : State)
    (hw : env.windowWidth ≠ 0) (hh : env.windowHeight ≠ 0)
    (surfaceFormat : VkSurfaceFormatKHR)
    (hf : chooseSwapChainSurfaceFormat env.surfaceFormats = some surfaceFormat) :
    recreateSwapchain env s = (.returned (),
      { s with
        m_vkSwapchainExtent := chooseSwapExtent env.capabilities
        m_vkSwapchainImageFormat := surfaceFormat.format
        m_vkSwapchain := env.handle .swapchain
        m_vkSwapchainImages := env.swapchainImages
        m_vkSwapchainImageViews := (List.range env.swapchainImages.length).map
          fun i => env.handle (.swapchainImageView i)
        m_vkRenderPass := env.handle .renderPass
        m_vkPipelineLayout := env.handle .pipelineLayout
        m_vkGraphicsPipeline := env.handle .graphicsPipeline
        m_vkDepthImage := env.handle .depthImage
        m_vkDepthImageMemory := env.handle .depthImageMemory
        m_vkDepthImageView := env.handle .depthImageView
        m_vkSwapchainFrameBuffers := (List.range env.swapchainImages.length).map
          fun i => env.handle (.framebuffer i)
        m_vkCommandBuffers := (List.range env.swapchainImages.length).map
          fun i => env.handle (.commandBuffer i)
        calls := s.calls
          ++ [.glfwGetWindowSize, .vkDeviceWaitIdle]
          ++ [.vkDestroyImageView s.m_vkDepthImageView,
              .vkDestroyImage s.m_vkDepthImage,
              .vkFreeMemory s.m_vkDepthImageMemory]
          ++ s.m_vkSwapchainFrameBuffers.map .vkDestroyFramebuffer
          ++ [.vkFreeCommandBuffers s.m_vkCommandPool s.m_vkCommandBuffers,
              .vkDestroyPipeline s.m_vkGraphicsPipeline,
              .vkDestroyPipelineLayout s.m_vkPipelineLayout,
              .vkDestroyRenderPass s.m_vkRenderPass]
          ++ s.m_vkSwapchainImageViews.map .vkDestroyImageView
          ++ [.vkDestroySwapchainKHR s.m_vkSwapchain]
          ++ [.vkCreateSwapchainKHR (createSwapChain.createInfo s
                ⟨env.capabilities, env.surfaceFormats, env.presentModes⟩ surfaceFormat
                (findQueueFamilies.scan {} 0 env.queueFamilies))]
          ++ env.swapchainImages.map (fun image =>
              Call.vkCreateImageView image surfaceFormat.format VK_IMAGE_ASPECT_COLOR_BIT 1)
          ++ [.vkCreateRenderPass surfaceFormat.format VK_FORMAT_D32_SFLOAT]
          ++ [.vkCreateShaderModule,
              .vkCreateShaderModule,
              .vkCreatePipelineLayout s.m_vkDescriptorSetLayout,
              .vkCreateGraphicsPipelines (env.handle .pipelineLayout) (env.handle .renderPass)
                (chooseSwapExtent env.capabilities),
              .vkDestroyShaderModule (env.handle .vertShaderModule),
              .vkDestroyShaderModule (env.handle .fragShaderModule)]
          ++ [.vkCreateImage (chooseSwapExtent env.capabilities).width
                (chooseSwapExtent env.capabilities).height 1 VK_FORMAT_D32_SFLOAT
                VK_IMAGE_TILING_OPTIMAL VK_IMAGE_USAGE_DEPTH_STENCIL_ATTACHMENT_BIT,
              .vkAllocateMemory (env.imageMemoryRequirements (env.handle .depthImage)).size
                (findMemoryType env
                  (env.imageMemoryRequirements (env.handle .depthImage)).memoryTypeBits
                  VK_MEMORY_PROPERTY_DEVICE_LOCAL_BIT),
              .vkBindImageMemory (env.handle .depthImage) (env.handle .depthImageMemory),
              .vkCreateImageView (env.handle .depthImage) VK_FORMAT_D32_SFLOAT
                VK_IMAGE_ASPECT_DEPTH_BIT 1,
              .vkAllocateCommandBuffers s.m_vkCommandPool 1,
              .vkCmdPipelineBarrier (env.handle .singleTimeCommandBuffer)
                VK_PIPELINE_STAGE_TOP_OF_PIPE_BIT VK_PIPELINE_STAGE_EARLY_FRAGMENT_TESTS_BIT
                { image := env.handle .depthImage
                  oldLayout := VK_IMAGE_LAYOUT_UNDEFINED
                  newLayout := VK_IMAGE_LAYOUT_DEPTH_STENCIL_ATTACHMENT_OPTIMAL
                  aspectMask := VK_IMAGE_ASPECT_DEPTH_BIT
                  baseMipLevel := 0
                  levelCount := 1
                  srcAccessMask := 0
                  dstAccessMask := VK_ACCESS_DEPTH_STENCIL_ATTACHMENT_READ_BIT
                    ||| VK_ACCESS_DEPTH_STENCIL_ATTACHMENT_WRITE_BIT },
              .vkQueueSubmit s.m_vkGraphicsQueue []
                [some (env.handle .singleTimeCommandBuffer)] [],
              .vkQueueWaitIdle s.m_vkGraphicsQueue,
              .vkFreeCommandBuffers s.m_vkCommandPool [env.handle .singleTimeCommandBuffer]]
          ++ ((List.range env.swapchainImages.length).map fun i =>
              Call.vkCreateFramebuffer (env.handle .renderPass)
                [env.handle (.swapchainImageView i), env.handle .depthImageView]
                (chooseSwapExtent env.capabilities))
          ++ [.vkAllocateCommandBuffers s.m_vkCommandPool env.swapchainImages.length] }) := by
  have hw0 : ¬ (0 = env.windowWidth) := fun e => hw e.symm
  have hh0 : ¬ (0 = env.windowHeight) := fun e => hh e.symm
  unfold recreateSwapchain
  simp only [hw0, hh0, or_self, if_false]
  rw [createSwapChain_cooperative env h _ surfaceFormat hf]
  simp only [andThen]
  rw [createSwapchainImageViews_cooperative env h]
  simp only [andThen]
  rw [createRenderPass_cooperative env h]
  simp only [andThen]
  rw [createGraphicsPipeline_cooperative env h]
  simp only [andThen]
  rw [createDepthResources_cooperative env h]
  simp only [andThen]
  rw [createFrameBuffers_cooperative env h]
  simp only [andThen]
  rw [createAndFillCommandBuffers_cooperative env h]
  simp [cleanupSwapchain, State.call, State.callAll, createSwapChain.createInfo,
    List.map_map, Function.comp_def]

/-! ## The frame protocol -/

theorem cooperative_cooperates : cooperative.Cooperates :=
  ⟨fun _ => rfl, by decide, by decide, by decide, rfl, rfl⟩

theorem chooseSwapChainSurfaceFormat_some (formats : List VkSurfaceFormatKHR)
    (hne : formats ≠ []) : ∃ r, chooseSwapChainSurfaceFormat formats = some r := by
  obtain ⟨f, rest, rfl⟩ := List.exists_cons_of_ne_nil hne
  unfold chooseSwapChainSurfaceFormat
  split_ifs
  · exact ⟨_, rfl⟩
  · split
    · exact ⟨_, rfl⟩
    · exact ⟨f, rfl⟩

theorem recreateSwapchain_zero_area (env : Driver) (s : State)
    (h : env.windowWidth = 0 ∨ env.windowHeight = 0) :
    recreateSwapchain env s = (.returned (), s.call .glfwGetWindowSize) := by
  have h0 : 0 = env.windowWidth ∨ 0 = env.windowHeight := by
    rcases h with h | h
    · exact Or.inl h.symm
    · exact Or.inr h.symm
  simp [recreateSwapchain, h0]

theorem recreateSwapchain_returns (env : Driver) (s : State)
    (h : env.windowWidth = 0 ∨ env.windowHeight = 0 ∨ env.Cooperates) :
    (recreateSwapchain env s).1 = .returned () := by
  by_cases hw : env.windowWidth = 0
  · rw [recreateSwapchain_zero_area env s (Or.inl hw)]
  · by_cases hh : env.windowHeight = 0
    · rw [recreateSwapchain_zero_area env s (Or.inr hh)]
    · have hc : env.Cooperates := by
        rcases h with h | h | h
        · exact absurd h hw
        · exact absurd h hh
        · exact h
      obtain ⟨f, hf⟩ := chooseSwapChainSurfaceFormat_some _ hc.surfaceFormats
      rw [recreateSwapchain_cooperative env hc s hw hh f hf]

theorem drawFrame_acquire_out_of_date (env : Driver) (s : State)
    (h : env.acquireResult = VK_ERROR_OUT_OF_DATE_KHR) :
    drawFrame env s = recreateSwapchain env (s.call (drawFrame.acquire s)) := by
  simp [drawFrame, h]

theorem drawFrame_present_stale (env : Driver) (s : State)
    (ha : env.acquireResult = VK_SUCCESS ∨ env.acquireResult = VK_SUBOPTIMAL_KHR)
    (hs : env.submitResult = VK_SUCCESS)
    (hp : env.presentResult = VK_ERROR_OUT_OF_DATE_KHR
      ∨ env.presentResult = VK_SUBOPTIMAL_KHR) :
    drawFrame env s = recreateSwapchain env
      (((s.call (drawFrame.acquire s)).call
        (drawFrame.submit env (s.call (drawFrame.acquire s)))).call
        (drawFrame.present env ((s.call (drawFrame.acquire s)).call
          (drawFrame.submit env (s.call (drawFrame.acquire s)))))) := by
  have h1 : ¬ (VK_ERROR_OUT_OF_DATE_KHR = env.acquireResult) := by
    rcases ha with ha | ha <;> rw [ha] <;> decide
  have h2 : ¬ (VK_SUCCESS ≠ env.acquireResult ∧ VK_SUBOPTIMAL_KHR ≠ env.acquireResult) := by
    rcases ha with ha | ha <;> rw [ha] <;> decide
  have h3 : VK_ERROR_OUT_OF_DATE_KHR = env.presentResult
      ∨ VK_SUBOPTIMAL_KHR = env.presentResult := by
    rcases hp with hp | hp
    · exact Or.inl hp.symm
    · exact Or.inr hp.symm
  unfold drawFrame
  simp only [h1, h2, h3, hs, if_false, if_true, ne_eq, not_true_eq_false]

theorem drawFrame_fatal (env : Driver) (s : State) (h : env.fatal) :
    ∃ e, (drawFrame env s).1 = .threw e ∧ e.isFrameError = true := by
  rcases h with ⟨h1, h2, h3⟩ | ⟨ha, hs⟩ | ⟨ha, hs, hp1, hp2, hp3⟩
  · refine ⟨.failedToAcquireSwapchainImage, ?_, rfl⟩
    simp [drawFrame, Ne.symm h1, Ne.symm h2, Ne.symm h3]
  · refine ⟨.failedToSubmitDrawCommandBuffer, ?_, rfl⟩
    have h1 : ¬ (VK_ERROR_OUT_OF_DATE_KHR = env.acquireResult) := by
      rcases ha with ha | ha <;> rw [ha] <;> decide
    have h2 : ¬ (VK_SUCCESS ≠ env.acquireResult ∧ VK_SUBOPTIMAL_KHR ≠ env.acquireResult) := by
      rcases ha with ha | ha <;> rw [ha] <;> decide
    unfold drawFrame
    simp only [h1, h2, if_false, ne_eq, Ne.symm hs, not_false_eq_true, if_true]
  · refine ⟨.failedToPresentSwapchainImage, ?_, rfl⟩
    have h1 : ¬ (VK_ERROR_OUT_OF_DATE_KHR = env.acquireResult) := by
      rcases ha with ha | ha <;> rw [ha] <;> decide
    have h2 : ¬ (VK_SUCCESS ≠ env.acquireResult ∧ VK_SUBOPTIMAL_KHR ≠ env.acquireResult) := by
      rcases ha with ha | ha <;> rw [ha] <;> decide
    have h3 : ¬ (VK_ERROR_OUT_OF_DATE_KHR = env.presentResult
        ∨ VK_SUBOPTIMAL_KHR = env.presentResult) := by
      rintro (h | h)
      · exact hp2 h.symm
      · exact hp3 h.symm
    unfold drawFrame
    simp only [h1, h2, h3, hs, if_false, ne_eq, not_true_eq_false, Ne.symm hp1,
      not_false_eq_true, if_true]

/-- On every combination of results that is not fatal, `drawFrame` either returns after the
wait on the present queue, or ends as the `recreateSwapchain` it calls ends. -/
theorem drawFrame_not_fatal (env : Driver) (s : State) (h : ¬ env.fatal) :
    (drawFrame env s).1 = .returned ()
    ∨ ∃ s1, drawFrame env s = recreateSwapchain env s1 := by
  by_cases h1 : env.acquireResult = VK_ERROR_OUT_OF_DATE_KHR
  · exact Or.inr ⟨_, drawFrame_acquire_out_of_date env s h1⟩
  · have ha : env.acquireResult = VK_SUCCESS ∨ env.acquireResult = VK_SUBOPTIMAL_KHR := by
      by_contra hc
      push_neg at hc
      exact h (Or.inl ⟨hc.1, hc.2, h1⟩)
    have hs : env.submitResult = VK_SUCCESS := by
      by_contra hc
      exact h (Or.inr (Or.inl ⟨ha, hc⟩))
    by_cases hp : env.presentResult = VK_ERROR_OUT_OF_DATE_KHR
        ∨ env.presentResult = VK_SUBOPTIMAL_KHR
    · exact Or.inr ⟨_, drawFrame_present_stale env s ha hs hp⟩
    · push_neg at hp
      have hp1 : env.presentResult = VK_SUCCESS := by
        by_contra hc
        exact h (Or.inr (Or.inr ⟨ha, hs, hc, hp.1, hp.2⟩))
      left
      have h2 : ¬ (VK_ERROR_OUT_OF_DATE_KHR = env.acquireResult) := fun e => h1 e.symm
      have h3 : ¬ (VK_SUCCESS ≠ env.acquireResult
          ∧ VK_SUBOPTIMAL_KHR ≠ env.acquireResult) := by
        rcases ha with ha | ha <;> rw [ha] <;> decide
      have h5 : ¬ (VK_ERROR_OUT_OF_DATE_KHR = VK_SUCCESS ∨ VK_SUBOPTIMAL_KHR = VK_SUCCESS) := by
        decide
      unfold drawFrame
      simp only [h2, h3, h5, hs, hp1, if_false, ne_eq, not_true_eq_false]

theorem recreateSwapchain_no_frame_error (env : Driver) (s : State) (e : Error)
    (h : (recreateSwapchain env s).1 = .threw e) : e.isFrameError = false :=
  (recreateSwapchain_rebuilds env s).2 e h

theorem chooseSwapChainPresentMode_scan_eq (best : VkPresentModeKHR)
    (modes : List VkPresentModeKHR) :
    chooseSwapChainPresentMode.scan best modes =
      if VK_PRESENT_MODE_MAILBOX_KHR ∈ modes then VK_PRESENT_MODE_MAILBOX_KHR
      else if VK_PRESENT_MODE_IMMEDIATE_KHR ∈ modes then VK_PRESENT_MODE_IMMEDIATE_KHR
      else best := by
  induction modes generalizing best with
  | nil => simp [chooseSwapChainPresentMode.scan]
  | cons m rest ih =>
    unfold chooseSwapChainPresentMode.scan
    by_cases h1 : VK_PRESENT_MODE_MAILBOX_KHR = m
    · simp [h1]
    · by_cases h2 : VK_PRESENT_MODE_IMMEDIATE_KHR = m
      · rw [if_neg h1, if_pos h2, ih]
        subst h2
        have : VK_PRESENT_MODE_MAILBOX_KHR ≠ VK_PRESENT_MODE_IMMEDIATE_KHR := by decide
        by_cases h3 : VK_PRESENT_MODE_MAILBOX_KHR ∈ rest <;> simp [h3, this]
      · rw [if_neg h1, if_neg h2, ih]
        by_cases h3 : VK_PRESENT_MODE_MAILBOX_KHR ∈ rest
        · simp [h3]
        · by_cases h4 : VK_PRESENT_MODE_IMMEDIATE_KHR ∈ rest <;> simp [h1, h2, h3, h4]

/-- C8: for every list of available present modes, in any order and also when empty,
`chooseSwapChainPresentMode` returns MAILBOX if MAILBOX occurs in the list, otherwise IMMEDIATE
if IMMEDIATE occurs in the list, otherwise FIFO; `[FIFO, IMMEDIATE]` gives IMMEDIATE and `[FIFO]`
gives FIFO. -/
theorem chooseSwapChainPresentMode_prefers_mailbox_then_immediate :
    (∀ modes : List VkPresentModeKHR,
      chooseSwapChainPresentMode modes =
        if VK_PRESENT_MODE_MAILBOX_KHR ∈ modes then VK_PRESENT_MODE_MAILBOX_KHR
        else if VK_PRESENT_MODE_IMMEDIATE_KHR ∈ modes then VK_PRESENT_MODE_IMMEDIATE_KHR
        else VK_PRESENT_MODE_FIFO_KHR)
    ∧ chooseSwapChainPresentMode [VK_PRESENT_MODE_FIFO_KHR, VK_PRESENT_MODE_IMMEDIATE_KHR]
        = VK_PRESENT_MODE_IMMEDIATE_KHR
    ∧ chooseSwapChainPresentMode [VK_PRESENT_MODE_FIFO_KHR] = VK_PRESENT_MODE_FIFO_KHR := by
  refine ⟨fun modes => chooseSwapChainPresentMode_scan_eq _ modes, by decide, by decide⟩

theorem createSwapChain_imageCount_eq (caps : VkSurfaceCapabilitiesKHR)
    (h : caps.minImageCount + 1 < 2 ^ 32) :
    createSwapChain.imageCount caps =
      if caps.maxImageCount = 0 ∨ caps.minImageCount + 1 ≤ caps.maxImageCount then
        caps.minImageCount + 1
      else caps.maxImageCount := by
  unfold createSwapChain.imageCount
  rw [Nat.mod_eq_of_lt h]
  by_cases h0 : caps.maxImageCount = 0
  · simp [h0]
  · by_cases h1 : caps.minImageCount + 1 ≤ caps.maxImageCount
    · have : ¬ (caps.minImageCount + 1 > caps.maxImageCount) := by omega
      simp [h1, this]
    · have h2 : caps.minImageCount + 1 > caps.maxImageCount := by omega
      have h3 : caps.maxImageCount > 0 := by omega
      simp [h0, h1, h2, h3]

/-- C7: for every surface capability pair with `minImageCount + 1` not overflowing 32 bits, the
image count that `createSwapChain` requests (the `minImageCount` of its create info) equals
`minImageCount + 1` when `maxImageCount = 0` or `minImageCount + 1 <= maxImageCount`, and equals
`maxImageCount` otherwise; the pair (2, 3) gives 3 and the pair (3, 0) gives 4. -/
theorem createSwapChain_requests_min_plus_one_clamped (s : State)
    (details : SwapChainSupportDetails) (surfaceFormat : VkSurfaceFormatKHR)
    (indices : QueueFamilyIndices)
    (h : details.m_capabilities.minImageCount + 1 < 2 ^ 32) :
    (createSwapChain.createInfo s details surfaceFormat indices).minImageCount =
        (if details.m_capabilities.maxImageCount = 0
            ∨ details.m_capabilities.minImageCount + 1 ≤ details.m_capabilities.maxImageCount then
          details.m_capabilities.minImageCount + 1
        else details.m_capabilities.maxImageCount)
    ∧ (details.m_capabilities.minImageCount = 2 → details.m_capabilities.maxImageCount = 3 →
        (createSwapChain.createInfo s details surfaceFormat indices).minImageCount = 3)
    ∧ (details.m_capabilities.minImageCount = 3 → details.m_capabilities.maxImageCount = 0 →
        (createSwapChain.createInfo s details surfaceFormat indices).minImageCount = 4) := by
  have key := createSwapChain_imageCount_eq details.m_capabilities h
  refine ⟨key, ?_, ?_⟩
  · intro h2 h3
    show createSwapChain.imageCount details.m_capabilities = 3
    rw [key, h2, h3]; decide
  · intro h2 h3
    show createSwapChain.imageCount details.m_capabilities = 4
    rw [key, h2, h3]; decide

/-- C9: `chooseSwapExtent` returns the current extent of the surface unchanged whenever that
extent is not the undefined sentinel (which the code recognises by a width of `UINT32_MAX`; on
a surface whose width is `UINT32_MAX` exactly when its height is, that is the extent with both
components `UINT32_MAX`); otherwise it returns 800 x 600 clamped componentwise:
`max min (min max preferred)`, which
lies in `[min, max]` whenever `min <= max` in that dimension and equals the preferred value
whenever that value is already in range. -/
theorem chooseSwapExtent_current_or_clamped (caps : VkSurfaceCapabilitiesKHR) :
    (caps.currentExtent.width ≠ UINT32_MAX → chooseSwapExtent caps = caps.currentExtent)
    ∧ ((caps.currentExtent.width = UINT32_MAX ↔ caps.currentExtent.height = UINT32_MAX) →
        caps.currentExtent ≠ ⟨UINT32_MAX, UINT32_MAX⟩ →
        chooseSwapExtent caps = caps.currentExtent)
    ∧ (caps.currentExtent.width = UINT32_MAX →
        chooseSwapExtent caps =
            ⟨max caps.minImageExtent.width (min caps.maxImageExtent.width 800),
             max caps.minImageExtent.height (min caps.maxImageExtent.height 600)⟩
        ∧ (caps.minImageExtent.width ≤ caps.maxImageExtent.width →
            caps.minImageExtent.width ≤ (chooseSwapExtent caps).width
            ∧ (chooseSwapExtent caps).width ≤ caps.maxImageExtent.width
            ∧ (caps.minImageExtent.width ≤ 800 → 800 ≤ caps.maxImageExtent.width →
                (chooseSwapExtent caps).width = 800))
        ∧ (caps.minImageExtent.height ≤ caps.maxImageExtent.height →
            caps.minImageExtent.height ≤ (chooseSwapExtent caps).height
            ∧ (chooseSwapExtent caps).height ≤ caps.maxImageExtent.height
            ∧ (caps.minImageExtent.height ≤ 600 → 600 ≤ caps.maxImageExtent.height →
                (chooseSwapExtent caps).height = 600))) := by
  refine ⟨?_, ?_, ?_⟩
  · intro h
    simp [chooseSwapExtent, h]
  · intro hiff hne
    have h : caps.currentExtent.width ≠ UINT32_MAX := by
      intro hw
      apply hne
      have hh := hiff.mp hw
      cases hc : caps.currentExtent with
      | mk w ht =>
        rw [hc] at hw hh
        simp only at hw hh
        rw [hw, hh]
    simp [chooseSwapExtent, h]
  · intro h
    have e : chooseSwapExtent caps =
        ⟨max caps.minImageExtent.width (min caps.maxImageExtent.width 800),
         max caps.minImageExtent.height (min caps.maxImageExtent.height 600)⟩ := by
      simp [chooseSwapExtent, h, WIDTH, HEIGHT]
    refine ⟨e, ?_, ?_⟩
    · intro hle
      rw [e]
      refine ⟨le_max_left _ _, max_le hle (min_le_left _ _), ?_⟩
      intro h1 h2
      show max _ (min _ _) = 800
      rw [min_eq_right h2, max_eq_right h1]
    · intro hle
      rw [e]
      refine ⟨le_max_left _ _, max_le hle (min_le_left _ _), ?_⟩
      intro h1 h2
      show max _ (min _ _) = 600
      rw [min_eq_right h2, max_eq_right h1]

theorem chooseSwapChainSurfaceFormat_search_some (formats : List VkSurfaceFormatKHR)
    (h : preferredSurfaceFormat ∈ formats) :
    chooseSwapChainSurfaceFormat.search formats = some preferredSurfaceFormat := by
  induction formats with
  | nil => simp at h
  | cons f rest ih =>
    unfold chooseSwapChainSurfaceFormat.search
    by_cases hf : VK_FORMAT_B8G8R8A8_UNORM = f.format ∧ VK_COLORSPACE_SRGB_NONLINEAR_KHR = f.colorSpace
    · rw [if_pos hf]
      obtain ⟨fmt, cs⟩ := f
      obtain ⟨h1, h2⟩ := hf
      simp only at h1 h2
      subst h1 h2
      rfl
    · rw [if_neg hf]
      apply ih
      rcases List.mem_cons.mp h with h | h
      · exfalso; apply hf; rw [← h]; exact ⟨rfl, rfl⟩
      · exact h

theorem chooseSwapChainSurfaceFormat_search_none (formats : List VkSurfaceFormatKHR)
    (h : preferredSurfaceFormat ∉ formats) :
    chooseSwapChainSurfaceFormat.search formats = none := by
  induction formats with
  | nil => rfl
  | cons f rest ih =>
    unfold chooseSwapChainSurfaceFormat.search
    have hf : ¬ (VK_FORMAT_B8G8R8A8_UNORM = f.format
        ∧ VK_COLORSPACE_SRGB_NONLINEAR_KHR = f.colorSpace) := by
      rintro ⟨h1, h2⟩
      apply h
      obtain ⟨fmt, cs⟩ := f
      simp only at h1 h2
      subst h1 h2
      exact List.mem_cons_self _ _
    rw [if_neg hf]
    exact ih (fun hm => h (List.mem_cons_of_mem _ hm))

/-- C10: for every non-empty list of available surface formats, `chooseSwapChainSurfaceFormat`
returns (B8G8R8A8_UNORM, SRGB_NONLINEAR) when the list is a single entry with format UNDEFINED
or when that pair occurs anywhere in the list, and returns the first list entry otherwise; so
the result is always either the preferred pair or a member of the list. -/
theorem chooseSwapChainSurfaceFormat_preferred_or_first
    (formats : List VkSurfaceFormatKHR) (hne : formats ≠ []) :
    (((∃ f, formats = [f] ∧ f.format = VK_FORMAT_UNDEFINED) ∨ preferredSurfaceFormat ∈ formats) →
        chooseSwapChainSurfaceFormat formats = some preferredSurfaceFormat)
    ∧ (¬ ((∃ f, formats = [f] ∧ f.format = VK_FORMAT_UNDEFINED)
          ∨ preferredSurfaceFormat ∈ formats) →
        chooseSwapChainSurfaceFormat formats = some (formats.head hne))
    ∧ (∃ r, chooseSwapChainSurfaceFormat formats = some r
        ∧ (r = preferredSurfaceFormat ∨ r ∈ formats)) := by
  obtain ⟨f, rest, rfl⟩ := List.exists_cons_of_ne_nil hne
  have hA : (1 = (f :: rest).length
      ∧ ((f :: rest).head?.map fun f => f.format) = some VK_FORMAT_UNDEFINED)
      ↔ ∃ g, f :: rest = [g] ∧ g.format = VK_FORMAT_UNDEFINED := by
    constructor
    · rintro ⟨h1, h2⟩
      have hr : rest = [] := by
        cases rest with
        | nil => rfl
        | cons a b => simp at h1
      subst hr
      exact ⟨f, rfl, by simpa using h2⟩
    · rintro ⟨g, hg, hu⟩
      have h1 : rest = [] := by simpa using (List.cons.inj hg).2
      have h2 : f = g := (List.cons.inj hg).1
      subst h1 h2
      exact ⟨rfl, by simp [hu]⟩
  have first : ((∃ g, f :: rest = [g] ∧ g.format = VK_FORMAT_UNDEFINED)
      ∨ preferredSurfaceFormat ∈ f :: rest) →
      chooseSwapChainSurfaceFormat (f :: rest) = some preferredSurfaceFormat := by
    intro h
    unfold chooseSwapChainSurfaceFormat
    by_cases hu : ∃ g, f :: rest = [g] ∧ g.format = VK_FORMAT_UNDEFINED
    · rw [if_pos (hA.mpr hu)]
    · rw [if_neg (fun c => hu (hA.mp c))]
      rcases h with h | h
      · exact absurd h hu
      · rw [chooseSwapChainSurfaceFormat_search_some _ h]
  have second : ¬ ((∃ g, f :: rest = [g] ∧ g.format = VK_FORMAT_UNDEFINED)
      ∨ preferredSurfaceFormat ∈ f :: rest) →
      chooseSwapChainSurfaceFormat (f :: rest) = some f := by
    intro h
    unfold chooseSwapChainSurfaceFormat
    rw [if_neg (fun c => h (Or.inl (hA.mp c))),
      chooseSwapChainSurfaceFormat_search_none _ (fun c => h (Or.inr c))]
    rfl
  refine ⟨first, second, ?_⟩
  by_cases h : (∃ g, f :: rest = [g] ∧ g.format = VK_FORMAT_UNDEFINED)
      ∨ preferredSurfaceFormat ∈ f :: rest
  · exact ⟨_, first h, Or.inl rfl⟩
  · exact ⟨_, second h, Or.inr (List.mem_cons_self _ _)⟩

/-! ## The claims on the frame protocol and the swapchain rebuild -/

/-- C1, as stated, fails for the suboptimal acquire: on a driver whose acquire reports
suboptimal and whose other calls succeed, `drawFrame` submits, presents, waits for the present
queue and returns; the window-size query with which `recreateSwapchain` starts is not among
its calls. -/
theorem drawFrame_suboptimal_acquire_does_not_recreate :
    suboptimalAcquire.acquireResult = VK_SUBOPTIMAL_KHR
    ∧ drawFrame suboptimalAcquire running = (.returned (),
        { running with calls :=
            [.vkAcquireNextImageKHR 4 17,
             .vkQueueSubmit 1 [17] [some 15] [18],
             .vkQueuePresentKHR 2 [18] [4] 0,
             .vkQueueWaitIdle 2] })
    ∧ Call.glfwGetWindowSize ∉ (drawFrame suboptimalAcquire running).2.calls
    ∧ Call.glfwGetWindowSize ∈ (recreateSwapchain suboptimalAcquire running).2.calls := by
  refine ⟨rfl, rfl, ?_, ?_⟩
  · decide
  · decide

/-- C1, amended: for three of the four stale-swapchain signals (acquire out-of-date, present
out-of-date, present suboptimal) `drawFrame` calls `recreateSwapchain` and ends exactly as that
call ends; the call returns normally when the window has zero area or the driver cooperates,
and an error it throws is never one of the three frame errors.  An acquire that reports
suboptimal is treated as a successful acquire: the frame runs exactly as after success. -/
theorem drawFrame_recreates_on_three_stale_signals (env : Driver) (s : State) :
    (env.acquireResult = VK_ERROR_OUT_OF_DATE_KHR →
      drawFrame env s = recreateSwapchain env (s.call (drawFrame.acquire s)))
    ∧ ((env.acquireResult = VK_SUCCESS ∨ env.acquireResult = VK_SUBOPTIMAL_KHR) →
        env.submitResult = VK_SUCCESS →
        (env.presentResult = VK_ERROR_OUT_OF_DATE_KHR
          ∨ env.presentResult = VK_SUBOPTIMAL_KHR) →
        drawFrame env s = recreateSwapchain env
          (((s.call (drawFrame.acquire s)).call
            (drawFrame.submit env (s.call (drawFrame.acquire s)))).call
            (drawFrame.present env ((s.call (drawFrame.acquire s)).call
              (drawFrame.submit env (s.call (drawFrame.acquire s)))))))
    ∧ (∀ s1, (env.windowWidth = 0 ∨ env.windowHeight = 0 ∨ env.Cooperates) →
        (recreateSwapchain env s1).1 = .returned ())
    ∧ (∀ s1 e, (recreateSwapchain env s1).1 = .threw e → e.isFrameError = false)
    ∧ (env.acquireResult = VK_SUBOPTIMAL_KHR →
        drawFrame env s = drawFrame { env with acquireResult := VK_SUCCESS } s) := by
  refine ⟨drawFrame_acquire_out_of_date env s, drawFrame_present_stale env s,
    fun s1 h => recreateSwapchain_returns env s1 h,
    fun s1 e h => recreateSwapchain_no_frame_error env s1 e h, ?_⟩
  intro h
  have h1 : ¬ (VK_ERROR_OUT_OF_DATE_KHR = VK_SUBOPTIMAL_KHR) := by decide
  have h2 : ¬ (VK_SUCCESS ≠ VK_SUBOPTIMAL_KHR ∧ VK_SUBOPTIMAL_KHR ≠ VK_SUBOPTIMAL_KHR) := by
    decide
  have h3 : ¬ (VK_ERROR_OUT_OF_DATE_KHR = VK_SUCCESS) := by decide
  have h4 : ¬ (VK_SUCCESS ≠ VK_SUCCESS ∧ VK_SUBOPTIMAL_KHR ≠ VK_SUCCESS) := by decide
  unfold drawFrame
  simp only [h, h1, h2, h3, h4, if_false]
  rfl

theorem drawFrame_recreates_on_three_stale_signals_witness :
    outOfDateAcquire.acquireResult = VK_ERROR_OUT_OF_DATE_KHR
    ∧ drawFrame outOfDateAcquire running
      = recreateSwapchain outOfDateAcquire (running.call (drawFrame.acquire running)) :=
  ⟨rfl, (drawFrame_recreates_on_three_stale_signals outOfDateAcquire running).1 rfl⟩

/-- C2, as stated, fails in two ways.  When the acquire reports out-of-date and the creation
of the new swapchain then fails, `drawFrame` does not return normally: the error of
`createSwapChain` leaves it.  And when every call of the rebuild succeeds, `drawFrame` does
perform a queue submission: the one-shot submission of the depth layout transition. -/
theorem drawFrame_out_of_date_acquire_may_throw_and_submits :
    outOfDateAcquireLostDevice.acquireResult = VK_ERROR_OUT_OF_DATE_KHR
    ∧ (drawFrame outOfDateAcquireLostDevice running).1 = .threw .swapchainCreationFailed
    ∧ outOfDateAcquire.acquireResult = VK_ERROR_OUT_OF_DATE_KHR
    ∧ (drawFrame outOfDateAcquire running).1 = .returned ()
    ∧ Call.vkQueueSubmit 1 [] [some 128] [] ∈ (drawFrame outOfDateAcquire running).2.calls := by
  refine ⟨rfl, rfl, rfl, rfl, ?_⟩
  decide

/-- C2, amended: for every application state, if the image acquire returns out-of-date then
`drawFrame` calls `recreateSwapchain` exactly once and ends as that call ends: after the
acquire its log holds one window-size query and then no acquire, no present and no submission
that waits on or signals a semaphore (the frame is aborted); it throws none of the three frame
errors, and it returns normally when the window has zero area or the driver cooperates. -/
theorem drawFrame_out_of_date_acquire_aborts_frame (env : Driver) (s : State)
    (h : env.acquireResult = VK_ERROR_OUT_OF_DATE_KHR) :
    drawFrame env s = recreateSwapchain env (s.call (drawFrame.acquire s))
    ∧ (∃ l, (drawFrame env s).2.calls
          = s.calls ++ [drawFrame.acquire s, Call.glfwGetWindowSize] ++ l
        ∧ ∀ c ∈ l, c.isFrameStep = false)
    ∧ (∀ e, (drawFrame env s).1 = .threw e → e.isFrameError = false)
    ∧ ((env.windowWidth = 0 ∨ env.windowHeight = 0 ∨ env.Cooperates) →
        (drawFrame env s).1 = .returned ()) := by
  have e := drawFrame_acquire_out_of_date env s h
  have r := recreateSwapchain_rebuilds env (s.call (drawFrame.acquire s))
  refine ⟨e, ?_, ?_, ?_⟩
  · obtain ⟨⟨l, h1, h2⟩, _⟩ := r
    refine ⟨l, ?_, h2⟩
    rw [e, h1]
    simp [State.call]
  · intro err herr
    rw [e] at herr
    exact r.2 err herr
  · intro hz
    rw [e]
    exact recreateSwapchain_returns env _ hz

theorem drawFrame_out_of_date_acquire_aborts_frame_witness :
    outOfDateAcquire.acquireResult = VK_ERROR_OUT_OF_DATE_KHR
    ∧ drawFrame outOfDateAcquire running
      = recreateSwapchain outOfDateAcquire (running.call (drawFrame.acquire running)) :=
  ⟨rfl, (drawFrame_out_of_date_acquire_aborts_frame outOfDateAcquire running rfl).1⟩

/-- C3, as stated, fails: with a successful acquire, a successful submission and a present
that reports suboptimal (none of the three fatal conditions), `drawFrame` still raises an error
when the render pass cannot be created during the rebuild. -/
theorem drawFrame_raises_on_failed_rebuild :
    suboptimalPresentLostDevice.acquireResult = VK_SUCCESS
    ∧ suboptimalPresentLostDevice.submitResult = VK_SUCCESS
    ∧ suboptimalPresentLostDevice.presentResult = VK_SUBOPTIMAL_KHR
    ∧ ¬ suboptimalPresentLostDevice.fatal
    ∧ (drawFrame suboptimalPresentLostDevice running).1 = .threw .couldNotCreateRenderPass := by
  refine ⟨rfl, rfl, rfl, ?_, rfl⟩
  decide

/-- C3, amended: `drawFrame` raises one of its three frame errors (failed to acquire, to
submit, to present) if and only if the acquire result is none of success, suboptimal,
out-of-date, or the submission made does not return success, or the present made returns none
of success, out-of-date, suboptimal.  For every other combination of results it returns
normally whenever the `recreateSwapchain` it may call returns normally (as it does for a
window of zero area and on a cooperative driver); an error it raises then is one raised inside
`recreateSwapchain`. -/
theorem drawFrame_frame_error_iff_fatal (env : Driver) (s : State) :
    ((∃ e, (drawFrame env s).1 = .threw e ∧ e.isFrameError = true) ↔ env.fatal)
    ∧ (¬ env.fatal → (∀ s1, (recreateSwapchain env s1).1 = .returned ()) →
        (drawFrame env s).1 = .returned ())
    ∧ (¬ env.fatal → (env.windowWidth = 0 ∨ env.windowHeight = 0 ∨ env.Cooperates) →
        (drawFrame env s).1 = .returned ())
    ∧ (¬ env.fatal → ∀ e, (drawFrame env s).1 = .threw e →
        ∃ s1, (recreateSwapchain env s1).1 = .threw e) := by
  have key : ¬ env.fatal → (∀ s1, (recreateSwapchain env s1).1 = .returned ()) →
      (drawFrame env s).1 = .returned () := by
    intro hn hr
    rcases drawFrame_not_fatal env s hn with h | ⟨s1, h⟩
    · exact h
    · rw [h]; exact hr s1
  refine ⟨⟨?_, drawFrame_fatal env s⟩, key, ?_, ?_⟩
  · rintro ⟨e, he, hfe⟩
    by_contra hn
    rcases drawFrame_not_fatal env s hn with h | ⟨s1, h⟩
    · rw [h] at he; cases he
    · rw [h] at he
      have := recreateSwapchain_no_frame_error env s1 e he
      rw [this] at hfe
      cases hfe
  · intro hn hz
    exact key hn (fun s1 => recreateSwapchain_returns env s1 hz)
  · intro hn e he
    rcases drawFrame_not_fatal env s hn with h | ⟨s1, h⟩
    · rw [h] at he; cases he
    · exact ⟨s1, by rw [← h]; exact he⟩

theorem drawFrame_frame_error_iff_fatal_witness :
    ¬ outOfDatePresentMinimised.fatal
    ∧ (outOfDatePresentMinimised.windowWidth = 0 ∨ outOfDatePresentMinimised.windowHeight = 0
        ∨ outOfDatePresentMinimised.Cooperates)
    ∧ (drawFrame outOfDatePresentMinimised running).1 = .returned () :=
  ⟨by decide, Or.inl rfl,
    (drawFrame_frame_error_iff_fatal outOfDatePresentMinimised running).2.2.1 (by decide)
      (Or.inl rfl)⟩

/-- C4 at its failing input: the present reports out-of-date while the window is minimised.
`drawFrame` returns normally, and after the present its log holds the window-size query only:
no wait that covers the present queue, neither `vkQueueWaitIdle` on it nor
`vkDeviceWaitIdle`.  On the path where the present succeeds the same function ends with
`vkQueueWaitIdle` on the present queue. -/
theorem drawFrame_stale_present_minimised_skips_wait :
    drawFrame outOfDatePresentMinimised running = (.returned (),
        { running with calls :=
            [.vkAcquireNextImageKHR 4 17,
             .vkQueueSubmit 1 [17] [some 15] [18],
             .vkQueuePresentKHR 2 [18] [4] 0,
             .glfwGetWindowSize] })
    ∧ (drawFrame outOfDatePresentMinimised running).2.calls.any
        (Call.waitsFor running.m_vkPresentQueue) = false
    ∧ (drawFrame cooperative running).2.calls.getLast? = some (.vkQueueWaitIdle 2) := by
  refine ⟨rfl, ?_, ?_⟩
  · decide
  · decide

/-- C5: if the window width or height is 0, `recreateSwapchain` is a no-op on the application
state: it returns at once, every member variable (swapchain handle, images, image views,
framebuffers, command buffers, depth resources, pipeline, render pass, ...) is unchanged, and
the only call added to the log is the window-size query, so there is no device wait, no
destroy and no create. -/
theorem recreateSwapchain_zero_area_is_noop (env : Driver) (s : State)
    (h : env.windowWidth = 0 ∨ env.windowHeight = 0) :
    recreateSwapchain env s
      = (.returned (), { s with calls := s.calls ++ [Call.glfwGetWindowSize] })
    ∧ (recreateSwapchain env s).2.m_vkSwapchain = s.m_vkSwapchain
    ∧ (recreateSwapchain env s).2.m_vkSwapchainImages = s.m_vkSwapchainImages
    ∧ (recreateSwapchain env s).2.m_vkSwapchainImageViews = s.m_vkSwapchainImageViews
    ∧ (recreateSwapchain env s).2.m_vkSwapchainFrameBuffers = s.m_vkSwapchainFrameBuffers
    ∧ (recreateSwapchain env s).2.m_vkCommandBuffers = s.m_vkCommandBuffers
    ∧ (recreateSwapchain env s).2.m_vkDepthImage = s.m_vkDepthImage
    ∧ (recreateSwapchain env s).2.m_vkDepthImageMemory = s.m_vkDepthImageMemory
    ∧ (recreateSwapchain env s).2.m_vkDepthImageView = s.m_vkDepthImageView
    ∧ (recreateSwapchain env s).2.m_vkGraphicsPipeline = s.m_vkGraphicsPipeline
    ∧ (recreateSwapchain env s).2.m_vkPipelineLayout = s.m_vkPipelineLayout
    ∧ (recreateSwapchain env s).2.m_vkRenderPass = s.m_vkRenderPass := by
  have e := recreateSwapchain_zero_area env s h
  rw [e]
  exact ⟨rfl, rfl, rfl, rfl, rfl, rfl, rfl, rfl, rfl, rfl, rfl, rfl⟩

theorem recreateSwapchain_zero_area_is_noop_witness :
    (minimised.windowWidth = 0 ∨ minimised.windowHeight = 0)
    ∧ recreateSwapchain minimised running
      = (.returned (), { running with calls := [Call.glfwGetWindowSize] }) :=
  ⟨Or.inl rfl, (recreateSwapchain_zero_area_is_noop minimised running (Or.inl rfl)).1⟩

/-- C6, as stated, fails when a creation step fails: with a window of 800 x 600 and a fragment
shader file that cannot be opened, `recreateSwapchain` destroys all eight kinds of resource,
recreates the swapchain, its image views and the render pass, and then throws; pipeline,
pipeline layout, depth resources, framebuffers and command buffers are destroyed and not
recreated. -/
theorem recreateSwapchain_stops_at_failed_creation :
    missingFragmentShader.windowWidth ≠ 0
    ∧ missingFragmentShader.windowHeight ≠ 0
    ∧ (recreateSwapchain missingFragmentShader running).1 = .threw .failedToOpenFile
    ∧ (recreateSwapchain missingFragmentShader running).2.calls =
        [.glfwGetWindowSize,
         .vkDeviceWaitIdle,
         .vkDestroyImageView 22,
         .vkDestroyImage 20,
         .vkFreeMemory 21,
         .vkDestroyFramebuffer 12,
         .vkDestroyFramebuffer 13,
         .vkFreeCommandBuffers 14 [15, 16],
         .vkDestroyPipeline 11,
         .vkDestroyPipelineLayout 10,
         .vkDestroyRenderPass 9,
         .vkDestroyImageView 7,
         .vkDestroyImageView 8,
         .vkDestroySwapchainKHR 4,
         .vkCreateSwapchainKHR
           { surface := 3
             imageExtent := ⟨800, 600⟩
             imageFormat := VK_FORMAT_B8G8R8A8_UNORM
             minImageCount := 3
             imageArrayLayers := 1
             imageUsage := VK_IMAGE_USAGE_COLOR_ATTACHMENT_BIT
             imageSharingMode := VK_SHARING_MODE_EXCLUSIVE
             queueFamilyIndices := []
             preTransform := 1
             presentMode := VK_PRESENT_MODE_FIFO_KHR
             oldSwapchain := VK_NULL_HANDLE },
         .vkCreateImageView 101 VK_FORMAT_B8G8R8A8_UNORM VK_IMAGE_ASPECT_COLOR_BIT 1,
         .vkCreateImageView 102 VK_FORMAT_B8G8R8A8_UNORM VK_IMAGE_ASPECT_COLOR_BIT 1,
         .vkCreateRenderPass VK_FORMAT_B8G8R8A8_UNORM VK_FORMAT_D32_SFLOAT] := by
  refine ⟨by decide, by decide, rfl, rfl⟩

/-- C6, amended: for a window of non-zero area and a driver on which every call of the rebuild
succeeds, `recreateSwapchain` returns normally and the calls it adds to the log are, in this
order: the window-size query and the device wait; the destruction of depth image view, depth
image and depth memory, of the framebuffers, the command buffers, the pipeline, the pipeline
layout, the render pass, the swapchain image views and the swapchain; then the creation of the
swapchain, of one image view per swapchain image, of the render pass, of the pipeline layout and
the pipeline (between two temporary shader modules created before and destroyed after), of the
depth image with its memory and view (followed by the one-shot layout transition), of one
framebuffer per image view and of the command buffers.  So every kind of resource destroyed is
recreated once, and no resource is created before the last of these destructions. -/
theorem recreateSwapchain_trace (env : Driver) (h : env.Cooperates) (s : State)
    (hw : env.windowWidth ≠ 0) (hh : env.windowHeight ≠ 0)
    (surfaceFormat : VkSurfaceFormatKHR)
    (hf : chooseSwapChainSurfaceFormat env.surfaceFormats = some surfaceFormat) :
    (recreateSwapchain env s).1 = .returned ()
    ∧ (recreateSwapchain env s).2.calls = s.calls
          ++ [.glfwGetWindowSize, .vkDeviceWaitIdle]
          ++ [.vkDestroyImageView s.m_vkDepthImageView,
              .vkDestroyImage s.m_vkDepthImage,
              .vkFreeMemory s.m_vkDepthImageMemory]
          ++ s.m_vkSwapchainFrameBuffers.map .vkDestroyFramebuffer
          ++ [.vkFreeCommandBuffers s.m_vkCommandPool s.m_vkCommandBuffers,
              .vkDestroyPipeline s.m_vkGraphicsPipeline,
              .vkDestroyPipelineLayout s.m_vkPipelineLayout,
              .vkDestroyRenderPass s.m_vkRenderPass]
          ++ s.m_vkSwapchainImageViews.map .vkDestroyImageView
          ++ [.vkDestroySwapchainKHR s.m_vkSwapchain]
          ++ [.vkCreateSwapchainKHR (createSwapChain.createInfo s
                ⟨env.capabilities, env.surfaceFormats, env.presentModes⟩ surfaceFormat
                (findQueueFamilies.scan {} 0 env.queueFamilies))]
          ++ env.swapchainImages.map (fun image =>
              Call.vkCreateImageView image surfaceFormat.format VK_IMAGE_ASPECT_COLOR_BIT 1)
          ++ [.vkCreateRenderPass surfaceFormat.format VK_FORMAT_D32_SFLOAT]
          ++ [.vkCreateShaderModule,
              .vkCreateShaderModule,
              .vkCreatePipelineLayout s.m_vkDescriptorSetLayout,
              .vkCreateGraphicsPipelines (env.handle .pipelineLayout) (env.handle .renderPass)
                (chooseSwapExtent env.capabilities),
              .vkDestroyShaderModule (env.handle .vertShaderModule),
              .vkDestroyShaderModule (env.handle .fragShaderModule)]
          ++ [.vkCreateImage (chooseSwapExtent env.capabilities).width
                (chooseSwapExtent env.capabilities).height 1 VK_FORMAT_D32_SFLOAT
                VK_IMAGE_TILING_OPTIMAL VK_IMAGE_USAGE_DEPTH_STENCIL_ATTACHMENT_BIT,
              .vkAllocateMemory (env.imageMemoryRequirements (env.handle .depthImage)).size
                (findMemoryType env
                  (env.imageMemoryRequirements (env.handle .depthImage)).memoryTypeBits
                  VK_MEMORY_PROPERTY_DEVICE_LOCAL_BIT),
              .vkBindImageMemory (env.handle .depthImage) (env.handle .depthImageMemory),
              .vkCreateImageView (env.handle .depthImage) VK_FORMAT_D32_SFLOAT
                VK_IMAGE_ASPECT_DEPTH_BIT 1,
              .vkAllocateCommandBuffers s.m_vkCommandPool 1,
              .vkCmdPipelineBarrier (env.handle .singleTimeCommandBuffer)
                VK_PIPELINE_STAGE_TOP_OF_PIPE_BIT VK_PIPELINE_STAGE_EARLY_FRAGMENT_TESTS_BIT
                { image := env.handle .depthImage
                  oldLayout := VK_IMAGE_LAYOUT_UNDEFINED
                  newLayout := VK_IMAGE_LAYOUT_DEPTH_STENCIL_ATTACHMENT_OPTIMAL
                  aspectMask := VK_IMAGE_ASPECT_DEPTH_BIT
                  baseMipLevel := 0
                  levelCount := 1
                  srcAccessMask := 0
                  dstAccessMask := VK_ACCESS_DEPTH_STENCIL_ATTACHMENT_READ_BIT
                    ||| VK_ACCESS_DEPTH_STENCIL_ATTACHMENT_WRITE_BIT },
              .vkQueueSubmit s.m_vkGraphicsQueue []
                [some (env.handle .singleTimeCommandBuffer)] [],
              .vkQueueWaitIdle s.m_vkGraphicsQueue,
              .vkFreeCommandBuffers s.m_vkCommandPool [env.handle .singleTimeCommandBuffer]]
          ++ ((List.range env.swapchainImages.length).map fun i =>
              Call.vkCreateFramebuffer (env.handle .renderPass)
                [env.handle (.swapchainImageView i), env.handle .depthImageView]
                (chooseSwapExtent env.capabilities))
          ++ [.vkAllocateCommandBuffers s.m_vkCommandPool env.swapchainImages.length] := by
  rw [recreateSwapchain_cooperative env h s hw hh surfaceFormat hf]
  exact ⟨rfl, rfl⟩

theorem recreateSwapchain_trace_witness :
    cooperative.Cooperates
    ∧ cooperative.windowWidth ≠ 0
    ∧ cooperative.windowHeight ≠ 0
    ∧ chooseSwapChainSurfaceFormat cooperative.surfaceFormats = some preferredSurfaceFormat
    ∧ (recreateSwapchain cooperative running).1 = .returned ()
    ∧ (recreateSwapchain cooperative running).2.calls =
        [.glfwGetWindowSize,
         .vkDeviceWaitIdle,
         .vkDestroyImageView 22,
         .vkDestroyImage 20,
         .vkFreeMemory 21,
         .vkDestroyFramebuffer 12,
         .vkDestroyFramebuffer 13,
         .vkFreeCommandBuffers 14 [15, 16],
         .vkDestroyPipeline 11,
         .vkDestroyPipelineLayout 10,
         .vkDestroyRenderPass 9,
         .vkDestroyImageView 7,
         .vkDestroyImageView 8,
         .vkDestroySwapchainKHR 4,
         .vkCreateSwapchainKHR
           { surface := 3
             imageExtent := ⟨800, 600⟩
             imageFormat := VK_FORMAT_B8G8R8A8_UNORM
             minImageCount := 3
             imageArrayLayers := 1
             imageUsage := VK_IMAGE_USAGE_COLOR_ATTACHMENT_BIT
             imageSharingMode := VK_SHARING_MODE_EXCLUSIVE
             queueFamilyIndices := []
             preTransform := 1
             presentMode := VK_PRESENT_MODE_FIFO_KHR
             oldSwapchain := VK_NULL_HANDLE },
         .vkCreateImageView 101 VK_FORMAT_B8G8R8A8_UNORM VK_IMAGE_ASPECT_COLOR_BIT 1,
         .vkCreateImageView 102 VK_FORMAT_B8G8R8A8_UNORM VK_IMAGE_ASPECT_COLOR_BIT 1,
         .vkCreateRenderPass VK_FORMAT_B8G8R8A8_UNORM VK_FORMAT_D32_SFLOAT,
         .vkCreateShaderModule,
         .vkCreateShaderModule,
         .vkCreatePipelineLayout 19,
         .vkCreateGraphicsPipelines 123 120 ⟨800, 600⟩,
         .vkDestroyShaderModule 121,
         .vkDestroyShaderModule 122,
         .vkCreateImage 800 600 1 VK_FORMAT_D32_SFLOAT VK_IMAGE_TILING_OPTIMAL
           VK_IMAGE_USAGE_DEPTH_STENCIL_ATTACHMENT_BIT,
         .vkAllocateMemory 1024 0,
         .vkBindImageMemory 125 126,
         .vkCreateImageView 125 VK_FORMAT_D32_SFLOAT VK_IMAGE_ASPECT_DEPTH_BIT 1,
         .vkAllocateCommandBuffers 14 1,
         .vkCmdPipelineBarrier 128 VK_PIPELINE_STAGE_TOP_OF_PIPE_BIT
           VK_PIPELINE_STAGE_EARLY_FRAGMENT_TESTS_BIT
           { image := 125
             oldLayout := VK_IMAGE_LAYOUT_UNDEFINED
             newLayout := VK_IMAGE_LAYOUT_DEPTH_STENCIL_ATTACHMENT_OPTIMAL
             aspectMask := VK_IMAGE_ASPECT_DEPTH_BIT
             baseMipLevel := 0
             levelCount := 1
             srcAccessMask := 0
             dstAccessMask := 1536 },
         .vkQueueSubmit 1 [] [some 128] [],
         .vkQueueWaitIdle 1,
         .vkFreeCommandBuffers 14 [128],
         .vkCreateFramebuffer 120 [110, 127] ⟨800, 600⟩,
         .vkCreateFramebuffer 120 [111, 127] ⟨800, 600⟩,
         .vkAllocateCommandBuffers 14 2] :=
  ⟨cooperative_cooperates, by decide, by decide, rfl,
    (recreateSwapchain_trace cooperative cooperative_cooperates running (by decide)
      (by decide) preferredSurfaceFormat rfl).1,
    (recreateSwapchain_trace cooperative cooperative_cooperates running (by decide)
      (by decide) preferredSurfaceFormat rfl).2.trans (by decide)⟩

theorem createSwapChain_requests_min_plus_one_clamped_witness :
    cooperative.capabilities.minImageCount + 1 < 2 ^ 32
    ∧ (createSwapChain.createInfo running
        ⟨cooperative.capabilities, cooperative.surfaceFormats, cooperative.presentModes⟩
        preferredSurfaceFormat {}).minImageCount = 3 :=
  ⟨by decide,
    (createSwapChain_requests_min_plus_one_clamped running
      ⟨cooperative.capabilities, cooperative.surfaceFormats, cooperative.presentModes⟩
      preferredSurfaceFormat {} (by decide)).2.1 rfl rfl⟩

theorem chooseSwapExtent_current_or_clamped_witness :
    (chooseSwapExtent
      { minImageCount := 2
        maxImageCount := 3
        currentExtent := ⟨UINT32_MAX, UINT32_MAX⟩
        minImageExtent := ⟨1, 1⟩
        maxImageExtent := ⟨640, 4096⟩
        currentTransform := 1 }).height = 600 :=
  ((chooseSwapExtent_current_or_clamped
      { minImageCount := 2
        maxImageCount := 3
        currentExtent := ⟨UINT32_MAX, UINT32_MAX⟩
        minImageExtent := ⟨1, 1⟩
        maxImageExtent := ⟨640, 4096⟩
        currentTransform := 1 }).2.2 rfl).2.2 (by decide) |>.2.2 (by decide) (by decide)

theorem chooseSwapChainSurfaceFormat_preferred_or_first_witness :
    ([⟨VK_FORMAT_R8G8B8A8_UNORM, 0⟩, preferredSurfaceFormat] : List VkSurfaceFormatKHR) ≠ []
    ∧ chooseSwapChainSurfaceFormat [⟨VK_FORMAT_R8G8B8A8_UNORM, 0⟩, preferredSurfaceFormat]
      = some preferredSurfaceFormat :=
  ⟨by decide,
    (chooseSwapChainSurfaceFormat_preferred_or_first
      [⟨VK_FORMAT_R8G8B8A8_UNORM, 0⟩, preferredSurfaceFormat] (by decide)).1
      (Or.inr (by decide))⟩

/-! ## The mip chain -/

/-- The log after the loop of `generateMipmaps` over the levels `start, start + 1, ...`: pass
`k` records its three commands with the sizes halved `k` times. -/
theorem generateMipmaps_loop_calls (image commandBuffer : Handle) (n : Nat) :
    ∀ (start : Nat) (mipWidth mipHeight : Int) (s : State),
      (generateMipmaps.loop image commandBuffer (List.range' start n) mipWidth mipHeight
        s).calls =
        s.calls ++ (List.range n).flatMap fun k =>
          generateMipmaps.commands image commandBuffer (start + k)
            (generateMipmaps.halve^[k] mipWidth) (generateMipmaps.halve^[k] mipHeight) := by
  induction n with
  | zero => intro start mipWidth mipHeight s; simp [generateMipmaps.loop]
  | succ n ih =>
    intro start mipWidth mipHeight s
    rw [List.range'_succ, generateMipmaps.loop, ih, List.range_succ_eq_map]
    simp only [List.flatMap_cons, List.flatMap_map, State.callAll, Function.iterate_zero,
      id_eq, Nat.add_zero, List.append_assoc, Function.iterate_succ, Function.comp_apply]
    congr 2
    apply List.flatMap_congr
    intro k _
    congr 1
    omega

/-- The loop of `generateMipmaps` changes the log only. -/
theorem generateMipmaps_loop_members (image commandBuffer : Handle) (levels : List Nat) :
    ∀ (mipWidth mipHeight : Int) (s : State),
      generateMipmaps.loop image commandBuffer levels mipWidth mipHeight s =
        { s with calls := (generateMipmaps.loop image commandBuffer levels mipWidth mipHeight
            s).calls } := by
  induction levels with
  | nil => intro mipWidth mipHeight s; rfl
  | cons i rest ih =>
    intro mipWidth mipHeight s
    rw [generateMipmaps.loop, ih]
    rfl

/-- What `generateMipmaps` records when the command buffer can be allocated: the loop runs
over the levels below the stored `m_mipLevels`, and the last barrier names the level below
the parameter `mipLevels`. -/
theorem generateMipmaps_calls (env : Driver) (image : Handle) (texWidth texHeight : Int)
    (mipLevels : Nat) (s : State) (h : env.result .singleTimeCommandBuffer = VK_SUCCESS) :
    (generateMipmaps env image texWidth texHeight mipLevels s).1 = .returned () ∧
    (generateMipmaps env image texWidth texHeight mipLevels s).2.calls =
      s.calls ++ [Call.vkAllocateCommandBuffers s.m_vkCommandPool 1]
        ++ ((List.range (s.m_mipLevels - 1)).flatMap fun k =>
          generateMipmaps.commands image (env.handle .singleTimeCommandBuffer) (1 + k)
            (generateMipmaps.halve^[k] texWidth) (generateMipmaps.halve^[k] texHeight))
        ++ [generateMipmaps.lastBarrier image (env.handle .singleTimeCommandBuffer) mipLevels,
            Call.vkQueueSubmit s.m_vkGraphicsQueue [] [some (env.handle .singleTimeCommandBuffer)]
              [],
            Call.vkQueueWaitIdle s.m_vkGraphicsQueue,
            Call.vkFreeCommandBuffers s.m_vkCommandPool
              [env.handle .singleTimeCommandBuffer]] := by
  have h1 : ¬ (VK_SUCCESS ≠ env.result .singleTimeCommandBuffer) := by rw [h]; simp
  unfold generateMipmaps beginSingleTimeCommands
  simp only [h1, if_false, andThen]
  refine ⟨trivial, ?_⟩
  rw [generateMipmaps_loop_members]
  simp only [endSingleTimeCommands, State.call, generateMipmaps_loop_calls,
    List.append_assoc, List.cons_append, List.nil_append]

/-- C11 at its failing input: `generateMipmaps(image, 4, 4, 3)` on an application that
stores `m_mipLevels = 1` records no blit and no barrier for the levels 0 and 1: its loop runs
to the stored count, so the log holds only the allocation of the command buffer, the last
barrier (transfer-destination to shader-read-only, on level 2 of the parameter), and the
submission, wait and release. -/
theorem generateMipmaps_loop_runs_to_stored_count :
    (generateMipmaps cooperative 50 4 4 3 runningOneMipLevel).1 = .returned () ∧
    (generateMipmaps cooperative 50 4 4 3 runningOneMipLevel).2.calls =
      [.vkAllocateCommandBuffers 14 1,
       .vkCmdPipelineBarrier 128 VK_PIPELINE_STAGE_TRANSFER_BIT
         VK_PIPELINE_STAGE_FRAGMENT_SHADER_BIT
         (generateMipmaps.barrier 50 2 VK_IMAGE_LAYOUT_TRANSFER_DST_OPTIMAL
           VK_IMAGE_LAYOUT_SHADER_READ_ONLY_OPTIMAL VK_ACCESS_TRANSFER_WRITE_BIT
           VK_ACCESS_SHADER_READ_BIT),
       .vkQueueSubmit 1 [] [some 128] [],
       .vkQueueWaitIdle 1,
       .vkFreeCommandBuffers 14 [128]] ∧
    (generateMipmaps cooperative 50 4 4 3 runningOneMipLevel).2.calls.filterMap
      Call.blitRegion = [] := by
  decide

/-- C12 at its failing input: for a 4 x 1 texture `createTextureImage` computes 3 levels,
and `generateMipmaps(image, 4, 1, 3)` then records two blits whose destination height is
`1 / 2 = 0`: from 4 x 1 into 2 x 0 (level 1) and from 2 x 1 into 1 x 0 (level 2).  The running
size that the next pass reads from is clamped to 1, the destination of the blit is not. -/
theorem generateMipmaps_blit_destination_not_clamped :
    createTextureImage.mipLevels 4 1 = some 3 ∧
    (generateMipmaps cooperative 50 4 1 3 runningThreeMipLevels).2.calls.filterMap
      Call.blitRegion =
      [{ srcMipLevel := 0, srcWidth := 4, srcHeight := 1, srcDepth := 1,
         dstMipLevel := 1, dstWidth := 2, dstHeight := 0, dstDepth := 1 },
       { srcMipLevel := 1, srcWidth := 2, srcHeight := 1, srcDepth := 1,
         dstMipLevel := 2, dstWidth := 1, dstHeight := 0, dstDepth := 1 }] := by
  constructor
  · simp [createTextureImage.mipLevels, Nat.log2]
  · decide

/-- C13: for a texture of width and height at least 1, `createTextureImage` computes the
level count `L` that is `floor(log2(max(width, height))) + 1`: it satisfies
`2^(L-1) <= max(width, height) < 2^L`, and no other number does.  A 512 x 512 texture gets 10
levels and a 500 x 500 texture 9. -/
theorem createTextureImage_mipLevels_floor_log2 (texWidth texHeight : Int)
    (h : 1 ≤ texWidth ∧ 1 ≤ texHeight) :
    ∃ L : Nat,
      createTextureImage.mipLevels texWidth texHeight = some L ∧
      L = Nat.log2 (max texWidth texHeight).toNat + 1 ∧
      (2 : Int) ^ (L - 1) ≤ max texWidth texHeight ∧
      max texWidth texHeight < (2 : Int) ^ L ∧
      (∀ L' : Nat, (2 : Int) ^ (L' - 1) ≤ max texWidth texHeight →
        max texWidth texHeight < (2 : Int) ^ L' → L' = L) ∧
      createTextureImage.mipLevels 512 512 = some 10 ∧
      createTextureImage.mipLevels 500 500 = some 9 := by
  have hm : 1 ≤ max texWidth texHeight := le_trans h.1 (le_max_left _ _)
  obtain ⟨n, hn⟩ : ∃ n : Nat, max texWidth texHeight = (n : Int) :=
    ⟨(max texWidth texHeight).toNat, (Int.toNat_of_nonneg (by omega)).symm⟩
  have hn1 : n ≠ 0 := by omega
  have hlo : 2 ^ Nat.log2 n ≤ n := Nat.log2_self_le hn1
  have hhi : n < 2 ^ (Nat.log2 n + 1) := Nat.lt_log2_self
  refine ⟨Nat.log2 n + 1, ?_, ?_, ?_, ?_, ?_, ?_, ?_⟩
  · simp [createTextureImage.mipLevels, hn]
    omega
  · simp [hn]
  · rw [hn, Nat.add_sub_cancel]
    exact_mod_cast hlo
  · rw [hn]
    exact_mod_cast hhi
  · intro L' h1 h2
    rw [hn] at h1 h2
    have h1' : 2 ^ (L' - 1) ≤ n := by exact_mod_cast h1
    have h2' : n < 2 ^ L' := by exact_mod_cast h2
    have h3 : L' - 1 < Nat.log2 n + 1 :=
      (Nat.pow_lt_pow_iff_right (by decide : 1 < 2)).mp (lt_of_le_of_lt h1' hhi)
    have h4 : Nat.log2 n < L' :=
      (Nat.pow_lt_pow_iff_right (by decide : 1 < 2)).mp (lt_of_le_of_lt hlo h2')
    omega
  · simp [createTextureImage.mipLevels, Nat.log2]
  · simp [createTextureImage.mipLevels, Nat.log2]

/-- Witness for C13: a 500 x 300 texture gets 9 levels. -/
theorem createTextureImage_mipLevels_floor_log2_witness :
    ∃ L : Nat,
      createTextureImage.mipLevels 500 300 = some L ∧
      L = Nat.log2 (max (500 : Int) 300).toNat + 1 ∧
      (2 : Int) ^ (L - 1) ≤ max 500 300 ∧
      max (500 : Int) 300 < (2 : Int) ^ L ∧
      (∀ L' : Nat, (2 : Int) ^ (L' - 1) ≤ max 500 300 →
        max (500 : Int) 300 < (2 : Int) ^ L' → L' = L) ∧
      createTextureImage.mipLevels 512 512 = some 10 ∧
      createTextureImage.mipLevels 500 500 = some 9 :=
  createTextureImage_mipLevels_floor_log2 500 300 ⟨by decide, by decide⟩

/-! ## Memory types -/

/-- The test of the loop of `findMemoryType`, `(typeFilter & (1 << i))` and
`(propertyFlags & properties) == properties`, says that bit `i` of the mask is set and that
the flags of the type include every requested flag. -/
theorem findMemoryType_test_iff (typeFilter properties i flags : Nat) :
    (typeFilter &&& (1 <<< i) ≠ 0 ∧ flags &&& properties = properties) ↔
      (typeFilter.testBit i = true ∧
        ∀ bit, properties.testBit bit = true → flags.testBit bit = true) := by
  have h1 : typeFilter &&& (1 <<< i) ≠ 0 ↔ typeFilter.testBit i = true := by
    rw [Nat.one_shiftLeft, Nat.and_two_pow]
    cases typeFilter.testBit i <;> simp
  have h2 : flags &&& properties = properties ↔
      ∀ bit, properties.testBit bit = true → flags.testBit bit = true := by
    constructor
    · intro h bit hbit
      rw [← h, Nat.testBit_and] at hbit
      simp only [Bool.and_eq_true] at hbit
      exact hbit.1
    · intro h
      apply Nat.eq_of_testBit_eq
      intro bit
      rw [Nat.testBit_and]
      cases hb : properties.testBit bit
      · simp
      · simp [h bit hb]
  rw [h1, h2]

/-- The search of `findMemoryType` from index `start` over the remaining types: when one of
them is suitable, the result is the index of the first suitable one. -/
theorem findMemoryType_search_first (typeFilter properties : Nat) :
    ∀ (rest : List VkMemoryType) (start k : Nat) (memoryType : VkMemoryType),
      rest[k]? = some memoryType → typeFilter.testBit (start + k) = true →
      (∀ bit, properties.testBit bit = true → memoryType.propertyFlags.testBit bit = true) →
      ∃ r found, findMemoryType.search typeFilter properties start rest = start + r ∧
        rest[r]? = some found ∧ typeFilter.testBit (start + r) = true ∧
        (∀ bit, properties.testBit bit = true → found.propertyFlags.testBit bit = true) ∧
        ∀ j other, j < r → rest[j]? = some other →
          ¬ (typeFilter.testBit (start + j) = true ∧
            ∀ bit, properties.testBit bit = true → other.propertyFlags.testBit bit = true) := by
  intro rest
  induction rest with
  | nil => intro start k memoryType h; simp at h
  | cons first rest ih =>
    intro start k memoryType hk hbit hflags
    by_cases hfirst : typeFilter &&& (1 <<< start) ≠ 0 ∧
        first.propertyFlags &&& properties = properties
    · refine ⟨0, first, ?_, List.getElem?_cons_zero, ?_, ?_, ?_⟩
      · rw [findMemoryType.search, if_pos hfirst]
        rfl
      · exact ((findMemoryType_test_iff _ _ _ _).mp hfirst).1
      · exact ((findMemoryType_test_iff _ _ _ _).mp hfirst).2
      · intro j other hj
        omega
    · cases k with
      | zero =>
        simp only [List.getElem?_cons_zero, Option.some.injEq] at hk
        subst hk
        exact absurd ((findMemoryType_test_iff _ _ _ _).mpr ⟨hbit, hflags⟩) hfirst
      | succ k =>
        simp only [List.getElem?_cons_succ] at hk
        have hbit' : typeFilter.testBit (start + 1 + k) = true := by
          rw [Nat.add_assoc, Nat.add_comm 1 k]; exact hbit
        obtain ⟨r, found, h1, h2, h3, h4, h5⟩ := ih (start + 1) k memoryType hk hbit' hflags
        refine ⟨r + 1, found, ?_, ?_, ?_, h4, ?_⟩
        · rw [findMemoryType.search, if_neg hfirst, h1]
          omega
        · simpa using h2
        · rw [← Nat.add_assoc, Nat.add_right_comm]; exact h3
        · intro j other hj hother
          cases j with
          | zero =>
            simp only [List.getElem?_cons_zero, Option.some.injEq] at hother
            subst hother
            exact fun h => hfirst ((findMemoryType_test_iff _ _ _ _).mpr h)
          | succ j =>
            simp only [List.getElem?_cons_succ] at hother
            have := h5 j other (by omega) hother
            rw [Nat.add_assoc, Nat.add_comm 1 j] at this
            exact this

/-- The search of `findMemoryType` yields 0 when no remaining type is suitable. -/
theorem findMemoryType_search_none (typeFilter properties : Nat) :
    ∀ (rest : List VkMemoryType) (start : Nat),
      (∀ k memoryType, rest[k]? = some memoryType →
        ¬ (typeFilter.testBit (start + k) = true ∧
          ∀ bit, properties.testBit bit = true →
            memoryType.propertyFlags.testBit bit = true)) →
      findMemoryType.search typeFilter properties start rest = 0 := by
  intro rest
  induction rest with
  | nil => intro start _; rfl
  | cons first rest ih =>
    intro start h
    have hfirst : ¬ (typeFilter &&& (1 <<< start) ≠ 0 ∧
        first.propertyFlags &&& properties = properties) := by
      intro hc
      exact h 0 first List.getElem?_cons_zero ((findMemoryType_test_iff _ _ _ _).mp hc)
    rw [findMemoryType.search, if_neg hfirst]
    apply ih
    intro k memoryType hk
    have := h (k + 1) memoryType (by simpa using hk)
    rw [Nat.add_assoc, Nat.add_comm 1 k]
    exact this

/-- C14: when some memory type is suitable (its bit is set in the requirement mask and its
property flags include the requested ones), the member function `findMemoryType` and the free
function of `utilities.cpp` both return the least suitable index. -/
theorem findMemoryType_returns_least_suitable (env : Driver) (typeFilter properties i : Nat)
    (h : findMemoryType.Suitable env.memoryTypes typeFilter properties i) :
    findMemoryType.Suitable env.memoryTypes typeFilter properties
      (findMemoryType env typeFilter properties) ∧
    (∀ j, findMemoryType.Suitable env.memoryTypes typeFilter properties j →
      findMemoryType env typeFilter properties ≤ j) ∧
    Utilities.findMemoryType env typeFilter properties =
      findMemoryType env typeFilter properties := by
  obtain ⟨memoryType, hi, hbit, hflags⟩ := h
  obtain ⟨r, found, h1, h2, h3, h4, h5⟩ :=
    findMemoryType_search_first typeFilter properties env.memoryTypes 0 i memoryType hi
      (by simpa using hbit) hflags
  have hr : findMemoryType env typeFilter properties = r := by
    unfold findMemoryType
    rw [h1, Nat.zero_add]
  refine ⟨?_, ?_, rfl⟩
  · rw [hr]
    exact ⟨found, h2, by simpa using h3, h4⟩
  · intro j hj
    obtain ⟨other, hj1, hj2, hj3⟩ := hj
    rw [hr]
    by_contra hlt
    exact h5 j other (by omega) hj1 ⟨by simpa using hj2, hj3⟩

/-- Witness for C14: with a host-visible type behind a device-local one, a request for
host-visible, host-coherent memory under the mask 3 is served by a suitable index that is at
most 1, the index of the host-visible type. -/
theorem findMemoryType_returns_least_suitable_witness :
    findMemoryType.Suitable hostVisibleSecond.memoryTypes 3 6 1 ∧
    findMemoryType.Suitable hostVisibleSecond.memoryTypes 3 6
      (findMemoryType hostVisibleSecond 3 6) ∧
    findMemoryType hostVisibleSecond 3 6 ≤ 1 ∧
    Utilities.findMemoryType hostVisibleSecond 3 6 = findMemoryType hostVisibleSecond 3 6 :=
  ⟨⟨⟨6, 0⟩, rfl, by decide, fun _ hbit => hbit⟩,
    (findMemoryType_returns_least_suitable hostVisibleSecond 3 6 1
      ⟨⟨6, 0⟩, rfl, by decide, fun _ hbit => hbit⟩).1,
    (findMemoryType_returns_least_suitable hostVisibleSecond 3 6 1
      ⟨⟨6, 0⟩, rfl, by decide, fun _ hbit => hbit⟩).2.1 1
      ⟨⟨6, 0⟩, rfl, by decide, fun _ hbit => hbit⟩,
    (findMemoryType_returns_least_suitable hostVisibleSecond 3 6 1
      ⟨⟨6, 0⟩, rfl, by decide, fun _ hbit => hbit⟩).2.2⟩

/-- C15 at its failing input: on a device where no memory type is suitable for a
device-local image (mask 2) nor for a host-visible, host-coherent buffer (mask 1), both
`findMemoryType` functions return index 0 all the same; `createImage` and `createBuffer` then
return normally, having allocated from memory type 0. -/
theorem findMemoryType_falls_back_to_zero :
    (∀ i, ¬ findMemoryType.Suitable noSuitableMemoryType.memoryTypes 2
      VK_MEMORY_PROPERTY_DEVICE_LOCAL_BIT i) ∧
    (∀ i, ¬ findMemoryType.Suitable noSuitableMemoryType.memoryTypes 1
      (VK_MEMORY_PROPERTY_HOST_VISIBLE_BIT ||| VK_MEMORY_PROPERTY_HOST_COHERENT_BIT) i) ∧
    findMemoryType noSuitableMemoryType 2 VK_MEMORY_PROPERTY_DEVICE_LOCAL_BIT = 0 ∧
    Utilities.findMemoryType noSuitableMemoryType 1
      (VK_MEMORY_PROPERTY_HOST_VISIBLE_BIT ||| VK_MEMORY_PROPERTY_HOST_COHERENT_BIT) = 0 ∧
    (createImage noSuitableMemoryType .textureImage .textureImageMemory 4 4 3
      VK_FORMAT_R8G8B8A8_UNORM 0 0 VK_MEMORY_PROPERTY_DEVICE_LOCAL_BIT
      (fun image s => { s with m_vkTextureImage := image })
      (fun memory s => { s with m_vkTextureMemory := memory }) running).1 = .returned () ∧
    (createImage noSuitableMemoryType .textureImage .textureImageMemory 4 4 3
      VK_FORMAT_R8G8B8A8_UNORM 0 0 VK_MEMORY_PROPERTY_DEVICE_LOCAL_BIT
      (fun image s => { s with m_vkTextureImage := image })
      (fun memory s => { s with m_vkTextureMemory := memory }) running).2.calls =
      [.vkCreateImage 4 4 3 VK_FORMAT_R8G8B8A8_UNORM 0 0, .vkAllocateMemory 1024 0,
       .vkBindImageMemory 0 0] ∧
    (Utilities.createBuffer noSuitableMemoryType .stagingBuffer .stagingBufferMemory 64
      VK_BUFFER_USAGE_TRANSFER_SRC_BIT
      (VK_MEMORY_PROPERTY_HOST_VISIBLE_BIT ||| VK_MEMORY_PROPERTY_HOST_COHERENT_BIT)
      (fun _ s => s) (fun _ s => s) running).1 = .returned () ∧
    (Utilities.createBuffer noSuitableMemoryType .stagingBuffer .stagingBufferMemory 64
      VK_BUFFER_USAGE_TRANSFER_SRC_BIT
      (VK_MEMORY_PROPERTY_HOST_VISIBLE_BIT ||| VK_MEMORY_PROPERTY_HOST_COHERENT_BIT)
      (fun _ s => s) (fun _ s => s) running).2.calls =
      [.vkCreateBuffer 64 VK_BUFFER_USAGE_TRANSFER_SRC_BIT, .vkAllocateMemory 256 0,
       .vkBindBufferMemory 0 0] := by
  refine ⟨?_, ?_, by decide, by decide, by decide, by decide, by decide, by decide⟩
  · rintro i ⟨memoryType, hi, hbit, hflags⟩
    rcases i with _ | _ | i
    · exact absurd hbit (by decide)
    · have hmem : memoryType = ⟨6, 0⟩ := (Option.some.inj hi).symm
      subst hmem
      exact absurd (hflags 0 (by decide)) (by decide)
    · simp [noSuitableMemoryType] at hi
  · rintro i ⟨memoryType, hi, hbit, hflags⟩
    rcases i with _ | _ | i
    · have hmem : memoryType = ⟨1, 0⟩ := (Option.some.inj hi).symm
      subst hmem
      exact absurd (hflags 1 (by decide)) (by decide)
    · exact absurd hbit (by decide)
    · simp [noSuitableMemoryType] at hi

/-- C16 at its failing input: asked for host-visible, host-coherent memory on a device
whose type 1 offers it, `findMemoryType` selects index 1 for the mask of the image, yet
`createImage` allocates from index 0, the device-local type: it looks the type up with
`VK_MEMORY_PROPERTY_DEVICE_LOCAL_BIT` and not with its argument. -/
theorem createImage_ignores_requested_properties :
    findMemoryType hostVisibleSecond
      (hostVisibleSecond.imageMemoryRequirements (hostVisibleSecond.handle .textureImage)).memoryTypeBits
      (VK_MEMORY_PROPERTY_HOST_VISIBLE_BIT ||| VK_MEMORY_PROPERTY_HOST_COHERENT_BIT) = 1 ∧
    (createImage hostVisibleSecond .textureImage .textureImageMemory 4 4 1
      VK_FORMAT_R8G8B8A8_UNORM 0 0
      (VK_MEMORY_PROPERTY_HOST_VISIBLE_BIT ||| VK_MEMORY_PROPERTY_HOST_COHERENT_BIT)
      (fun image s => { s with m_vkTextureImage := image })
      (fun memory s => { s with m_vkTextureMemory := memory }) running).1 = .returned () ∧
    (createImage hostVisibleSecond .textureImage .textureImageMemory 4 4 1
      VK_FORMAT_R8G8B8A8_UNORM 0 0
      (VK_MEMORY_PROPERTY_HOST_VISIBLE_BIT ||| VK_MEMORY_PROPERTY_HOST_COHERENT_BIT)
      (fun image s => { s with m_vkTextureImage := image })
      (fun memory s => { s with m_vkTextureMemory := memory }) running).2.calls =
      [.vkCreateImage 4 4 1 VK_FORMAT_R8G8B8A8_UNORM 0 0, .vkAllocateMemory 1024 0,
       .vkBindImageMemory 0 0] := by
  decide

/-! ## Rounding of `float` and `double` -/

/-- The rounding of the two formats at known values.  The `double` nearest to 1/10 is
3602879701896397 * 2^-55, and the `float` nearest to it 13421773 * 2^-27.  Of the whole
numbers above 2^24 a `float` holds the even ones: 2^24 + 1 lies half way between two of
them and goes to the one with the even mantissa, 2^24, and 2^24 + 3 goes to 2^24 + 4.  Below
the least positive `float`, 2^-149, half of it goes to zero and three halves of it go to
2^-148.  The largest `float`, (2^24 - 1) * 2^104, is kept, and the number half way between it
and 2^128 is an infinity, as is the quotient of a number other than zero by zero; zero by
zero is a NaN.  A sum whose exact value is zero is zero. -/
theorem floatingPoint_rounding_examples :
    FloatingPoint.binary64.div (.finite 1 0) (.finite 5 1) = .finite 3602879701896397 (-55) ∧
    FloatingPoint.binary32.convert (.finite 3602879701896397 (-55))
      = .finite 13421773 (-27) ∧
    FloatingPoint.binary32.ofInt (2 ^ 24 + 1) = .finite 1 24 ∧
    FloatingPoint.binary32.ofInt (2 ^ 24 + 3) = .finite 4194305 2 ∧
    FloatingPoint.binary32.ofInt (-(2 ^ 24 + 3)) = .finite (-4194305) 2 ∧
    FloatingPoint.binary32.convert (.finite 1 (-150)) = .finite 0 0 ∧
    FloatingPoint.binary32.convert (.finite 3 (-150)) = .finite 1 (-148) ∧
    FloatingPoint.binary32.convert (.finite (2 ^ 24 - 1) 104) = .finite (2 ^ 24 - 1) 104 ∧
    FloatingPoint.binary32.convert (.finite (2 ^ 25 - 1) 103) = .infinity false ∧
    FloatingPoint.binary32.div (.finite 1 0) (.finite 0 0) = .infinity false ∧
    FloatingPoint.binary32.div (.finite 0 0) (.finite 0 0) = .nan ∧
    FloatingPoint.binary32.add (.finite 3 0) (.finite (-3) 0) = .finite 0 0 ∧
    FloatingPoint.operatorEq .nan .nan = false ∧
    FloatingPoint.operatorEq (.finite 2 0) (.finite 1 1) = true := by
  decide

/-! ## Loading the mesh -/

/-- The accumulated duration of axis `a` after `rotate` on axis `b`: changed only for
`a = b` while the key of that axis is held, by the `float` seconds since its last update,
added or subtracted by its direction. -/
theorem rotate_durations (a b : Axis) (now : StdTime) (m : Model) :
    (m.rotate b now).m_durations a =
      if a = b ∧ m.m_fKeyPressed b = true then
        Model.rotate.accumulate (m.m_fDirectionPositive b) (m.m_durations a)
          (m.m_lastUpdateTime b) now
      else m.m_durations a := by
  unfold Model.rotate Model.getDuration Model.rotate.accumulate
  by_cases hp : m.m_fKeyPressed b = true <;> by_cases hd : m.m_fDirectionPositive b = true <;>
    by_cases hab : a = b <;> simp [hp, hd, hab, Function.update_apply]

/-- The time of the last update of axis `a` after `rotate` on axis `b`. -/
theorem rotate_lastUpdateTime (a b : Axis) (now : StdTime) (m : Model) :
    (m.rotate b now).m_lastUpdateTime a =
      if a = b ∧ m.m_fKeyPressed b = true then now else m.m_lastUpdateTime a := by
  unfold Model.rotate Model.getDuration
  by_cases hp : m.m_fKeyPressed b = true <;> by_cases hd : m.m_fDirectionPositive b = true <;>
    by_cases hab : a = b <;> simp [hp, hd, hab, Function.update_apply]

/-- The method `rotate` leaves the key states as they are. -/
theorem rotate_fKeyPressed (b : Axis) (now : StdTime) (m : Model) :
    (m.rotate b now).m_fKeyPressed = m.m_fKeyPressed := by
  unfold Model.rotate Model.getDuration
  by_cases hp : m.m_fKeyPressed b = true <;> by_cases hd : m.m_fDirectionPositive b = true <;>
    simp [hp, hd]

/-- The method `rotate` leaves the directions as they are. -/
theorem rotate_fDirectionPositive (b : Axis) (now : StdTime) (m : Model) :
    (m.rotate b now).m_fDirectionPositive = m.m_fDirectionPositive := by
  unfold Model.rotate Model.getDuration
  by_cases hp : m.m_fKeyPressed b = true <;> by_cases hd : m.m_fDirectionPositive b = true <;>
    simp [hp, hd]

/-- One model-matrix query at the clock reading `now`, seen from axis `a`: while the key of
the axis is held, the `float` seconds since the last update are added or subtracted, by the
direction, and the last update becomes `now`; otherwise nothing changes. -/
theorem rotations_axis (a : Axis) (now : StdTime) (m : Model) :
    (Model.getModelMatrix.rotations now m).m_durations a =
      (if m.m_fKeyPressed a = true then
        Model.rotate.accumulate (m.m_fDirectionPositive a) (m.m_durations a)
          (m.m_lastUpdateTime a) now
      else m.m_durations a) ∧
    (Model.getModelMatrix.rotations now m).m_lastUpdateTime a =
      (if m.m_fKeyPressed a = true then now else m.m_lastUpdateTime a) ∧
    (Model.getModelMatrix.rotations now m).m_fKeyPressed = m.m_fKeyPressed ∧
    (Model.getModelMatrix.rotations now m).m_fDirectionPositive = m.m_fDirectionPositive := by
  unfold Model.getModelMatrix.rotations Model.rotateX Model.rotateY Model.rotateZ
  cases a <;>
    simp [rotate_durations, rotate_lastUpdateTime, rotate_fKeyPressed,
      rotate_fDirectionPositive]

/-- A sequence of model-matrix queries while the key of axis `a` is held: the accumulated
duration is updated at every query, with the `float` seconds since the query before it (since
the last update, for the first), and the last update becomes the time of the last query. -/
theorem queries_held (a : Axis) (times : List StdTime) :
    ∀ m : Model, m.m_fKeyPressed a = true →
      (Model.queries times m).m_durations a =
        Model.rotate.accumulateAll (m.m_fDirectionPositive a) (m.m_durations a)
          (m.m_lastUpdateTime a) times ∧
      (Model.queries times m).m_lastUpdateTime a =
        times.getLast?.getD (m.m_lastUpdateTime a) ∧
      (Model.queries times m).m_fKeyPressed a = true ∧
      (Model.queries times m).m_fDirectionPositive a = m.m_fDirectionPositive a := by
  induction times with
  | nil => intro m hp; simp [Model.queries, Model.rotate.accumulateAll, hp]
  | cons q rest ih =>
    intro m hp
    obtain ⟨h1, h2, h3, h4⟩ := rotations_axis a q m
    rw [if_pos hp] at h1 h2
    have hp1 : (Model.getModelMatrix.rotations q m).m_fKeyPressed a = true := by
      rw [h3]; exact hp
    obtain ⟨i1, i2, i3, i4⟩ := ih (Model.getModelMatrix.rotations q m) hp1
    have hq : Model.queries (q :: rest) m =
        Model.queries rest (Model.getModelMatrix.rotations q m) := rfl
    rw [hq, i1, i2, i4, h1, h2, h4, List.getLast?_cons]
    refine ⟨rfl, ?_, i3, rfl⟩
    cases rest.getLast? <;> rfl

/-- A sequence of model-matrix queries while the key of axis `a` is not held changes nothing
of that axis. -/
theorem queries_released (a : Axis) (times : List StdTime) :
    ∀ m : Model, m.m_fKeyPressed a = false →
      (Model.queries times m).m_durations a = m.m_durations a ∧
      (Model.queries times m).m_fKeyPressed a = false := by
  induction times with
  | nil => intro m hp; exact ⟨rfl, hp⟩
  | cons q rest ih =>
    intro m hp
    obtain ⟨h1, -, h3, -⟩ := rotations_axis a q m
    rw [hp] at h1
    have hp1 : (Model.getModelMatrix.rotations q m).m_fKeyPressed a = false := by
      rw [h3]; exact hp
    obtain ⟨i1, i2⟩ := ih (Model.getModelMatrix.rotations q m) hp1
    have hq : Model.queries (q :: rest) m =
        Model.queries rest (Model.getModelMatrix.rotations q m) := rfl
    rw [hq, i1]
    exact ⟨by simpa using h1, i2⟩

/-- A press (or repeat) of the key that turns axis `a` in direction `d`, at the clock reading
`now`: the axis is held in direction `d`, its last update is `now`, and no duration
changes. -/
theorem onKeyPress_press (a : Axis) (d : Bool) (now : StdTime) (m : Model) :
    (onKeyPress (a.key d) GLFW_PRESS now m).m_fKeyPressed a = true ∧
    (onKeyPress (a.key d) GLFW_PRESS now m).m_fDirectionPositive a = d ∧
    (onKeyPress (a.key d) GLFW_PRESS now m).m_lastUpdateTime a = now ∧
    (onKeyPress (a.key d) GLFW_PRESS now m).m_durations = m.m_durations := by
  cases a <;> cases d <;>
    simp [onKeyPress, onKeyPress.axisKeys, Axis.key, Model.setKeyPressed,
      Model.fDirectionPositive, GLFW_PRESS, GLFW_REPEAT, GLFW_KEY_ESCAPE, GLFW_KEY_UP,
      GLFW_KEY_DOWN, GLFW_KEY_LEFT, GLFW_KEY_RIGHT, GLFW_KEY_M, GLFW_KEY_N]

/-- A release of a key of axis `a` at the clock reading `now`: the axis is no longer held,
and no duration changes. -/
theorem onKeyPress_release (a : Axis) (d : Bool) (now : StdTime) (m : Model) :
    (onKeyPress (a.key d) GLFW_RELEASE now m).m_fKeyPressed a = false ∧
    (onKeyPress (a.key d) GLFW_RELEASE now m).m_durations = m.m_durations := by
  cases a <;> cases d <;>
    simp [onKeyPress, onKeyPress.axisKeys, Axis.key, Model.setKeyPressed,
      GLFW_PRESS, GLFW_REPEAT, GLFW_RELEASE, GLFW_KEY_ESCAPE, GLFW_KEY_UP,
      GLFW_KEY_DOWN, GLFW_KEY_LEFT, GLFW_KEY_RIGHT, GLFW_KEY_M, GLFW_KEY_N]

/-- C19 as stated fails: the down key is pressed at time 0 and released five seconds later.
With no query in between the accumulated x duration stays 0, and with queries after one and
after three seconds it becomes 3; in neither case is it the 5 of the claim. -/
theorem release_does_not_integrate :
    (onKeyPress GLFW_KEY_DOWN GLFW_RELEASE (0 + 5000000000)
      (Model.queries [] (onKeyPress GLFW_KEY_DOWN GLFW_PRESS 0 Model.initial))).m_durations .x
      = 0 ∧
    (onKeyPress GLFW_KEY_DOWN GLFW_RELEASE (0 + 5000000000)
      (Model.queries [1000000000, 3000000000]
        (onKeyPress GLFW_KEY_DOWN GLFW_PRESS 0 Model.initial))).m_durations .x = 3 ∧
    Axis.key .x true = GLFW_KEY_DOWN ∧
    Model.getDuration.seconds 5000000000 = 5 ∧
    ((0 : float) ≠ Model.initial.m_durations .x + 5) ∧
    ((3 : float) ≠ Model.initial.m_durations .x + 5) := by
  decide

/-- C19, amended: for every axis, a positive-direction key-down at time `t0`, any sequence of
model-matrix queries, and the key-up at time `t0 + T` leave the accumulated duration of the
axis at the value it has after the last query: its value before the key-down, to which every
query has added the `float` seconds since the query before it (since `t0`, for the first).
That is the value before when the sequence is empty, and the value before plus the `float`
seconds of `T` when the one query is made at the time of the key-up.  After the key-up the
axis is not held and later queries do not change its duration. -/
theorem hold_and_release_integrates_to_last_query (a : Axis) (t0 T : Int)
    (times : List StdTime) (m : Model) :
    (onKeyPress (a.key true) GLFW_RELEASE (t0 + T)
      (Model.queries times (onKeyPress (a.key true) GLFW_PRESS t0 m))).m_durations a
      = Model.rotate.accumulateAll true (m.m_durations a) t0 times ∧
    (times = [t0 + T] →
      (onKeyPress (a.key true) GLFW_RELEASE (t0 + T)
        (Model.queries times (onKeyPress (a.key true) GLFW_PRESS t0 m))).m_durations a
        = m.m_durations a + Model.getDuration.seconds T) ∧
    (times = [] →
      (onKeyPress (a.key true) GLFW_RELEASE (t0 + T)
        (Model.queries times (onKeyPress (a.key true) GLFW_PRESS t0 m))).m_durations a
        = m.m_durations a) ∧
    ∀ later : List StdTime,
      (Model.queries later (onKeyPress (a.key true) GLFW_RELEASE (t0 + T)
        (Model.queries times (onKeyPress (a.key true) GLFW_PRESS t0 m)))).m_durations a
        = Model.rotate.accumulateAll true (m.m_durations a) t0 times := by
  obtain ⟨p1, p2, p3, p4⟩ := onKeyPress_press a true t0 m
  obtain ⟨q1, -, -, -⟩ :=
    queries_held a times (onKeyPress (a.key true) GLFW_PRESS t0 m) p1
  obtain ⟨r1, r2⟩ := onKeyPress_release a true (t0 + T)
    (Model.queries times (onKeyPress (a.key true) GLFW_PRESS t0 m))
  have hmain : (onKeyPress (a.key true) GLFW_RELEASE (t0 + T)
      (Model.queries times (onKeyPress (a.key true) GLFW_PRESS t0 m))).m_durations a
      = Model.rotate.accumulateAll true (m.m_durations a) t0 times := by
    rw [r2, q1, p2, p3, p4]
  refine ⟨hmain, ?_, ?_, ?_⟩
  · intro hone
    rw [hmain, hone]
    simp [Model.rotate.accumulateAll, Model.rotate.accumulate]
  · intro hempty
    rw [hmain, hempty]
    rfl
  · intro later
    rw [(queries_released a later _ r1).1, hmain]

/-- Witness for C19: with one query five seconds after the key-down, at the time of the
key-up, the accumulated x duration grows from 0 to 5. -/
theorem hold_and_release_integrates_to_last_query_witness :
    [(5000000000 : StdTime)] = [0 + 5000000000] ∧
    (onKeyPress (Axis.x.key true) GLFW_RELEASE (0 + 5000000000)
      (Model.queries [5000000000]
        (onKeyPress (Axis.x.key true) GLFW_PRESS 0 Model.initial))).m_durations .x
      = Model.initial.m_durations .x + Model.getDuration.seconds 5000000000 ∧
    Model.initial.m_durations .x + Model.getDuration.seconds 5000000000 = 5 :=
  ⟨rfl,
    (hold_and_release_integrates_to_last_query .x 0 5000000000 [5000000000]
      Model.initial).2.1 rfl,
    by decide⟩

/-- C20 as stated fails: the down key is pressed at time 0, no query is made, the up key is
pressed ten seconds later and the next query is made after fifteen seconds.  The accumulated
x duration is then -5, not the `10 - 5 = 5` of the claim: the time from 0 to 10 seconds is
not integrated at all. -/
theorem reversal_drops_time_since_last_query :
    (Model.queries [15000000000] (onKeyPress GLFW_KEY_UP GLFW_PRESS 10000000000
      (Model.queries [] (onKeyPress GLFW_KEY_DOWN GLFW_PRESS 0 Model.initial)))).m_durations .x
      = -5 ∧
    Axis.key .x true = GLFW_KEY_DOWN ∧ Axis.key .x false = GLFW_KEY_UP ∧
    Model.getDuration.seconds (10000000000 - 0) = 10 ∧
    Model.getDuration.seconds (15000000000 - 10000000000) = 5 ∧
    ((-5 : float) ≠ Model.initial.m_durations .x + 10 - 5) := by
  decide

/-- C20, amended: a key of an axis is pressed in direction `d` at time `t0`, model-matrix
queries follow, the key of the opposite direction is pressed at time `tr`, and the next query
is made at time `tq`.  The accumulated duration of the axis is then the value it had after
the last query before the reversal (every query having added or subtracted, by `d`, the
`float` seconds since the query before it), changed in the new direction by the `float`
seconds from `tr` to `tq`: the old sign is integrated up to that query, the new sign from the
reversal on, and the time between that query and the reversal is not integrated.  When the
one query before the reversal is made at the reversal time `tr` itself, these are the seconds
from `t0` to `tr` in the old direction and from `tr` to `tq` in the new one. -/
theorem reversal_integrates_to_last_query (a : Axis) (d : Bool) (t0 tr tq : Int)
    (times : List StdTime) (m : Model) :
    (Model.queries [tq] (onKeyPress (a.key (!d)) GLFW_PRESS tr
      (Model.queries times (onKeyPress (a.key d) GLFW_PRESS t0 m)))).m_durations a
      = Model.rotate.accumulate (!d)
          (Model.rotate.accumulateAll d (m.m_durations a) t0 times) tr tq ∧
    (times = [tr] →
      (Model.queries [tq] (onKeyPress (a.key (!d)) GLFW_PRESS tr
        (Model.queries times (onKeyPress (a.key d) GLFW_PRESS t0 m)))).m_durations a
        = Model.rotate.accumulate (!d)
            (Model.rotate.accumulate d (m.m_durations a) t0 tr) tr tq) := by
  obtain ⟨p1, p2, p3, p4⟩ := onKeyPress_press a d t0 m
  obtain ⟨q1, -, -, -⟩ :=
    queries_held a times (onKeyPress (a.key d) GLFW_PRESS t0 m) p1
  obtain ⟨r1, r2, r3, r4⟩ := onKeyPress_press a (!d) tr
    (Model.queries times (onKeyPress (a.key d) GLFW_PRESS t0 m))
  obtain ⟨s1, -, -, -⟩ := queries_held a [tq] _ r1
  have hmain : (Model.queries [tq] (onKeyPress (a.key (!d)) GLFW_PRESS tr
      (Model.queries times (onKeyPress (a.key d) GLFW_PRESS t0 m)))).m_durations a
      = Model.rotate.accumulate (!d)
          (Model.rotate.accumulateAll d (m.m_durations a) t0 times) tr tq := by
    rw [s1, r2, r3, r4, q1, p2, p3, p4]
    rfl
  refine ⟨hmain, ?_⟩
  intro hone
  rw [hmain, hone]
  rfl

/-- Witness for C20: down at time 0, one query after ten seconds, up at that same time and
the next query after fifteen seconds change the accumulated x duration from 0 to
`0 + 10 - 5`. -/
theorem reversal_integrates_to_last_query_witness :
    [(10000000000 : StdTime)] = [10000000000] ∧
    (Model.queries [15000000000] (onKeyPress (Axis.x.key (!true)) GLFW_PRESS 10000000000
      (Model.queries [10000000000]
        (onKeyPress (Axis.x.key true) GLFW_PRESS 0 Model.initial)))).m_durations .x
      = Model.rotate.accumulate (!true)
          (Model.rotate.accumulate true (Model.initial.m_durations .x) 0 10000000000)
          10000000000 15000000000 ∧
    Model.rotate.accumulate (!true)
        (Model.rotate.accumulate true (Model.initial.m_durations .x) 0 10000000000)
        10000000000 15000000000 = 5 :=
  ⟨rfl,
    (reversal_integrates_to_last_query .x true 0 10000000000 15000000000 [10000000000]
      Model.initial).2 rfl,
    by decide⟩

/-! ## Rotation: what a held key and the other axes are to each other -/

/-- No key event changes an accumulated duration. -/
theorem onKeyPress_durations (key action : Int) (now : StdTime) (m : Model) :
    (onKeyPress key action now m).m_durations = m.m_durations := by
  unfold onKeyPress onKeyPress.axisKeys Model.setKeyPressed Model.fDirectionPositive
  split_ifs <;> rfl

/-- A key event with a key of axis `b` leaves the key state and the direction of every other
axis as they are. -/
theorem onKeyPress_other_axis (a b : Axis) (d : Bool) (action : Int) (now : StdTime)
    (m : Model) (hab : a ≠ b) :
    (onKeyPress (b.key d) action now m).m_fKeyPressed a = m.m_fKeyPressed a ∧
    (onKeyPress (b.key d) action now m).m_fDirectionPositive a = m.m_fDirectionPositive a := by
  cases a <;> cases b <;> first
    | exact absurd rfl hab
    | (cases d <;>
        simp [onKeyPress, onKeyPress.axisKeys, Axis.key, Model.setKeyPressed,
          Model.fDirectionPositive, GLFW_KEY_ESCAPE, GLFW_KEY_UP,
          GLFW_KEY_DOWN, GLFW_KEY_LEFT, GLFW_KEY_RIGHT, GLFW_KEY_M, GLFW_KEY_N] <;>
        split_ifs <;> simp)

/-- C21: while the key of an axis is not held, a model-matrix query (and the duration update
`rotate` of that axis) leaves the accumulated duration of the axis unchanged, and so does a
key-up event on the axis, as does every key event.  A key event with a key of axis `b`, the
duration update of axis `b`, and the setters of axis `b` change neither the accumulated
duration nor the key-held flag nor the direction flag of another axis `a`. -/
theorem rotation_axes_independent (a b : Axis) (d : Bool) (action : Int) (now : StdTime)
    (pressed positive : Bool) (m : Model) :
    (m.m_fKeyPressed a = false →
      (Model.getModelMatrix.rotations now m).m_durations a = m.m_durations a ∧
      (m.rotate a now).m_durations a = m.m_durations a) ∧
    (onKeyPress (a.key d) GLFW_RELEASE now m).m_durations a = m.m_durations a ∧
    (a ≠ b →
      ((onKeyPress (b.key d) action now m).m_durations a = m.m_durations a ∧
        (onKeyPress (b.key d) action now m).m_fKeyPressed a = m.m_fKeyPressed a ∧
        (onKeyPress (b.key d) action now m).m_fDirectionPositive a
          = m.m_fDirectionPositive a) ∧
      ((m.rotate b now).m_durations a = m.m_durations a ∧
        (m.rotate b now).m_fKeyPressed a = m.m_fKeyPressed a ∧
        (m.rotate b now).m_fDirectionPositive a = m.m_fDirectionPositive a) ∧
      ((m.setKeyPressed b pressed now).m_durations a = m.m_durations a ∧
        (m.setKeyPressed b pressed now).m_fKeyPressed a = m.m_fKeyPressed a ∧
        (m.setKeyPressed b pressed now).m_fDirectionPositive a = m.m_fDirectionPositive a) ∧
      ((m.fDirectionPositive b positive).m_durations a = m.m_durations a ∧
        (m.fDirectionPositive b positive).m_fKeyPressed a = m.m_fKeyPressed a ∧
        (m.fDirectionPositive b positive).m_fDirectionPositive a
          = m.m_fDirectionPositive a)) := by
  refine ⟨?_, ?_, ?_⟩
  · intro hp
    constructor
    · rw [(rotations_axis a now m).1, hp]
      simp
    · rw [rotate_durations, hp]
      simp
  · rw [onKeyPress_durations]
  · intro hab
    refine ⟨⟨?_, ?_, ?_⟩, ⟨?_, ?_, ?_⟩, ⟨rfl, ?_, rfl⟩, ⟨rfl, rfl, ?_⟩⟩
    · rw [onKeyPress_durations]
    · exact (onKeyPress_other_axis a b d action now m hab).1
    · exact (onKeyPress_other_axis a b d action now m hab).2
    · rw [rotate_durations, if_neg (fun h => hab h.1)]
    · rw [rotate_fKeyPressed]
    · rw [rotate_fDirectionPositive]
    · simp [Model.setKeyPressed, Function.update_apply, hab]
    · simp [Model.fDirectionPositive, Function.update_apply, hab]

/-- Witness for C21: on the model as constructed (no key held), a query at time 7 leaves the x
duration at 0, and a press of the right key (y axis) at time 3 leaves the x axis alone. -/
theorem rotation_axes_independent_witness :
    Model.initial.m_fKeyPressed .x = false ∧
    (Model.getModelMatrix.rotations 7 Model.initial).m_durations .x = 0 ∧
    (onKeyPress GLFW_KEY_RIGHT GLFW_PRESS 3 Model.initial).m_fKeyPressed .x = false :=
  ⟨rfl,
    ((rotation_axes_independent .x .y true GLFW_PRESS 7 true true Model.initial).1 rfl).1,
    ((rotation_axes_independent .x .y true GLFW_PRESS 3 true true Model.initial).2.2
      (by decide)).1.2.1⟩

/-! ## Depth format selection -/

/-- What `findSupportedFormat` does: it looks at the first candidate only, returns it when it
supports the requested features for the tiling and throws otherwise. -/
theorem findSupportedFormat_first_decides (env : Driver) (format : VkFormat)
    (rest : List VkFormat) (tiling features : Nat) (s : State) :
    findSupportedFormat env (format :: rest) tiling features s =
      if findSupportedFormat.Supports env tiling features format then (.returned format, s)
      else (.threw .couldNotFindTheRightFormat, s) := by
  unfold findSupportedFormat findSupportedFormat.Supports
  by_cases h1 : VK_IMAGE_TILING_LINEAR = tiling ∧
      (env.formatProperties format).linearTilingFeatures &&& features = features
  · simp [h1]
  · by_cases h2 : VK_IMAGE_TILING_OPTIMAL = tiling ∧
        (env.formatProperties format).optimalTilingFeatures &&& features = features
    · simp [h1, h2]
    · simp [h1, h2]

/-- C29 at its failing input: on a device where of the three depth candidates only the
third, D24_UNORM_S8_UINT, supports depth-stencil attachment with optimal tiling,
`findSupportedFormat` throws at the first candidate although a candidate qualifies; so does
`findDepthFormat`, which passes exactly these arguments. -/
theorem findSupportedFormat_throws_at_first_candidate :
    findSupportedFormat.Supports onlyLastDepthCandidate VK_IMAGE_TILING_OPTIMAL
      VK_FORMAT_FEATURE_DEPTH_STENCIL_ATTACHMENT_BIT VK_FORMAT_D24_UNORM_S8_UINT ∧
    findSupportedFormat onlyLastDepthCandidate
      [VK_FORMAT_D32_SFLOAT, VK_FORMAT_D32_SFLOAT_S8_UINT, VK_FORMAT_D24_UNORM_S8_UINT]
      VK_IMAGE_TILING_OPTIMAL VK_FORMAT_FEATURE_DEPTH_STENCIL_ATTACHMENT_BIT running
      = (.threw .couldNotFindTheRightFormat, running) ∧
    findDepthFormat onlyLastDepthCandidate running
      = (.threw .couldNotFindTheRightFormat, running) := by
  decide

/-! ## The halving of the mip extent -/

/-- The size that `generateMipmaps` tracks after `i` passes of its loop, for a base size of at
least 1: the base size divided by `2^i`, rounded down, and at least 1. -/
theorem generateMipmaps_halve_iterate (size : Int) (h : 1 ≤ size) (i : Nat) :
    generateMipmaps.halve^[i] size = max 1 (size / 2 ^ i) := by
  induction i with
  | zero => simp [max_eq_right h]
  | succ i ih =>
    rw [Function.iterate_succ_apply', ih]
    have hpow : (0 : Int) < 2 ^ i := by positivity
    have hdiv : size / 2 ^ (i + 1) = size / 2 ^ i / 2 := by
      obtain ⟨n, hn⟩ : ∃ n : Nat, size = (n : Int) :=
        ⟨size.toNat, (Int.toNat_of_nonneg (by omega)).symm⟩
      rw [hn]
      norm_cast
      rw [pow_succ, Nat.div_div_eq_div_mul]
    have hnonneg : 0 ≤ size / 2 ^ i := Int.ediv_nonneg (by omega) (le_of_lt hpow)
    rw [hdiv]
    unfold generateMipmaps.halve
    by_cases hbig : 1 < size / 2 ^ i
    · rw [max_eq_right (le_of_lt hbig), if_pos hbig,
        Int.tdiv_eq_ediv hnonneg (by decide)]
      rw [max_eq_right (by omega)]
    · have hsmall : size / 2 ^ i ≤ 1 := not_lt.mp hbig
      rw [max_eq_left hsmall, if_neg (by decide), max_eq_left (by omega)]

/-- C30: for a texture of width and height at least 1 with `L` levels as computed by
`createTextureImage`, the extent that `generateMipmaps` tracks after `i` passes of its loop
(the extent of level `i`) is `(max(1, floor(w / 2^i)), max(1, floor(h / 2^i)))`, and after
the `L - 1` passes it is exactly 1 x 1. -/
theorem generateMipmaps_tracked_extent (texWidth texHeight : Int)
    (h : 1 ≤ texWidth ∧ 1 ≤ texHeight) :
    ∃ L : Nat, createTextureImage.mipLevels texWidth texHeight = some L ∧ 1 ≤ L ∧
      (∀ i : Nat, i ≤ L - 1 →
        generateMipmaps.halve^[i] texWidth = max 1 (texWidth / 2 ^ i) ∧
        generateMipmaps.halve^[i] texHeight = max 1 (texHeight / 2 ^ i)) ∧
      generateMipmaps.halve^[L - 1] texWidth = 1 ∧
      generateMipmaps.halve^[L - 1] texHeight = 1 := by
  have hm : 1 ≤ max texWidth texHeight := le_trans h.1 (le_max_left _ _)
  obtain ⟨n, hn⟩ : ∃ n : Nat, max texWidth texHeight = (n : Int) :=
    ⟨(max texWidth texHeight).toNat, (Int.toNat_of_nonneg (by omega)).symm⟩
  have hhi : n < 2 ^ (Nat.log2 n + 1) := Nat.lt_log2_self
  have hpow : (0 : Int) < 2 ^ Nat.log2 n := by positivity
  have hbound : max texWidth texHeight < 2 * 2 ^ Nat.log2 n := by
    rw [hn]
    have : (n : Int) < 2 ^ (Nat.log2 n + 1) := by exact_mod_cast hhi
    rw [pow_succ] at this
    omega
  have hone : ∀ size : Int, 1 ≤ size → size ≤ max texWidth texHeight →
      generateMipmaps.halve^[Nat.log2 n] size = 1 := by
    intro size h1 h2
    rw [generateMipmaps_halve_iterate size h1]
    have : size / 2 ^ Nat.log2 n < 2 :=
      Int.ediv_lt_of_lt_mul hpow (lt_of_le_of_lt h2 hbound)
    exact max_eq_left (by omega)
  refine ⟨Nat.log2 n + 1, ?_, by omega, ?_, ?_, ?_⟩
  · simp [createTextureImage.mipLevels, hn]
    omega
  · intro i _
    exact ⟨generateMipmaps_halve_iterate _ h.1 i, generateMipmaps_halve_iterate _ h.2 i⟩
  · rw [Nat.add_sub_cancel]
    exact hone texWidth h.1 (le_max_left _ _)
  · rw [Nat.add_sub_cancel]
    exact hone texHeight h.2 (le_max_right _ _)

/-- Witness for C30: a 500 x 300 texture has 9 levels, and after 8 halvings the tracked
extent is 1 x 1. -/
theorem generateMipmaps_tracked_extent_witness :
    (1 ≤ (500 : Int) ∧ 1 ≤ (300 : Int)) ∧
    ∃ L : Nat, createTextureImage.mipLevels 500 300 = some L ∧ 1 ≤ L ∧
      (∀ i : Nat, i ≤ L - 1 →
        generateMipmaps.halve^[i] 500 = max 1 (500 / 2 ^ i) ∧
        generateMipmaps.halve^[i] 300 = max 1 (300 / 2 ^ i)) ∧
      generateMipmaps.halve^[L - 1] 500 = 1 ∧
      generateMipmaps.halve^[L - 1] 300 = 1 :=
  ⟨⟨by decide, by decide⟩, generateMipmaps_tracked_extent 500 300 ⟨by decide, by decide⟩⟩

/-! ## The camera -/

/-- One step while the button is held: the button stays held, the permanent angles, the
radius and the initial position stay, and the current position becomes the one the step
offers, if it offers one. -/
theorem dragStep_apply_held (step : DragStep) (c : Camera) (h : c.m_fMousePressed = true) :
    (step.apply c).m_fMousePressed = true ∧
    (step.apply c).m_lastMousePosition = c.m_lastMousePosition ∧
    (step.apply c).m_theta = c.m_theta ∧ (step.apply c).m_phi = c.m_phi ∧
    (step.apply c).m_radius = c.m_radius ∧
    (step.apply c).m_currentMousePosition = step.sample.getD c.m_currentMousePosition := by
  cases step <;>
    simp [DragStep.apply, DragStep.sample, onCursorMove, updateUniformBuffer.camera,
      Camera.fMouseButtonPressed, Camera.setCurrentMousePosition, h]

/-- A sequence of steps while the button is held: the button stays held, the permanent
angles, the radius and the initial position stay, and the current position is the last one
offered, if any was. -/
theorem camera_steps_held (steps : List DragStep) :
    ∀ c : Camera, c.m_fMousePressed = true →
      (Camera.steps steps c).m_fMousePressed = true ∧
      (Camera.steps steps c).m_lastMousePosition = c.m_lastMousePosition ∧
      (Camera.steps steps c).m_theta = c.m_theta ∧
      (Camera.steps steps c).m_phi = c.m_phi ∧
      (Camera.steps steps c).m_radius = c.m_radius ∧
      (Camera.steps steps c).m_currentMousePosition
        = (DragStep.lastSample steps).getD c.m_currentMousePosition := by
  induction steps with
  | nil => intro c h; simp [Camera.steps, DragStep.lastSample, h]
  | cons step rest ih =>
    intro c h
    obtain ⟨h1, h2, h3, h4, h5, h6⟩ := dragStep_apply_held step c h
    obtain ⟨i1, i2, i3, i4, i5, i6⟩ := ih (step.apply c) h1
    have hcons : Camera.steps (step :: rest) c = Camera.steps rest (step.apply c) := rfl
    rw [hcons, i2, i3, i4, i5, i6, h2, h3, h4, h5, h6]
    refine ⟨i1, rfl, rfl, rfl, rfl, ?_⟩
    unfold DragStep.lastSample
    cases hs : step.sample with
    | none => simp [List.filterMap_cons, hs]
    | some p => simp [List.filterMap_cons, hs, List.getLast?_cons]

/-- A press of the left button with the pointer at `cursor`: the button is held, the initial
position is `cursor`, and the permanent angles, the radius and the current position stay. -/
theorem onMouseClick_press (cursor : double × double) (c : Camera) :
    (onMouseClick GLFW_MOUSE_BUTTON_LEFT GLFW_PRESS cursor c).m_fMousePressed = true ∧
    (onMouseClick GLFW_MOUSE_BUTTON_LEFT GLFW_PRESS cursor c).m_lastMousePosition = cursor ∧
    (onMouseClick GLFW_MOUSE_BUTTON_LEFT GLFW_PRESS cursor c).m_theta = c.m_theta ∧
    (onMouseClick GLFW_MOUSE_BUTTON_LEFT GLFW_PRESS cursor c).m_phi = c.m_phi ∧
    (onMouseClick GLFW_MOUSE_BUTTON_LEFT GLFW_PRESS cursor c).m_radius = c.m_radius ∧
    (onMouseClick GLFW_MOUSE_BUTTON_LEFT GLFW_PRESS cursor c).m_currentMousePosition
      = c.m_currentMousePosition := by
  simp [onMouseClick, Camera.setMouseButtonPressed, Camera.setInitialMousePosition]

/-- A release of the left button, whatever the state: each angle is assigned the `float`
nearest to the `double` sum of the angle and a tenth of the difference between the current and
the initial position, the radius stays, and the button is no longer held. -/
theorem onMouseClick_release (cursor : double × double) (c : Camera) :
    (onMouseClick GLFW_MOUSE_BUTTON_LEFT GLFW_RELEASE cursor c).m_fMousePressed = false ∧
    (onMouseClick GLFW_MOUSE_BUTTON_LEFT GLFW_RELEASE cursor c).m_theta
      = (c.m_theta.toDouble + (c.m_currentMousePosition.2 - c.m_lastMousePosition.2)
          / (10 : float).toDouble).toFloat ∧
    (onMouseClick GLFW_MOUSE_BUTTON_LEFT GLFW_RELEASE cursor c).m_phi
      = (c.m_phi.toDouble + (c.m_currentMousePosition.1 - c.m_lastMousePosition.1)
          / (10 : float).toDouble).toFloat ∧
    (onMouseClick GLFW_MOUSE_BUTTON_LEFT GLFW_RELEASE cursor c).m_radius = c.m_radius := by
  simp [onMouseClick, Camera.setMouseButtonPressed, Camera.dragged, GLFW_PRESS, GLFW_RELEASE]

/-- C22 as stated fails: on the camera as constructed (phi 90), a drag by one pixel in x,
from (0, 0) to (1, 0), leaves phi at 11809587 * 2^-17, the `float` nearest to 90.1, which is
1/655360 below `90 + (1 - 0) / 10`. -/
theorem drag_by_one_pixel_is_rounded :
    Camera.initial.m_phi.value.toRat = some 90 ∧
    (onMouseClick GLFW_MOUSE_BUTTON_LEFT GLFW_RELEASE (1, 0)
      (Camera.steps [.frame 1 0]
        (onMouseClick GLFW_MOUSE_BUTTON_LEFT GLFW_PRESS (0, 0) Camera.initial))).m_phi
      = ⟨.finite 11809587 (-17)⟩ ∧
    (FloatingPoint.finite 11809587 (-17)).toRat = some (90 + (1 - 0) / 10 - 1 / 655360) ∧
    (FloatingPoint.finite 11809587 (-17)).toRat ≠ some (90 + (1 - 0) / 10) := by
  refine ⟨?_, by decide, ?_, ?_⟩
  · have h : Camera.initial.m_phi.value = .finite 45 1 := by decide
    rw [h]
    norm_num [FloatingPoint.toRat]
  · norm_num [FloatingPoint.toRat]
  · norm_num [FloatingPoint.toRat]

/-- C22, amended: a button-down with the pointer at `(x0, y0)`, a sequence of steps (cursor
moves, frames, view queries) that offers at least one pointer position, the last one
`(x1, y1)`, and the button-up leave phi at the `float` nearest to the `double` sum of phi and
`(x1 - x0) / 10`, theta at the `float` nearest to the `double` sum of theta and
`(y1 - y0) / 10`, where difference, quotient and sum are each rounded to `double`; the radius
is unchanged and the camera not dragging. -/
theorem drag_commits_rounded_tenth_of_pointer_delta (c : Camera) (x0 y0 x1 y1 : double)
    (steps : List DragStep) (cursor : double × double)
    (hlast : DragStep.lastSample steps = some (x1, y1)) :
    (onMouseClick GLFW_MOUSE_BUTTON_LEFT GLFW_RELEASE cursor
      (Camera.steps steps
        (onMouseClick GLFW_MOUSE_BUTTON_LEFT GLFW_PRESS (x0, y0) c))).m_phi
      = (c.m_phi.toDouble + (x1 - x0) / (10 : float).toDouble).toFloat ∧
    (onMouseClick GLFW_MOUSE_BUTTON_LEFT GLFW_RELEASE cursor
      (Camera.steps steps
        (onMouseClick GLFW_MOUSE_BUTTON_LEFT GLFW_PRESS (x0, y0) c))).m_theta
      = (c.m_theta.toDouble + (y1 - y0) / (10 : float).toDouble).toFloat ∧
    (onMouseClick GLFW_MOUSE_BUTTON_LEFT GLFW_RELEASE cursor
      (Camera.steps steps
        (onMouseClick GLFW_MOUSE_BUTTON_LEFT GLFW_PRESS (x0, y0) c))).m_radius
      = c.m_radius ∧
    (onMouseClick GLFW_MOUSE_BUTTON_LEFT GLFW_RELEASE cursor
      (Camera.steps steps
        (onMouseClick GLFW_MOUSE_BUTTON_LEFT GLFW_PRESS (x0, y0) c))).m_fMousePressed
      = false := by
  obtain ⟨p1, p2, p3, p4, p5, -⟩ := onMouseClick_press (x0, y0) c
  obtain ⟨s1, s2, s3, s4, s5, s6⟩ := camera_steps_held steps _ p1
  obtain ⟨r1, r2, r3, r4⟩ := onMouseClick_release cursor
    (Camera.steps steps (onMouseClick GLFW_MOUSE_BUTTON_LEFT GLFW_PRESS (x0, y0) c))
  rw [r1, r2, r3, r4, s2, s3, s4, s5, s6, p2, p3, p4, p5, hlast]
  simp

/-- Witness for C22: on the camera as constructed, a drag from (0, 0) with one frame at
(10, 20) moves phi from 90 to 91 and theta from 0 to 2; here no operation rounds. -/
theorem drag_commits_rounded_tenth_of_pointer_delta_witness :
    DragStep.lastSample [.frame 10 20] = some (10, 20) ∧
    Camera.afterOneDrag.m_phi
      = (Camera.initial.m_phi.toDouble + (10 - 0) / (10 : float).toDouble).toFloat ∧
    Camera.afterOneDrag.m_theta
      = (Camera.initial.m_theta.toDouble + (20 - 0) / (10 : float).toDouble).toFloat ∧
    (Camera.initial.m_phi.toDouble + (10 - 0) / (10 : float).toDouble).toFloat = 91 ∧
    (Camera.initial.m_theta.toDouble + (20 - 0) / (10 : float).toDouble).toFloat = 2 :=
  ⟨rfl,
    (drag_commits_rounded_tenth_of_pointer_delta Camera.initial 0 0 10 20 [.frame 10 20]
      (10, 20) rfl).1,
    (drag_commits_rounded_tenth_of_pointer_delta Camera.initial 0 0 10 20 [.frame 10 20]
      (10, 20) rfl).2.1,
    by decide, by decide⟩

/-- C23: after a button-down and before any button-up, every sequence of cursor moves, frames
and view-matrix queries leaves the permanent theta, phi and radius of the camera unchanged
(a view-matrix query changes nothing at all); the pointer samples enter only the value that
`getViewMatrix` returns, which is computed from the radius and from the permanent angles
moved by a tenth of the difference between the last sample and the initial position. -/
theorem drag_preview_leaves_permanent_state (c : Camera) (cursor : double × double)
    (steps : List DragStep) (α : Type) (lookAt : float → float → float → α) :
    (Camera.steps steps
      (onMouseClick GLFW_MOUSE_BUTTON_LEFT GLFW_PRESS cursor c)).m_theta = c.m_theta ∧
    (Camera.steps steps
      (onMouseClick GLFW_MOUSE_BUTTON_LEFT GLFW_PRESS cursor c)).m_phi = c.m_phi ∧
    (Camera.steps steps
      (onMouseClick GLFW_MOUSE_BUTTON_LEFT GLFW_PRESS cursor c)).m_radius = c.m_radius ∧
    (∀ d : Camera, DragStep.viewQuery.apply d = d) ∧
    (Camera.steps steps
      (onMouseClick GLFW_MOUSE_BUTTON_LEFT GLFW_PRESS cursor c)).getViewMatrix lookAt
      = lookAt c.m_radius
        (c.m_theta.toDouble
          + (((DragStep.lastSample steps).getD c.m_currentMousePosition).2 - cursor.2)
            / (10 : float).toDouble).toFloat
        (c.m_phi.toDouble
          + (((DragStep.lastSample steps).getD c.m_currentMousePosition).1 - cursor.1)
            / (10 : float).toDouble).toFloat := by
  obtain ⟨p1, p2, p3, p4, p5, p6⟩ := onMouseClick_press cursor c
  obtain ⟨s1, s2, s3, s4, s5, s6⟩ := camera_steps_held steps _ p1
  refine ⟨by rw [s3, p3], by rw [s4, p4], by rw [s5, p5], fun _ => rfl, ?_⟩
  unfold Camera.getViewMatrix Camera.getViewMatrix.modified Camera.dragged
  simp only [s1, s2, s3, s4, s5, s6, p2, p3, p4, p5, p6, if_true]

/-- C28 at its failing input: after one drag from (0, 0) to (10, 20) the camera has theta 2
and phi 91.  A button-down at (50, 60) followed at once by the button-up, with no step in
between, leaves theta at -2 and phi at 87: the current position still is the (10, 20) of the
earlier drag.  A button-up that arrives while the camera is not dragging leaves theta at 4
and phi at 92: the delta of the earlier drag is added once more. -/
theorem click_without_sample_moves_camera :
    Camera.afterOneDrag.m_fMousePressed = false ∧
    Camera.afterOneDrag.m_theta = 2 ∧ Camera.afterOneDrag.m_phi = 91 ∧
    (onMouseClick GLFW_MOUSE_BUTTON_LEFT GLFW_RELEASE (50, 60)
      (Camera.steps []
        (onMouseClick GLFW_MOUSE_BUTTON_LEFT GLFW_PRESS (50, 60) Camera.afterOneDrag))).m_theta
      = -2 ∧
    (onMouseClick GLFW_MOUSE_BUTTON_LEFT GLFW_RELEASE (50, 60)
      (Camera.steps []
        (onMouseClick GLFW_MOUSE_BUTTON_LEFT GLFW_PRESS (50, 60) Camera.afterOneDrag))).m_phi
      = 87 ∧
    (onMouseClick GLFW_MOUSE_BUTTON_LEFT GLFW_RELEASE (50, 60) Camera.afterOneDrag).m_theta
      = 4 ∧
    (onMouseClick GLFW_MOUSE_BUTTON_LEFT GLFW_RELEASE (50, 60) Camera.afterOneDrag).m_phi
      = 92 := by
  decide

/-! ## The model matrix -/

theorem mat4_mul_def (a b : glm.mat4) : a * b = glm.mat4.mul a b := rfl

/-- A duration update leaves position and centre as they are. -/
theorem rotate_position_center (b : Axis) (now : StdTime) (m : Model) :
    (m.rotate b now).m_position = m.m_position ∧ (m.rotate b now).m_center = m.m_center := by
  unfold Model.rotate Model.getDuration
  split_ifs <;> exact ⟨rfl, rfl⟩

/-- The three duration updates of a model-matrix query leave position and centre as they
are. -/
theorem rotations_position_center (now : StdTime) (m : Model) :
    (Model.getModelMatrix.rotations now m).m_position = m.m_position ∧
    (Model.getModelMatrix.rotations now m).m_center = m.m_center := by
  unfold Model.getModelMatrix.rotations Model.rotateX Model.rotateY Model.rotateZ
  constructor
  · rw [(rotate_position_center _ _ _).1, (rotate_position_center _ _ _).1,
      (rotate_position_center _ _ _).1]
  · rw [(rotate_position_center _ _ _).2, (rotate_position_center _ _ _).2,
      (rotate_position_center _ _ _).2]

/-- What `getModelMatrix` keeps fixed: whatever the accumulated durations, the model-space
point `-m_center` is mapped to the world point `m_position - m_center`. -/
theorem getModelMatrix_fixes_negated_center (now : StdTime) (m : Model) :
    (m.getModelMatrix now).1.mulVec m.m_center.neg.point =
      ⟨m.m_position.x - m.m_center.x, m.m_position.y - m.m_center.y,
        m.m_position.z - m.m_center.z, 1⟩ := by
  have hrot : ∀ (r : Model), (r.m_position = m.m_position ∧ r.m_center = m.m_center) →
      (glm.translate r.m_position * glm.translate r.m_center.neg *
        glm.rotate (glm.quarterTurns (r.m_durations .x)) .x *
        glm.rotate (glm.quarterTurns (r.m_durations .y)) .y *
        glm.rotate (glm.quarterTurns (r.m_durations .z)) .z * glm.translate r.m_center).mulVec
          m.m_center.neg.point =
        ⟨m.m_position.x - m.m_center.x, m.m_position.y - m.m_center.y,
          m.m_position.z - m.m_center.z, 1⟩ := by
    intro r hr
    rw [hr.1, hr.2]
    simp [mat4_mul_def, glm.mat4.mul, glm.mat4.mulRow, glm.mat4.mulVec, glm.dot,
      glm.translate, glm.rotate, glm.mat4.column0, glm.mat4.column1, glm.mat4.column2,
      glm.mat4.column3, glm.vec3.neg, glm.vec3.point]
    refine ⟨?_, ?_, ?_⟩ <;> ring
  apply hrot
  exact rotations_position_center now m

/-- C26 at its failing input: the model of the application, centre (-0.5, -0.5, -0.5) and
position at the origin.  With no duration accumulated the model matrix maps the centre to
(-0.5, -0.5, -0.5); after a quarter turn about the x axis it maps the centre to
(-0.5, 1.5, -0.5).  The point that every turn leaves in place is (0.5, 0.5, 0.5), the
negated centre. -/
theorem getModelMatrix_moves_center :
    Model.ofApplication.m_center = ⟨-1 / 2, -1 / 2, -1 / 2⟩ ∧
    Model.quarterTurned.m_center = ⟨-1 / 2, -1 / 2, -1 / 2⟩ ∧
    Model.quarterTurned.m_durations .x = 1 ∧
    (Model.ofApplication.getModelMatrix 2).1.mulVec Model.ofApplication.m_center.point
      = ⟨-1 / 2, -1 / 2, -1 / 2, 1⟩ ∧
    (Model.quarterTurned.getModelMatrix 2).1.mulVec Model.quarterTurned.m_center.point
      = ⟨-1 / 2, 3 / 2, -1 / 2, 1⟩ ∧
    (Model.quarterTurned.getModelMatrix 2).1.mulVec ⟨1 / 2, 1 / 2, 1 / 2, 1⟩
      = ⟨1 / 2, 1 / 2, 1 / 2, 1⟩ := by
  have hx : (Model.getModelMatrix.rotations 2 Model.quarterTurned).m_durations .x = 1 := by
    decide
  have hy : (Model.getModelMatrix.rotations 2 Model.quarterTurned).m_durations .y = 0 := by
    decide
  have hz : (Model.getModelMatrix.rotations 2 Model.quarterTurned).m_durations .z = 0 := by
    decide
  have hc : (Model.getModelMatrix.rotations 2 Model.quarterTurned).m_center
      = ⟨-1 / 2, -1 / 2, -1 / 2⟩ := (rotations_position_center _ _).2
  have hp : (Model.getModelMatrix.rotations 2 Model.quarterTurned).m_position
      = ⟨0, 0, 0⟩ := (rotations_position_center _ _).1
  have hx0 : (Model.getModelMatrix.rotations 2 Model.ofApplication).m_durations .x = 0 := by
    decide
  have hy0 : (Model.getModelMatrix.rotations 2 Model.ofApplication).m_durations .y = 0 := by
    decide
  have hz0 : (Model.getModelMatrix.rotations 2 Model.ofApplication).m_durations .z = 0 := by
    decide
  have hc0 : (Model.getModelMatrix.rotations 2 Model.ofApplication).m_center
      = ⟨-1 / 2, -1 / 2, -1 / 2⟩ := (rotations_position_center _ _).2
  have hp0 : (Model.getModelMatrix.rotations 2 Model.ofApplication).m_position
      = ⟨0, 0, 0⟩ := (rotations_position_center _ _).1
  have hq : Model.quarterTurned.m_center = ⟨-1 / 2, -1 / 2, -1 / 2⟩ := rfl
  have hone : glm.quarterTurns 1 = 1 := by decide
  have hzero : glm.quarterTurns 0 = 0 := by decide
  have ha : Model.ofApplication.m_center = ⟨-1 / 2, -1 / 2, -1 / 2⟩ := rfl
  refine ⟨ha, hq, by decide, ?_, ?_, ?_⟩
  · unfold Model.getModelMatrix
    simp only [hx0, hy0, hz0, hc0, hp0, ha, hzero]
    norm_num [mat4_mul_def, glm.mat4.mul, glm.mat4.mulRow, glm.mat4.mulVec, glm.dot,
      glm.translate, glm.rotate, glm.mat4.column0, glm.mat4.column1, glm.mat4.column2,
      glm.mat4.column3, glm.vec3.neg, glm.vec3.point, glm.quarterCos, glm.quarterSin]
  · unfold Model.getModelMatrix
    simp only [hx, hy, hz, hc, hp, hq, hone, hzero]
    norm_num [mat4_mul_def, glm.mat4.mul, glm.mat4.mulRow, glm.mat4.mulVec, glm.dot,
      glm.translate, glm.rotate, glm.mat4.column0, glm.mat4.column1, glm.mat4.column2,
      glm.mat4.column3, glm.vec3.neg, glm.vec3.point, glm.quarterCos, glm.quarterSin]
  · unfold Model.getModelMatrix
    simp only [hx, hy, hz, hc, hp, hone, hzero]
    norm_num [mat4_mul_def, glm.mat4.mul, glm.mat4.mulRow, glm.mat4.mulVec, glm.dot,
      glm.translate, glm.rotate, glm.mat4.column0, glm.mat4.column1, glm.mat4.column2,
      glm.mat4.column3, glm.vec3.neg, glm.vec3.point, glm.quarterCos, glm.quarterSin]

/-! ## Layouts of the texture levels -/

/-- C27 at its failing input: a 2 x 2 texture, hence 2 mip levels.  `createTextureImage`
returns; of its log, the commands up to and including the copy leave level 0 in
transfer-destination layout and level 1 still undefined, because the barrier of
`transitionImageLayout` covers one level whatever `mipLevels` is; and the first command of the
whole log that does not find the layout it relies on is the blit of `generateMipmaps` into
level 1. -/
theorem createTextureImage_leaves_upper_levels_undefined :
    (createTextureImage startup running).1 = .returned () ∧
    (createTextureImage startup running).2.m_mipLevels = 2 ∧
    (createTextureImage startup running).2.m_vkTextureImage = 210 ∧
    ((createTextureImage startup running).2.calls.take 16).getLast? =
      some (.vkFreeCommandBuffers 14 [128]) ∧
    ((createTextureImage startup running).2.calls.drop 16).head? =
      some (.vkAllocateCommandBuffers 14 1) ∧
    ((createTextureImage startup running).2.calls.drop 17).head? =
      some (generateMipmaps.commands 210 128 1 2 2).head? ∧
    layoutsAfter 210 ((createTextureImage startup running).2.calls.take 16)
      [VK_IMAGE_LAYOUT_UNDEFINED, VK_IMAGE_LAYOUT_UNDEFINED]
      = [VK_IMAGE_LAYOUT_TRANSFER_DST_OPTIMAL, VK_IMAGE_LAYOUT_UNDEFINED] ∧
    firstLayoutViolation 210 (createTextureImage startup running).2.calls
      [VK_IMAGE_LAYOUT_UNDEFINED, VK_IMAGE_LAYOUT_UNDEFINED]
      = some (.vkCmdBlitImage 128 210 VK_IMAGE_LAYOUT_TRANSFER_SRC_OPTIMAL 210
          VK_IMAGE_LAYOUT_TRANSFER_DST_OPTIMAL
          { srcMipLevel := 0, srcWidth := 2, srcHeight := 2, srcDepth := 1,
            dstMipLevel := 1, dstWidth := 1, dstHeight := 1, dstDepth := 1 }
          VK_FILTER_LINEAR) := by
  have hload : startup.stbi_load = some (2, 2) := rfl
  have hlevels : createTextureImage.mipLevels 2 2 = some 2 := by
    simp [createTextureImage.mipLevels, Nat.log2]
  simp only [createTextureImage, hload, hlevels]
  decide

/-! ## What the start-up steps leave alone -/

theorem keeps_refl {α : Type} (o : Outcome α) (s : State) : Keeps s (o, s) := rfl

theorem keeps_trans {α : Type} {s t : State} {r : Outcome α × State}
    (h1 : t.vectors = s.vectors) (h2 : Keeps t r) : Keeps s r :=
  Eq.trans h2 h1

theorem keeps_andThen {α β : Type} {s : State} {r : Outcome α × State}
    {k : α → State → Outcome β × State} (hr : Keeps s r)
    (hk : ∀ a s1, Keeps s1 (k a s1)) : Keeps s (andThen r k) := by
  obtain ⟨o, s1⟩ := r
  cases o with
  | returned a => exact keeps_trans hr (hk a s1)
  | threw e => exact hr
  | undefined => exact hr

theorem keeps_forEachIndex {body : Nat → State → Outcome Unit × State}
    (hbody : ∀ i s, Keeps s (body i s)) (indices : List Nat) (s : State) :
    Keeps s (forEachIndex body indices s) := by
  induction indices generalizing s with
  | nil => rfl
  | cons i rest ih =>
    unfold forEachIndex
    exact keeps_andThen (hbody i s) (fun _ s1 => ih s1)

theorem call_vectors (s : State) (c : Call) : (s.call c).vectors = s.vectors := rfl

theorem callAll_vectors (s : State) (cs : List Call) : (s.callAll cs).vectors = s.vectors := rfl

theorem updateModel_vectors (i : Nat) (f : Model → Model) (s : State) :
    (s.updateModel i f).vectors = s.vectors := by
  unfold State.updateModel
  split <;> rfl

theorem findQueueFamilies_keeps (env : Driver) (s : State) :
    Keeps s (findQueueFamilies env s) := by
  unfold findQueueFamilies
  split_ifs <;> rfl

theorem findDepthFormat_keeps (env : Driver) (s : State) :
    Keeps s (findDepthFormat env s) := by
  unfold findDepthFormat findSupportedFormat
  dsimp only
  split_ifs <;> rfl

theorem createRenderPass_keeps (env : Driver) (s : State) :
    Keeps s (createRenderPass env s) := by
  unfold createRenderPass
  refine keeps_andThen (findDepthFormat_keeps env s) fun depthFormat s1 => ?_
  dsimp only
  split_ifs <;> rfl

theorem createDescriptorSetLayout_keeps (env : Driver) (s : State) :
    Keeps s (createDescriptorSetLayout env s) := by
  unfold createDescriptorSetLayout
  dsimp only
  split_ifs <;> rfl

theorem readFile_keeps (opens : Bool) (s : State) : Keeps s (readFile opens s) := by
  unfold readFile
  split_ifs <;> rfl

theorem createShaderModule_keeps (env : Driver) (site : Site) (s : State) :
    Keeps s (createShaderModule env site s) := by
  unfold createShaderModule
  dsimp only
  split_ifs <;> rfl

theorem createGraphicsPipeline_keeps (env : Driver) (s : State) :
    Keeps s (createGraphicsPipeline env s) := by
  unfold createGraphicsPipeline
  refine keeps_andThen (readFile_keeps _ s) fun _ s1 => ?_
  refine keeps_andThen (readFile_keeps _ s1) fun _ s2 => ?_
  refine keeps_andThen (createShaderModule_keeps env _ s2) fun vert s3 => ?_
  refine keeps_andThen (createShaderModule_keeps env _ s3) fun frag s4 => ?_
  dsimp only
  split_ifs <;> rfl

theorem createCommandPool_keeps (env : Driver) (s : State) :
    Keeps s (createCommandPool env s) := by
  unfold createCommandPool
  refine keeps_andThen (findQueueFamilies_keeps env s) fun indices s1 => ?_
  dsimp only
  split_ifs <;> rfl

theorem createImage_keeps (env : Driver) (imageSite memorySite : Site)
    (width height mipLevels : Nat) (imageFormat : VkFormat) (tiling usageFlags properties : Nat)
    (setImage setMemory : Handle → State → State)
    (hImage : ∀ h s, (setImage h s).vectors = s.vectors)
    (hMemory : ∀ h s, (setMemory h s).vectors = s.vectors) (s : State) :
    Keeps s (createImage env imageSite memorySite width height mipLevels imageFormat tiling
      usageFlags properties setImage setMemory s) := by
  unfold createImage Keeps
  dsimp only
  split_ifs
  · rfl
  · rw [call_vectors, hImage, call_vectors]
  · rw [call_vectors, hMemory, call_vectors, hImage, call_vectors]

theorem createImageView_keeps (env : Driver) (site : Site) (image : Handle) (format : VkFormat)
    (aspectFlags mipLevels : Nat) (s : State) :
    Keeps s (createImageView env site image format aspectFlags mipLevels s) := by
  unfold createImageView
  dsimp only
  split_ifs <;> rfl

theorem beginSingleTimeCommands_keeps (env : Driver) (vkCommandPool : Handle) (s : State) :
    Keeps s (beginSingleTimeCommands env vkCommandPool s) := by
  unfold beginSingleTimeCommands
  dsimp only
  split_ifs <;> rfl

theorem endSingleTimeCommands_vectors (vkCommandPool vkQueue commandBuffer : Handle)
    (s : State) :
    (endSingleTimeCommands vkCommandPool vkQueue commandBuffer s).vectors = s.vectors := rfl

theorem transitionImageLayout_keeps (env : Driver) (image : Handle) (format : VkFormat)
    (oldLayout newLayout mipLevels : Nat) (s : State) :
    Keeps s (transitionImageLayout env image format oldLayout newLayout mipLevels s) := by
  unfold transitionImageLayout
  refine keeps_andThen (beginSingleTimeCommands_keeps env _ s) fun commandBuffer s1 => ?_
  split
  · exact keeps_refl _ _
  · exact (endSingleTimeCommands_vectors ..).trans (call_vectors ..)

theorem createDepthResources_keeps (env : Driver) (s : State) :
    Keeps s (createDepthResources env s) := by
  unfold createDepthResources
  refine keeps_andThen (findDepthFormat_keeps env s) fun depthFormat s1 => ?_
  refine keeps_andThen (createImage_keeps env _ _ _ _ _ _ _ _ _
    (fun image s => { s with m_vkDepthImage := image })
    (fun memory s => { s with m_vkDepthImageMemory := memory })
    (fun _ _ => rfl) (fun _ _ => rfl) s1) fun _ s2 => ?_
  refine keeps_andThen (createImageView_keeps ..) fun imageView s3 => ?_
  exact keeps_trans (t := { s3 with m_vkDepthImageView := imageView }) rfl
    (transitionImageLayout_keeps env _ _ _ _ _ _)

theorem createBuffer_keeps (env : Driver) (bufferSite memorySite : Site)
    (size usageFlags properties : Nat) (setBuffer setMemory : Handle → State → State)
    (hBuffer : ∀ h s, (setBuffer h s).vectors = s.vectors)
    (hMemory : ∀ h s, (setMemory h s).vectors = s.vectors) (s : State) :
    Keeps s (Utilities.createBuffer env bufferSite memorySite size usageFlags properties
      setBuffer setMemory s) := by
  unfold Utilities.createBuffer Keeps
  dsimp only
  split_ifs
  · rfl
  · rw [call_vectors, hBuffer, call_vectors]
  · rw [call_vectors, hMemory, call_vectors, hBuffer, call_vectors]

theorem copyBufferToImage_keeps (env : Driver) (buffer image : Handle) (width height : Nat)
    (s : State) : Keeps s (copyBufferToImage env buffer image width height s) := by
  unfold copyBufferToImage
  exact keeps_andThen (beginSingleTimeCommands_keeps env _ s) fun commandBuffer s1 =>
    (endSingleTimeCommands_vectors ..).trans (call_vectors ..)

theorem generateMipmaps_keeps (env : Driver) (image : Handle) (texWidth texHeight : Int)
    (mipLevels : Nat) (s : State) :
    Keeps s (generateMipmaps env image texWidth texHeight mipLevels s) := by
  unfold generateMipmaps
  refine keeps_andThen (beginSingleTimeCommands_keeps env _ s) fun commandBuffer s1 => ?_
  dsimp only
  unfold Keeps
  rw [endSingleTimeCommands_vectors, call_vectors, generateMipmaps_loop_members]
  rfl

theorem copyBuffer_keeps (env : Driver) (vkCommandPool vkQueue srcBuffer dstBuffer : Handle)
    (size : Nat) (s : State) :
    Keeps s (Utilities.copyBuffer env vkCommandPool vkQueue srcBuffer dstBuffer size s) := by
  unfold Utilities.copyBuffer
  exact keeps_andThen (beginSingleTimeCommands_keeps env _ s) fun commandBuffer s1 =>
    (endSingleTimeCommands_vectors ..).trans (call_vectors ..)

theorem createTextureImage_keeps (env : Driver) (s : State) :
    Keeps s (createTextureImage env s) := by
  unfold createTextureImage
  split
  · rfl
  · split
    · rfl
    · dsimp only
      split_ifs
      · rfl
      · rfl
      · refine keeps_trans (t := { s with m_mipLevels := _ }) rfl ?_
        refine keeps_andThen (createBuffer_keeps env _ _ _ _ _ (fun _ s => s)
          (fun _ s => s) (fun _ _ => rfl) (fun _ _ => rfl) _) fun _ s1 => ?_
        refine keeps_andThen (createImage_keeps env _ _ _ _ _ _ _ _ _
          (fun image s => { s with m_vkTextureImage := image })
          (fun memory s => { s with m_vkTextureMemory := memory })
          (fun _ _ => rfl) (fun _ _ => rfl) s1) fun _ s2 => ?_
        refine keeps_andThen (transitionImageLayout_keeps ..) fun _ s3 => ?_
        refine keeps_andThen (copyBufferToImage_keeps ..) fun _ s4 => ?_
        refine keeps_andThen (generateMipmaps_keeps ..) fun _ s5 => ?_
        exact (call_vectors ..).trans (call_vectors ..)

theorem createTextureImageView_keeps (env : Driver) (s : State) :
    Keeps s (createTextureImageView env s) := by
  unfold createTextureImageView
  exact keeps_andThen (createImageView_keeps ..) fun imageView s1 => rfl

theorem createTextureSampler_keeps (env : Driver) (s : State) :
    Keeps s (createTextureSampler env s) := by
  unfold createTextureSampler
  dsimp only
  split_ifs <;> rfl

theorem loadModels_keeps (env : Driver) (s : State) : Keeps s (loadModels env s) := by
  unfold loadModels
  refine keeps_forEachIndex (fun i s1 => ?_) _ s
  unfold loadModels.body
  split
  · rfl
  · split
    · rfl
    · exact updateModel_vectors _ _ _

theorem createVertexBuffer_keeps (env : Driver) (i : Nat) (vkCommandPool vkQueue : Handle)
    (s : State) : Keeps s (Model.createVertexBuffer env i vkCommandPool vkQueue s) := by
  unfold Model.createVertexBuffer
  split
  · rfl
  · dsimp only
    refine keeps_andThen (createBuffer_keeps env _ _ _ _ _ (fun _ s => s)
      (fun _ s => s) (fun _ _ => rfl) (fun _ _ => rfl) s) fun _ s1 => ?_
    refine keeps_andThen (createBuffer_keeps _ _ _ _ _ _ _ _
      (fun _ _ => updateModel_vectors _ _ _) (fun _ _ => updateModel_vectors _ _ _) s1)
      fun _ s2 => ?_
    refine keeps_andThen (copyBuffer_keeps ..) fun _ s3 => ?_
    exact (call_vectors ..).trans (call_vectors ..)

theorem createIndexBuffer_keeps (env : Driver) (i : Nat) (vkCommandPool vkQueue : Handle)
    (s : State) : Keeps s (Model.createIndexBuffer env i vkCommandPool vkQueue s) := by
  unfold Model.createIndexBuffer
  split
  · rfl
  · dsimp only
    refine keeps_andThen (createBuffer_keeps env _ _ _ _ _ (fun _ s => s)
      (fun _ s => s) (fun _ _ => rfl) (fun _ _ => rfl) s) fun _ s1 => ?_
    refine keeps_andThen (createBuffer_keeps _ _ _ _ _ _ _ _
      (fun _ _ => updateModel_vectors _ _ _) (fun _ _ => updateModel_vectors _ _ _) s1)
      fun _ s2 => ?_
    refine keeps_andThen (copyBuffer_keeps ..) fun _ s3 => ?_
    exact (call_vectors ..).trans (call_vectors ..)

theorem createVertexBuffers_keeps (env : Driver) (s : State) :
    Keeps s (createVertexBuffers env s) := by
  unfold createVertexBuffers
  exact keeps_forEachIndex (fun i s1 => createVertexBuffer_keeps env i _ _ s1) _ s

theorem createIndexBuffers_keeps (env : Driver) (s : State) :
    Keeps s (createIndexBuffers env s) := by
  unfold createIndexBuffers
  exact keeps_forEachIndex (fun i s1 => createIndexBuffer_keeps env i _ _ s1) _ s

theorem createUniformBuffer_keeps (env : Driver) (s : State) :
    Keeps s (createUniformBuffer env s) := by
  unfold createUniformBuffer
  refine keeps_forEachIndex (fun i s1 => ?_) _ s
  unfold Model.createUniformBuffer
  exact createBuffer_keeps _ _ _ _ _ _ _ _ (fun _ _ => updateModel_vectors _ _ _)
    (fun _ _ => updateModel_vectors _ _ _) s1

theorem createDescriptorPool_keeps (env : Driver) (s : State) :
    Keeps s (createDescriptorPool env s) := by
  unfold createDescriptorPool
  dsimp only
  split_ifs <;> rfl

theorem createDescriptorSet_keeps (env : Driver) (s : State) :
    Keeps s (createDescriptorSet env s) := by
  unfold createDescriptorSet
  dsimp only
  split_ifs
  · rfl
  · rfl
  · refine keeps_trans (t := { s.call _ with m_vkDescriptorSets := _ }) rfl
      (keeps_forEachIndex (fun i s1 => ?_) _ _)
    unfold createDescriptorSet.body
    split <;> rfl

theorem createSemaphores_keeps (env : Driver) (s : State) :
    Keeps s (createSemaphores env s) := by
  unfold createSemaphores
  dsimp only
  split_ifs <;> rfl

/-! ## One resource per swapchain image: the steps that establish it -/

theorem post_andThen {α β : Type} {P Q : State → Prop} {r : Outcome α × State}
    {k : α → State → Outcome β × State} (hr : Post Q r)
    (hk : ∀ a s1, Q s1 → Post P (k a s1)) : Post P (andThen r k) := by
  obtain ⟨o, s1⟩ := r
  cases o with
  | returned a => exact hk a s1 (hr a rfl)
  | threw e => intro value h; exact absurd h (by simp [andThen])
  | undefined => intro value h; exact absurd h (by simp [andThen])

theorem post_of_always {α : Type} {P : State → Prop} {r : Outcome α × State} (h : P r.2) :
    Post P r :=
  fun _ _ => h

/-- A property of the state that every pass of a loop body keeps, however the pass ends, holds
when the loop ends, however it ends. -/
theorem forEachIndex_invariant {I : State → Prop}
    {body : Nat → State → Outcome Unit × State} (hbody : ∀ i s, I s → I (body i s).2)
    (indices : List Nat) (s : State) (h : I s) : I (forEachIndex body indices s).2 := by
  induction indices generalizing s with
  | nil => exact h
  | cons i rest ih =>
    unfold forEachIndex
    have h1 := hbody i s h
    cases hb : body i s with
    | mk o s1 =>
      rw [hb] at h1
      cases o with
      | returned a => exact ih s1 h1
      | threw e => exact h1
      | undefined => exact h1

/-- However `createSwapchainImageViews` ends, the images are as before and there is one view
per image. -/
theorem createSwapchainImageViews_lengths (env : Driver) (s : State) :
    (createSwapchainImageViews env s).2.m_vkSwapchainImages = s.m_vkSwapchainImages ∧
    (createSwapchainImageViews env s).2.m_vkSwapchainImageViews.length
      = s.m_vkSwapchainImages.length := by
  unfold createSwapchainImageViews
  dsimp only
  refine forEachIndex_invariant
    (I := fun t => t.m_vkSwapchainImages = s.m_vkSwapchainImages ∧
      t.m_vkSwapchainImageViews.length = s.m_vkSwapchainImages.length) ?_ _ _
    ⟨rfl, resize_length _ _⟩
  intro i t ht
  unfold createSwapchainImageViews.body createImageView
  dsimp only
  split_ifs
  · exact ht
  · exact ⟨ht.1, by simpa [andThen, State.call] using ht.2⟩

/-- However `createFrameBuffers` ends, the images and views are as before and there is one
framebuffer per view. -/
theorem createFrameBuffers_lengths (env : Driver) (s : State) :
    (createFrameBuffers env s).2.m_vkSwapchainImages = s.m_vkSwapchainImages ∧
    (createFrameBuffers env s).2.m_vkSwapchainImageViews = s.m_vkSwapchainImageViews ∧
    (createFrameBuffers env s).2.m_vkSwapchainFrameBuffers.length
      = s.m_vkSwapchainImageViews.length := by
  unfold createFrameBuffers
  dsimp only
  refine forEachIndex_invariant
    (I := fun t => t.m_vkSwapchainImages = s.m_vkSwapchainImages ∧
      t.m_vkSwapchainImageViews = s.m_vkSwapchainImageViews ∧
      t.m_vkSwapchainFrameBuffers.length = s.m_vkSwapchainImageViews.length) ?_ _ _
    ⟨rfl, rfl, resize_length _ _⟩
  intro i t ht
  unfold createFrameBuffers.body
  dsimp only
  split_ifs
  · exact ht
  · exact ⟨ht.1, ht.2.1, by simpa [State.call] using ht.2.2⟩

/-- However `createAndFillCommandBuffers` ends, the images, views and framebuffers are as
before and there is one command buffer per framebuffer. -/
theorem createAndFillCommandBuffers_lengths (env : Driver) (s : State) :
    (createAndFillCommandBuffers env s).2.m_vkSwapchainImages = s.m_vkSwapchainImages ∧
    (createAndFillCommandBuffers env s).2.m_vkSwapchainImageViews
      = s.m_vkSwapchainImageViews ∧
    (createAndFillCommandBuffers env s).2.m_vkSwapchainFrameBuffers
      = s.m_vkSwapchainFrameBuffers ∧
    (createAndFillCommandBuffers env s).2.m_vkCommandBuffers.length
      = s.m_vkSwapchainFrameBuffers.length := by
  unfold createAndFillCommandBuffers
  dsimp only
  split_ifs
  · exact ⟨rfl, rfl, rfl, resize_length _ _⟩
  · refine forEachIndex_invariant
      (I := fun t => t.m_vkSwapchainImages = s.m_vkSwapchainImages ∧
        t.m_vkSwapchainImageViews = s.m_vkSwapchainImageViews ∧
        t.m_vkSwapchainFrameBuffers = s.m_vkSwapchainFrameBuffers ∧
        t.m_vkCommandBuffers.length = s.m_vkSwapchainFrameBuffers.length) ?_ _ _
      ⟨rfl, rfl, rfl, by simp [State.call]⟩
    intro i t ht
    unfold createAndFillCommandBuffers.body
    split_ifs <;> exact ht

theorem viewPerImage_of_vectors {s t : State} (h : t.vectors = s.vectors)
    (hs : s.ViewPerImage) : t.ViewPerImage := by
  unfold State.vectors at h
  unfold State.ViewPerImage at *
  simp only [Prod.mk.injEq] at h
  rw [h.1, h.2.1]
  exact hs

theorem framebufferPerImage_of_vectors {s t : State} (h : t.vectors = s.vectors)
    (hs : s.FramebufferPerImage) : t.FramebufferPerImage := by
  refine ⟨viewPerImage_of_vectors h hs.1, ?_⟩
  unfold State.vectors at h
  simp only [Prod.mk.injEq] at h
  rw [h.1, h.2.2.1]
  exact hs.2

theorem onePerImage_of_vectors {s t : State} (h : t.vectors = s.vectors)
    (hs : s.OnePerImage) : t.OnePerImage := by
  refine ⟨framebufferPerImage_of_vectors h hs.1, ?_⟩
  unfold State.vectors at h
  simp only [Prod.mk.injEq] at h
  rw [h.1, h.2.2.2]
  exact hs.2

theorem createSwapchainImageViews_post (env : Driver) (s : State) :
    Post State.ViewPerImage (createSwapchainImageViews env s) := by
  apply post_of_always
  unfold State.ViewPerImage
  rw [(createSwapchainImageViews_lengths env s).1, (createSwapchainImageViews_lengths env s).2]

theorem createFrameBuffers_post (env : Driver) (s : State) (h : s.ViewPerImage) :
    Post State.FramebufferPerImage (createFrameBuffers env s) := by
  apply post_of_always
  obtain ⟨h1, h2, h3⟩ := createFrameBuffers_lengths env s
  unfold State.FramebufferPerImage State.ViewPerImage at *
  rw [h1, h2, h3]
  exact ⟨h, h⟩

theorem createAndFillCommandBuffers_post (env : Driver) (s : State)
    (h : s.FramebufferPerImage) :
    Post State.OnePerImage (createAndFillCommandBuffers env s) := by
  apply post_of_always
  obtain ⟨h1, h2, h3, h4⟩ := createAndFillCommandBuffers_lengths env s
  unfold State.OnePerImage State.FramebufferPerImage State.ViewPerImage at *
  rw [h1, h2, h3, h4]
  exact ⟨h, h.2⟩

/-- After `initVulkan`, if it returns, there is one view, one framebuffer and one command
buffer per swapchain image. -/
theorem initVulkan_post (env : Driver) (s : State) :
    Post State.OnePerImage (initVulkan env s) := by
  unfold initVulkan
  refine post_andThen (Q := fun _ => True) (fun _ _ => trivial) fun _ s1 _ => ?_
  refine post_andThen (Q := fun _ => True) (fun _ _ => trivial) fun _ s2 _ => ?_
  refine post_andThen (Q := fun _ => True) (fun _ _ => trivial) fun _ s3 _ => ?_
  refine post_andThen (Q := fun _ => True) (fun _ _ => trivial) fun _ s4 _ => ?_
  refine post_andThen (Q := fun _ => True) (fun _ _ => trivial) fun _ s5 _ => ?_
  refine post_andThen (Q := fun _ => True) (fun _ _ => trivial) fun _ s6 _ => ?_
  refine post_andThen (createSwapchainImageViews_post env s6) fun _ s7 h7 => ?_
  refine post_andThen (Q := State.ViewPerImage)
    (post_of_always (viewPerImage_of_vectors (createRenderPass_keeps env s7) h7))
    fun _ s8 h8 => ?_
  refine post_andThen (Q := State.ViewPerImage)
    (post_of_always (viewPerImage_of_vectors (createDescriptorSetLayout_keeps env s8) h8))
    fun _ s9 h9 => ?_
  refine post_andThen (Q := State.ViewPerImage)
    (post_of_always (viewPerImage_of_vectors (createGraphicsPipeline_keeps env s9) h9))
    fun _ s10 h10 => ?_
  refine post_andThen (Q := State.ViewPerImage)
    (post_of_always (viewPerImage_of_vectors (createCommandPool_keeps env s10) h10))
    fun _ s11 h11 => ?_
  refine post_andThen (Q := State.ViewPerImage)
    (post_of_always (viewPerImage_of_vectors (createDepthResources_keeps env s11) h11))
    fun _ s12 h12 => ?_
  refine post_andThen (createFrameBuffers_post env s12 h12) fun _ s13 h13 => ?_
  refine post_andThen (Q := State.FramebufferPerImage)
    (post_of_always (framebufferPerImage_of_vectors (createTextureImage_keeps env s13) h13))
    fun _ s14 h14 => ?_
  refine post_andThen (Q := State.FramebufferPerImage)
    (post_of_always
      (framebufferPerImage_of_vectors (createTextureImageView_keeps env s14) h14))
    fun _ s15 h15 => ?_
  refine post_andThen (Q := State.FramebufferPerImage)
    (post_of_always
      (framebufferPerImage_of_vectors (createTextureSampler_keeps env s15) h15))
    fun _ s16 h16 => ?_
  refine post_andThen (Q := State.FramebufferPerImage)
    (post_of_always (framebufferPerImage_of_vectors (loadModels_keeps env s16) h16))
    fun _ s17 h17 => ?_
  refine post_andThen (Q := State.FramebufferPerImage)
    (post_of_always (framebufferPerImage_of_vectors (createVertexBuffers_keeps env s17) h17))
    fun _ s18 h18 => ?_
  refine post_andThen (Q := State.FramebufferPerImage)
    (post_of_always (framebufferPerImage_of_vectors (createIndexBuffers_keeps env s18) h18))
    fun _ s19 h19 => ?_
  refine post_andThen (Q := State.FramebufferPerImage)
    (post_of_always (framebufferPerImage_of_vectors (createUniformBuffer_keeps env s19) h19))
    fun _ s20 h20 => ?_
  refine post_andThen (Q := State.FramebufferPerImage)
    (post_of_always (framebufferPerImage_of_vectors (createDescriptorPool_keeps env s20) h20))
    fun _ s21 h21 => ?_
  refine post_andThen (Q := State.FramebufferPerImage)
    (post_of_always (framebufferPerImage_of_vectors (createDescriptorSet_keeps env s21) h21))
    fun _ s22 h22 => ?_
  refine post_andThen (createAndFillCommandBuffers_post env s22 h22) fun _ s23 h23 => ?_
  exact post_of_always (onePerImage_of_vectors (createSemaphores_keeps env s23) h23)

/-- After a `recreateSwapchain` that is not the no-op of a window without area, if it returns,
there is one view, one framebuffer and one command buffer per swapchain image. -/
theorem recreateSwapchain_post (env : Driver) (s : State)
    (harea : ¬ (0 = env.windowWidth ∨ 0 = env.windowHeight)) :
    Post State.OnePerImage (recreateSwapchain env s) := by
  unfold recreateSwapchain
  dsimp only
  rw [if_neg harea]
  refine post_andThen (Q := fun _ => True) (fun _ _ => trivial) fun _ s1 _ => ?_
  refine post_andThen (createSwapchainImageViews_post env s1) fun _ s2 h2 => ?_
  refine post_andThen (Q := State.ViewPerImage)
    (post_of_always (viewPerImage_of_vectors (createRenderPass_keeps env s2) h2))
    fun _ s3 h3 => ?_
  refine post_andThen (Q := State.ViewPerImage)
    (post_of_always (viewPerImage_of_vectors (createGraphicsPipeline_keeps env s3) h3))
    fun _ s4 h4 => ?_
  refine post_andThen (Q := State.ViewPerImage)
    (post_of_always (viewPerImage_of_vectors (createDepthResources_keeps env s4) h4))
    fun _ s5 h5 => ?_
  refine post_andThen (createFrameBuffers_post env s5 h5) fun _ s6 h6 => ?_
  exact createAndFillCommandBuffers_post env s6 h6

/-- C25: after `initVulkan`, and after every `recreateSwapchain` of a window with area, if the
method returns, the numbers of swapchain image views, framebuffers and command buffers equal
the number of swapchain images, and for every image index below that number the element of
`m_vkCommandBuffers` that `drawFrame` submits exists. -/
theorem swapchain_resources_one_per_image (env : Driver) (s : State) :
    (∀ value, (initVulkan env s).1 = .returned value →
      (initVulkan env s).2.OnePerImage ∧
      ∀ imageIndex, imageIndex < (initVulkan env s).2.m_vkSwapchainImages.length →
        ∃ commandBuffer,
          (initVulkan env s).2.m_vkCommandBuffers.get? imageIndex = some commandBuffer) ∧
    (¬ (0 = env.windowWidth ∨ 0 = env.windowHeight) →
      ∀ value, (recreateSwapchain env s).1 = .returned value →
        (recreateSwapchain env s).2.OnePerImage ∧
        ∀ imageIndex, imageIndex < (recreateSwapchain env s).2.m_vkSwapchainImages.length →
          ∃ commandBuffer,
            (recreateSwapchain env s).2.m_vkCommandBuffers.get? imageIndex
              = some commandBuffer) := by
  have hexists : ∀ t : State, t.OnePerImage →
      ∀ imageIndex, imageIndex < t.m_vkSwapchainImages.length →
        ∃ commandBuffer, t.m_vkCommandBuffers.get? imageIndex = some commandBuffer := by
    intro t ht imageIndex hlt
    rw [← ht.2] at hlt
    exact ⟨t.m_vkCommandBuffers.get ⟨imageIndex, hlt⟩, List.get?_eq_get hlt⟩
  refine ⟨fun value hreturned => ?_, fun harea value hreturned => ?_⟩
  · have h := initVulkan_post env s value hreturned
    exact ⟨h, hexists _ h⟩
  · have h := recreateSwapchain_post env s harea value hreturned
    exact ⟨h, hexists _ h⟩

theorem swapchain_resources_one_per_image_witness :
    ((initVulkan startup State.constructed).1 = .returned () ∧
      (initVulkan startup State.constructed).2.OnePerImage ∧
      ∃ commandBuffer,
        (initVulkan startup State.constructed).2.m_vkCommandBuffers.get? 0
          = some commandBuffer) ∧
    (¬ (0 = startup.windowWidth ∨ 0 = startup.windowHeight) ∧
      (recreateSwapchain startup running).1 = .returned () ∧
      (recreateSwapchain startup running).2.OnePerImage) := by
  have hload : startup.stbi_load = some (2, 2) := rfl
  have hlevels : createTextureImage.mipLevels 2 2 = some 2 := by
    simp [createTextureImage.mipLevels, Nat.log2]
  have hinit : (initVulkan startup State.constructed).1 = .returned () := by
    simp only [initVulkan, createTextureImage, hload, hlevels]
    decide
  have himages :
      0 < (initVulkan startup State.constructed).2.m_vkSwapchainImages.length := by
    simp only [initVulkan, createTextureImage, hload, hlevels]
    decide
  have harea : ¬ (0 = startup.windowWidth ∨ 0 = startup.windowHeight) := by decide
  have hrecreate : (recreateSwapchain startup running).1 = .returned () := by decide
  exact
    ⟨⟨hinit,
      ((swapchain_resources_one_per_image startup State.constructed).1 () hinit).1,
      ((swapchain_resources_one_per_image startup State.constructed).1 () hinit).2 0
        himages⟩,
     harea, hrecreate,
     ((swapchain_resources_one_per_image startup running).2 harea () hrecreate).1⟩

/-! ## The top-level routine `run` -/

set_option maxRecDepth 8000 in
/-- C24, counterexample: an error raised in `initVulkan` or in `mainLoop` leaves `run` with
nothing torn down.  When `vkCreateSwapchainKHR` fails at start-up, the window, the instance,
the surface and the device have been created and the log holds no destroy or free call at
all.  When `vkAcquireNextImageKHR` fails in the second frame, the only destroy and free calls
in the log are those of the temporaries of start-up (shader modules, staging buffers and
single-use command buffers): the swapchain, the device, the instance and the window are
never destroyed. -/
theorem run_error_skips_cleanup :
    ((run startupLostDevice [quietFrame] State.constructed).1
        = .threw .swapchainCreationFailed ∧
      Call.glfwCreateWindow 800 600
        ∈ (run startupLostDevice [quietFrame] State.constructed).2.calls ∧
      Call.vkCreateInstance 2 0
        ∈ (run startupLostDevice [quietFrame] State.constructed).2.calls ∧
      Call.glfwCreateWindowSurface 201 90
        ∈ (run startupLostDevice [quietFrame] State.constructed).2.calls ∧
      Call.vkCreateDevice 91 [0] 0
        ∈ (run startupLostDevice [quietFrame] State.constructed).2.calls ∧
      (run startupLostDevice [quietFrame] State.constructed).2.calls.filter Call.isTeardown
        = []) ∧
    ((run startup [quietFrame, lostDeviceFrame] State.constructed).1
        = .threw .failedToAcquireSwapchainImage ∧
      (run startup [quietFrame, lostDeviceFrame] State.constructed).2.calls.filter
          Call.isTeardown
        = [.vkDestroyShaderModule 121, .vkDestroyShaderModule 122,
           .vkFreeCommandBuffers 14 [128], .vkFreeCommandBuffers 14 [128],
           .vkFreeCommandBuffers 14 [128], .vkFreeCommandBuffers 14 [128],
           .vkDestroyBuffer 214, .vkFreeMemory 215,
           .vkFreeCommandBuffers 14 [128], .vkDestroyBuffer 220, .vkFreeMemory 221,
           .vkFreeCommandBuffers 14 [128], .vkDestroyBuffer 224, .vkFreeMemory 225]) := by
  have hload : startup.stbi_load = some (2, 2) := rfl
  have hlevels : createTextureImage.mipLevels 2 2 = some 2 := by
    simp [createTextureImage.mipLevels, Nat.log2]
  refine ⟨?_, ?_⟩
  · decide
  · simp only [run, initVulkan, createTextureImage, hload, hlevels]
    decide

/-- C24, as the code has it: `run` calls `cleanup` exactly when `initWindow`, `initVulkan` and
`mainLoop` all return.  When one of them raises an error, `run` ends with that error in the
state in which it was raised: no call is made after it, so nothing is torn down. -/
theorem run_cleans_up_only_after_normal_return (env : Driver) (frames : List Frame)
    (s : State) :
    (∀ e s1, initWindow env s = (.threw e, s1) → run env frames s = (.threw e, s1)) ∧
    (∀ s1 e s2, initWindow env s = (.returned (), s1) →
      initVulkan env s1 = (.threw e, s2) → run env frames s = (.threw e, s2)) ∧
    (∀ s1 s2 e s3, initWindow env s = (.returned (), s1) →
      initVulkan env s1 = (.returned (), s2) → mainLoop frames s2 = (.threw e, s3) →
      run env frames s = (.threw e, s3)) ∧
    (∀ s1 s2 s3, initWindow env s = (.returned (), s1) →
      initVulkan env s1 = (.returned (), s2) → mainLoop frames s2 = (.returned (), s3) →
      run env frames s = (.returned (), cleanup env s3)) := by
  refine ⟨?_, ?_, ?_, ?_⟩
  · intro e s1 h1
    simp only [run, h1, andThen]
  · intro s1 e s2 h1 h2
    simp only [run, h1, h2, andThen]
  · intro s1 s2 e s3 h1 h2 h3
    simp only [run, h1, h2, h3, andThen]
  · intro s1 s2 s3 h1 h2 h3
    simp only [run, h1, h2, h3, andThen]

theorem run_cleans_up_only_after_normal_return_witness :
    run startupLostDevice [quietFrame] State.constructed
      = (.threw .swapchainCreationFailed,
          (initVulkan startupLostDevice
            (initWindow startupLostDevice State.constructed).2).2) :=
  (run_cleans_up_only_after_normal_return startupLostDevice [quietFrame]
      State.constructed).2.1
    (initWindow startupLostDevice State.constructed).2 .swapchainCreationFailed
    (initVulkan startupLostDevice (initWindow startupLostDevice State.constructed).2).2
    (Prod.ext (by decide) rfl) (Prod.ext (by decide) rfl)

end Vulkan
